import Mathlib

/-!
# VulkanAndroid: swapchain, shader and frame-acquisition policies

A shallow embedding of the JNI entry points of the repository
(`Vulkanshader.cpp`, `Vulkanswapchain.cpp`, `vulkan_renderer.cpp`,
`vulkan_jni.cpp`).  Vulkan handles are natural numbers with `0` standing for
`VK_NULL_HANDLE`; `uint32_t` values are natural numbers reduced modulo `2^32`
where the source can wrap; `VkResult` and `jint` values are integers.  The
driver is an explicit record of the answers it gives, and every entry point
returns, next to its result, the list of Vulkan calls it issued.
-/

namespace VulkanAndroid

/-! ## Constants of the Vulkan headers -/

def UINT32_MAX : Nat := 4294967295

def VK_NULL_HANDLE : Nat := 0

def VK_SUCCESS : Int := 0

def VK_SUBOPTIMAL_KHR : Int := 1000001003

def VK_ERROR_OUT_OF_DATE_KHR : Int := -1000001004

def VK_FORMAT_B8G8R8A8_UNORM : Nat := 44

def VK_FORMAT_B8G8R8A8_SRGB : Nat := 50

def VK_COLOR_SPACE_SRGB_NONLINEAR_KHR : Nat := 0

/-- The `static_cast<uint32_t>` of a `jint`. -/
def toUint32 (x : Int) : Nat := (x % 4294967296).toNat

/-- The conversion of a `uint32_t` to `jint` (two's complement). -/
def toJint (x : Nat) : Int :=
  if x % 4294967296 < 2147483648 then ((x % 4294967296 : Nat) : Int)
  else ((x % 4294967296 : Nat) : Int) - 4294967296

/-! ## Data model -/

structure VkExtent2D where
  width : Nat
  height : Nat
  deriving DecidableEq, Repr

structure VkSurfaceFormatKHR where
  format : Nat
  colorSpace : Nat
  deriving DecidableEq, Repr

structure VkSurfaceCapabilitiesKHR where
  minImageCount : Nat
  maxImageCount : Nat
  currentExtent : VkExtent2D
  minImageExtent : VkExtent2D
  maxImageExtent : VkExtent2D
  deriving DecidableEq, Repr

structure DeviceInfo where
  device : Nat
  physicalDevice : Nat
  graphicsQueue : Nat
  presentQueue : Nat
  graphicsQueueFamily : Nat
  presentQueueFamily : Nat
  surface : Nat
  deriving DecidableEq, Repr

inductive VkSharingMode where
  | exclusive
  | concurrent
  deriving DecidableEq, Repr

/-- The fields of `VkSwapchainCreateInfoKHR` that the entry points do not
set to one fixed constant everywhere.  `queueFamilyIndices` is empty when the
source leaves `queueFamilyIndexCount` at zero. -/
structure VkSwapchainCreateInfoKHR where
  surface : Nat
  minImageCount : Nat
  imageFormat : Nat
  imageColorSpace : Nat
  imageExtent : VkExtent2D
  imageSharingMode : VkSharingMode
  queueFamilyIndices : List Nat
  presentMode : Nat
  oldSwapchain : Nat
  deriving DecidableEq, Repr

structure SwapchainInfo where
  swapchain : Nat
  images : List Nat
  imageViews : List Nat
  framebuffers : List Nat
  format : VkSurfaceFormatKHR
  extent : VkExtent2D
  deriving DecidableEq, Repr

/-- A Vulkan call issued by an entry point, in program order. -/
inductive VkCall where
  | deviceWaitIdle
  | getSurfaceCapabilities
  | getSurfaceFormats
  | getSurfacePresentModes
  | createShaderModule (codeSize : Nat) (pCode : List Nat)
  | createSwapchain (info : VkSwapchainCreateInfoKHR)
  | destroySwapchain (swapchain : Nat)
  | getSwapchainImages (swapchain : Nat)
  | createImageView (image : Nat) (format : Nat)
  | destroyImageView (view : Nat)
  | createFramebuffer (renderPass : Nat) (attachment : Nat) (width height : Nat)
  | destroyFramebuffer (framebuffer : Nat)
  deriving DecidableEq, Repr

/-- The answers the driver and the surface give during one run of an entry
point.  `imageViewAnswer i` and `framebufferAnswer i` are the `VkResult` of the
creation call made for index `i` and the value found in the output slot after
it. -/
structure Driver where
  waitIdleResult : Int
  capabilitiesResult : Int
  capabilities : VkSurfaceCapabilitiesKHR
  formats : List VkSurfaceFormatKHR
  presentModes : List Nat
  createSwapchainResult : Int
  newSwapchain : Nat
  swapchainImages : List Nat
  imageViewAnswer : Nat → Int × Nat
  framebufferAnswer : Nat → Int × Nat

/-- A run of an entry point: either it returned `ret`, or it ran into undefined
behaviour (an out-of-bounds vector read, a null-pointer dereference); in both
cases `calls` are the Vulkan calls issued up to that point. -/
inductive Run (α : Type) where
  | undefinedBehaviour (calls : List VkCall)
  | done (ret : α) (calls : List VkCall)

/-- The Vulkan calls issued by a run. -/
def Run.calls {α : Type} : Run α → List VkCall
  | Run.undefinedBehaviour calls => calls
  | Run.done _ calls => calls

/-- What `nativeResizeSwapchain` did: the `jboolean` returned, the
`SwapchainInfo` behind the handle at return (`none` for a null handle) and the
Vulkan calls issued. -/
structure ResizeRun where
  ret : Bool
  info : Option SwapchainInfo
  calls : List VkCall
  deriving DecidableEq, Repr

/-- The outcome of a creation loop: the index whose creation failed, if any,
the output vector and the calls issued. -/
structure LoopRun where
  failedAt : Option Nat
  slots : List Nat
  calls : List VkCall
  deriving DecidableEq, Repr

def VK_PRESENT_MODE_MAILBOX_KHR : Nat := 1

def VK_PRESENT_MODE_FIFO_KHR : Nat := 2

/-- The call `std::vector::resize(n)` on a vector of handles: kept elements stay,
new ones are value-initialised to `VK_NULL_HANDLE`. -/
def vectorResize (v : List Nat) (n : Nat) : List Nat :=
  (v ++ List.replicate (n - v.length) VK_NULL_HANDLE).take n

/-- The function `std::clamp(v, lo, hi)`. -/
def stdClamp (v lo hi : Nat) : Nat :=
  if v < lo then lo else if hi < v then hi else v

/-- The loop `for (i = start; i < n; i++) { result = vkCreate..(.., &slots[i]);
if (result != VK_SUCCESS) return false; }` as far as it runs: `remaining` is
`n - i`, the call made at index `i` is `mkCall i`. -/
def createLoop (answer : Nat → Int × Nat) (mkCall : Nat → VkCall) :
    (remaining : Nat) → (i : Nat) → (slots : List Nat) → (calls : List VkCall) → LoopRun
  | 0, _, slots, calls => ⟨none, slots, calls⟩
  | remaining + 1, i, slots, calls =>
    if (answer i).1 ≠ VK_SUCCESS then
      ⟨some i, slots.set i (answer i).2, calls ++ [mkCall i]⟩
    else
      createLoop answer mkCall remaining (i + 1) (slots.set i (answer i).2) (calls ++ [mkCall i])

/-- The loop `for (auto h : handles) if (h != VK_NULL_HANDLE) vkDestroy..(h)`. -/
def destroyNonNull (mkCall : Nat → VkCall) (handles : List Nat) : List VkCall :=
  (handles.filter fun h => h ≠ VK_NULL_HANDLE).map mkCall

/-! ## Vulkanshader.cpp -/

def SPIRV_MAGIC : Nat := 0x07230203

/-- The function `validateSPIRV` of Vulkanshader.cpp, over the vector of 32-bit words. -/
def validateSPIRV (code : List Nat) : Bool :=
  if code.isEmpty then false
  else if code.length * 4 < 16 then false
  else if code.getD 0 0 ≠ SPIRV_MAGIC then false
  else true

/-- Word `i` of the buffer after `std::memcpy(alignedCode.data(), code, codeSize)`
on a little-endian host: bytes `4i .. 4i+3` of the array. -/
def memcpyWord (code : List Nat) (i : Nat) : Nat :=
  code.getD (4 * i) 0 % 256 + 256 * (code.getD (4 * i + 1) 0 % 256)
    + 65536 * (code.getD (4 * i + 2) 0 % 256) + 16777216 * (code.getD (4 * i + 3) 0 % 256)

/-- The vector `alignedCode(codeSize / 4)` filled by the `memcpy`. -/
def alignedCode (code : List Nat) : List Nat :=
  (List.range (code.length / 4)).map (memcpyWord code)

/-- The helper `getDevice` of Vulkanjni.h: `getDeviceInfo(deviceHandle)->device`,
a dereference of the handle; `none` stands for the dereference of a zero handle. -/
def getDevice (deviceInfo : Option DeviceInfo) : Option Nat :=
  match deviceInfo with
  | none => none
  | some info => some info.device

/-- The helper `validateHandle` of Vulkanjni.h. -/
def validateHandle (handle : Nat) : Bool :=
  if handle = VK_NULL_HANDLE then false else true

/-- The entry point `SimpleVulkanFilter.nativeCreateShaderModule` of Vulkanshader.cpp.
`deviceInfo` is the `DeviceInfo` behind the device handle (`none` for a zero
handle), `codeArray` is `none` for a null array, `elementsOk` tells whether
`GetByteArrayElements` returned a non-null pointer, `createResult` and
`shaderModule` are the driver's answer to `vkCreateShaderModule`. -/
def nativeCreateShaderModule (deviceInfo : Option DeviceInfo) (codeArray : Option (List Nat))
    (elementsOk : Bool) (createResult : Int) (shaderModule : Nat) : Run Nat :=
  match getDevice deviceInfo with
  | none => Run.undefinedBehaviour []
  | some device =>
    if !validateHandle device then Run.done 0 []
    else
      match codeArray with
      | none => Run.done 0 []
      | some code =>
        let codeSize := code.length
        if codeSize % 4 ≠ 0 then Run.done 0 []
        else if !elementsOk then Run.done 0 []
        else
          let aligned := alignedCode code
          if !validateSPIRV aligned then Run.done 0 []
          else if createResult ≠ VK_SUCCESS then
            Run.done 0 [VkCall.createShaderModule codeSize aligned]
          else Run.done shaderModule [VkCall.createShaderModule codeSize aligned]

/-- The first four bytes of a byte array read as a little-endian 32-bit
word, as the specification words it; `none` when there are fewer than four. -/
def firstWordLE : List Nat → Option Nat
  | b0 :: b1 :: b2 :: b3 :: _ =>
    some (b0 % 256 + 256 * (b1 % 256) + 65536 * (b2 % 256) + 16777216 * (b3 % 256))
  | _ => none

/-- Whether a call list holds a `vkCreateShaderModule`. -/
def issuedCreateShaderModule (calls : List VkCall) : Bool :=
  calls.any fun
    | VkCall.createShaderModule _ _ => true
    | _ => false

/-- The loop `for (x : xs) if (test(x)) { chosen = x; break; }` started with
`chosen` as the current choice. -/
def forBreakLoop {α : Type} (test : α → Bool) : List α → α → α
  | [], chosen => chosen
  | x :: rest, chosen => if test x then x else forBreakLoop test rest chosen

/-! ## vulkan_renderer.cpp -/

namespace vulkan_renderer

/-- The test of the format loop of `nativeCreateSwapchain`. -/
def isPreferredFormat (format : VkSurfaceFormatKHR) : Bool :=
  format.format == VK_FORMAT_B8G8R8A8_UNORM
    && format.colorSpace == VK_COLOR_SPACE_SRGB_NONLINEAR_KHR

/-- Lines 348-354: `surfaceFormat = formats[0]` followed by the loop; `none`
when `formats[0]` is read on an empty vector. -/
def chooseFormat (formats : List VkSurfaceFormatKHR) : Option VkSurfaceFormatKHR :=
  match formats with
  | [] => none
  | first :: _ => some (forBreakLoop isPreferredFormat formats first)

/-- Lines 360-364 of `nativeCreateSwapchain`. -/
def createExtent (capabilities : VkSurfaceCapabilitiesKHR) : VkExtent2D :=
  if capabilities.currentExtent.width = UINT32_MAX then ⟨1920, 1080⟩
  else capabilities.currentExtent

/-- Lines 366-369 of `nativeCreateSwapchain`, in `uint32_t` arithmetic. -/
def createImageCount (capabilities : VkSurfaceCapabilitiesKHR) : Nat :=
  let imageCount := (capabilities.minImageCount + 1) % 4294967296
  if capabilities.maxImageCount > 0 ∧ imageCount > capabilities.maxImageCount then
    capabilities.maxImageCount
  else imageCount

/-- Lines 744-758 of `nativeResizeSwapchain`. -/
def resizeExtent (surfaceCapabilities : VkSurfaceCapabilitiesKHR) (width height : Int) :
    VkExtent2D :=
  if surfaceCapabilities.currentExtent.width ≠ UINT32_MAX then
    surfaceCapabilities.currentExtent
  else
    ⟨stdClamp (toUint32 width) surfaceCapabilities.minImageExtent.width
        surfaceCapabilities.maxImageExtent.width,
      stdClamp (toUint32 height) surfaceCapabilities.minImageExtent.height
        surfaceCapabilities.maxImageExtent.height⟩

/-- Lines 763-767 of `nativeResizeSwapchain`, in `uint32_t` arithmetic. -/
def resizeImageCount (surfaceCapabilities : VkSurfaceCapabilitiesKHR) : Nat :=
  let imageCount := (surfaceCapabilities.minImageCount + 1) % 4294967296
  if surfaceCapabilities.maxImageCount > 0
      ∧ imageCount > surfaceCapabilities.maxImageCount then
    surfaceCapabilities.maxImageCount
  else imageCount

/-- The entry point `VulkanRenderer.nativeCreateSwapchain` of vulkan_renderer.cpp (lines 332-443).
The device handle is dereferenced unchecked, so it is taken as a `DeviceInfo`. -/
def nativeCreateSwapchain (drv : Driver) (deviceInfo : DeviceInfo) :
    Run (Option SwapchainInfo) :=
  let capabilities := drv.capabilities
  let formats := drv.formats
  let calls1 := [VkCall.getSurfaceCapabilities, VkCall.getSurfaceFormats,
    VkCall.getSurfaceFormats]
  match chooseFormat formats with
  | none => Run.undefinedBehaviour calls1
  | some surfaceFormat =>
    let presentMode := VK_PRESENT_MODE_FIFO_KHR
    let extent := createExtent capabilities
    let imageCount := createImageCount capabilities
    let createInfo : VkSwapchainCreateInfoKHR :=
      { surface := deviceInfo.surface
        minImageCount := imageCount
        imageFormat := surfaceFormat.format
        imageColorSpace := surfaceFormat.colorSpace
        imageExtent := extent
        imageSharingMode :=
          if deviceInfo.graphicsQueueFamily ≠ deviceInfo.presentQueueFamily then
            VkSharingMode.concurrent
          else VkSharingMode.exclusive
        queueFamilyIndices :=
          if deviceInfo.graphicsQueueFamily ≠ deviceInfo.presentQueueFamily then
            [deviceInfo.graphicsQueueFamily, deviceInfo.presentQueueFamily]
          else []
        presentMode := presentMode
        oldSwapchain := VK_NULL_HANDLE }
    let calls2 := calls1 ++ [VkCall.createSwapchain createInfo]
    if drv.createSwapchainResult ≠ VK_SUCCESS then Run.done none calls2
    else
      let swapchain := drv.newSwapchain
      let swapchainImages := drv.swapchainImages
      let swapchainImageCount := swapchainImages.length
      let calls3 := calls2 ++ [VkCall.getSwapchainImages swapchain,
        VkCall.getSwapchainImages swapchain]
      let swapchainImageViews :=
        (List.range swapchainImageCount).map fun i => (drv.imageViewAnswer i).2
      let calls4 := calls3 ++ (List.range swapchainImageCount).map fun i =>
        VkCall.createImageView (swapchainImages.getD i 0) surfaceFormat.format
      Run.done
        (some { swapchain := swapchain
                images := swapchainImages
                imageViews := swapchainImageViews
                framebuffers := []
                format := surfaceFormat
                extent := extent })
        calls4

/-- The entry point `VulkanRenderer.nativeResizeSwapchain` of vulkan_renderer.cpp (lines 681-887).
`deviceInfo` and `swapchainInfo` are `none` for a zero handle. -/
def nativeResizeSwapchain (drv : Driver) (deviceInfo : Option DeviceInfo)
    (swapchainInfo : Option SwapchainInfo) (renderPass : Nat) (width height : Int) :
    ResizeRun :=
  if width ≤ 0 ∨ height ≤ 0 then ⟨false, swapchainInfo, []⟩
  else
    match deviceInfo, swapchainInfo with
    | none, _ => ⟨false, swapchainInfo, []⟩
    | some _, none => ⟨false, none, []⟩
    | some dev, some sc =>
      -- 1. wait for the device
      let calls1 := [VkCall.deviceWaitIdle]
      if drv.waitIdleResult ≠ VK_SUCCESS then ⟨false, some sc, calls1⟩
      else
        -- 2. and 3. destroy the old framebuffers, then the old image views
        let calls2 := calls1 ++ destroyNonNull VkCall.destroyFramebuffer sc.framebuffers
        let sc2 := { sc with framebuffers := [] }
        let calls3 := calls2 ++ destroyNonNull VkCall.destroyImageView sc2.imageViews
        let sc3 := { sc2 with imageViews := [] }
        -- 4. keep the old swapchain, 5. query the surface
        let oldSwapchain := sc3.swapchain
        let calls4 := calls3 ++ [VkCall.getSurfaceCapabilities]
        if drv.capabilitiesResult ≠ VK_SUCCESS then ⟨false, some sc3, calls4⟩
        else
          let surfaceCapabilities := drv.capabilities
          -- 6. extent, 7. image count, 8. new swapchain
          let newExtent := resizeExtent surfaceCapabilities width height
          let imageCount := resizeImageCount surfaceCapabilities
          let createInfo : VkSwapchainCreateInfoKHR :=
            { surface := dev.surface
              minImageCount := imageCount
              imageFormat := sc3.format.format
              imageColorSpace := sc3.format.colorSpace
              imageExtent := newExtent
              imageSharingMode := VkSharingMode.exclusive
              queueFamilyIndices := []
              presentMode := VK_PRESENT_MODE_FIFO_KHR
              oldSwapchain := oldSwapchain }
          let calls5 := calls4 ++ [VkCall.createSwapchain createInfo]
          if drv.createSwapchainResult ≠ VK_SUCCESS then ⟨false, some sc3, calls5⟩
          else
            let newSwapchain := drv.newSwapchain
            -- 9. destroy the old swapchain
            let calls6 := calls5 ++
              (if oldSwapchain ≠ VK_NULL_HANDLE then [VkCall.destroySwapchain oldSwapchain]
               else [])
            let sc4 := { sc3 with swapchain := newSwapchain, extent := newExtent }
            -- 10. images of the new swapchain
            let calls7 := calls6 ++ [VkCall.getSwapchainImages newSwapchain,
              VkCall.getSwapchainImages newSwapchain]
            let images := drv.swapchainImages
            let actualImageCount := images.length
            -- 11. image views
            let views := createLoop drv.imageViewAnswer
              (fun i => VkCall.createImageView (images.getD i 0) sc4.format.format)
              actualImageCount 0 (vectorResize sc4.imageViews actualImageCount) calls7
            let sc5 := { sc4 with imageViews := views.slots }
            match views.failedAt with
            | some _ => ⟨false, some sc5, views.calls⟩
            | none =>
              -- 12. framebuffers
              let fbs := createLoop drv.framebufferAnswer
                (fun i => VkCall.createFramebuffer renderPass (sc5.imageViews.getD i 0)
                  newExtent.width newExtent.height)
                actualImageCount 0 (vectorResize sc5.framebuffers actualImageCount)
                views.calls
              let sc6 := { sc5 with framebuffers := fbs.slots }
              match fbs.failedAt with
              | some _ => ⟨false, some sc6, fbs.calls⟩
              | none => ⟨true, some sc6, fbs.calls⟩

/-- The entry point `VulkanRenderer.nativeAcquireNextImage` of vulkan_renderer.cpp (lines 495-518);
`result` and `imageIndex` are what `vkAcquireNextImageKHR` produced. -/
def nativeAcquireNextImage (result : Int) (imageIndex : Nat) : Int :=
  if result ≠ VK_SUCCESS ∧ result ≠ VK_SUBOPTIMAL_KHR then -1
  else toJint imageIndex

end vulkan_renderer

/-! ## Vulkanswapchain.cpp

The file exists twice in the repository (`app/src/main/cpp` and
`app/src/src/main/cpp`); its first 359 lines are the same text in both, and the
second copy adds `nativeGetSwapchainImageCount`. -/

namespace Vulkanswapchain

/-- The three helpers that Vulkanswapchain.cpp declares `extern` (lines 15-17)
and that no source file of the repository defines. -/
structure Externs where
  chooseSurfaceFormat : List VkSurfaceFormatKHR → VkSurfaceFormatKHR
  getSwapchainImageCount : VkSurfaceCapabilitiesKHR → Nat
  chooseSwapExtent : VkSurfaceCapabilitiesKHR → Nat → Nat → VkExtent2D

/-- What the static `createImageViews` did. -/
structure ImageViewsRun where
  ok : Bool
  info : SwapchainInfo
  calls : List VkCall
  deriving DecidableEq, Repr

/-- The static `createImageViews` (lines 20-54), continuing the call list `calls`. -/
def createImageViews (drv : Driver) (swapchainInfo : SwapchainInfo) (images : List Nat)
    (calls : List VkCall) : ImageViewsRun :=
  let run := createLoop drv.imageViewAnswer
    (fun i => VkCall.createImageView (images.getD i 0) swapchainInfo.format.format)
    images.length 0 (vectorResize swapchainInfo.imageViews images.length) calls
  match run.failedAt with
  | some i =>
    ⟨false, { swapchainInfo with imageViews := [] },
      run.calls ++ (List.range i).map fun j => VkCall.destroyImageView (run.slots.getD j 0)⟩
  | none => ⟨true, { swapchainInfo with imageViews := run.slots }, run.calls⟩

/-- The entry point `VulkanRenderer.nativeCreateSwapchain` of Vulkanswapchain.cpp (lines 57-157). -/
def nativeCreateSwapchain (ext : Externs) (drv : Driver) (deviceInfo : Option DeviceInfo) :
    Run (Option SwapchainInfo) :=
  match deviceInfo with
  | none => Run.done none []
  | some deviceInfo =>
    let calls1 := [VkCall.getSurfaceCapabilities]
    if drv.capabilitiesResult ≠ VK_SUCCESS then Run.done none calls1
    else
      let capabilities := drv.capabilities
      let formatCount := drv.formats.length
      let calls2 := calls1 ++ [VkCall.getSurfaceFormats]
      if formatCount = 0 then Run.done none calls2
      else
        let formats := drv.formats
        let calls3 := calls2 ++ [VkCall.getSurfaceFormats]
        let surfaceFormat := ext.chooseSurfaceFormat formats
        let imageCount := ext.getSwapchainImageCount capabilities
        let extent := ext.chooseSwapExtent capabilities 1920 1080
        let createInfo : VkSwapchainCreateInfoKHR :=
          { surface := deviceInfo.surface
            minImageCount := imageCount
            imageFormat := surfaceFormat.format
            imageColorSpace := surfaceFormat.colorSpace
            imageExtent := extent
            imageSharingMode :=
              if deviceInfo.graphicsQueueFamily ≠ deviceInfo.presentQueueFamily then
                VkSharingMode.concurrent
              else VkSharingMode.exclusive
            queueFamilyIndices :=
              if deviceInfo.graphicsQueueFamily ≠ deviceInfo.presentQueueFamily then
                [deviceInfo.graphicsQueueFamily, deviceInfo.presentQueueFamily]
              else []
            presentMode := VK_PRESENT_MODE_FIFO_KHR
            oldSwapchain := VK_NULL_HANDLE }
        let calls4 := calls3 ++ [VkCall.createSwapchain createInfo]
        if drv.createSwapchainResult ≠ VK_SUCCESS then Run.done none calls4
        else
          let swapchain := drv.newSwapchain
          let calls5 := calls4 ++ [VkCall.getSwapchainImages swapchain,
            VkCall.getSwapchainImages swapchain]
          let swapchainImages := drv.swapchainImages
          let swapchainInfo : SwapchainInfo :=
            { swapchain := swapchain
              images := swapchainImages
              imageViews := []
              framebuffers := []
              format := surfaceFormat
              extent := extent }
          let views := createImageViews drv swapchainInfo swapchainImages calls5
          if !views.ok then Run.done none (views.calls ++ [VkCall.destroySwapchain swapchain])
          else Run.done (some views.info) views.calls

/-- The entry point `VulkanRenderer.nativeResizeSwapchain` of Vulkanswapchain.cpp (lines 160-285).
`deviceInfo` and `swapchainInfo` are `none` for a zero handle. -/
def nativeResizeSwapchain (ext : Externs) (drv : Driver) (deviceInfo : Option DeviceInfo)
    (swapchainInfo : Option SwapchainInfo) (renderPass : Nat) (width height : Int) :
    ResizeRun :=
  if width ≤ 0 ∨ height ≤ 0 then ⟨false, swapchainInfo, []⟩
  else
    match deviceInfo, swapchainInfo with
    | none, _ => ⟨false, swapchainInfo, []⟩
    | some _, none => ⟨false, none, []⟩
    | some dev, some sc =>
      -- wait for the device, result not looked at
      let calls1 := [VkCall.deviceWaitIdle]
      -- destroy the old framebuffers and image views
      let calls2 := calls1 ++ destroyNonNull VkCall.destroyFramebuffer sc.framebuffers
      let sc2 := { sc with framebuffers := [] }
      let calls3 := calls2 ++ destroyNonNull VkCall.destroyImageView sc2.imageViews
      let sc3 := { sc2 with imageViews := [] }
      let calls4 := calls3 ++ [VkCall.getSurfaceCapabilities]
      if drv.capabilitiesResult ≠ VK_SUCCESS then ⟨false, some sc3, calls4⟩
      else
        let capabilities := drv.capabilities
        let newExtent := ext.chooseSwapExtent capabilities (toUint32 width) (toUint32 height)
        let imageCount := ext.getSwapchainImageCount capabilities
        let oldSwapchain := sc3.swapchain
        let createInfo : VkSwapchainCreateInfoKHR :=
          { surface := dev.surface
            minImageCount := imageCount
            imageFormat := sc3.format.format
            imageColorSpace := sc3.format.colorSpace
            imageExtent := newExtent
            imageSharingMode := VkSharingMode.exclusive
            queueFamilyIndices := []
            presentMode := VK_PRESENT_MODE_FIFO_KHR
            oldSwapchain := oldSwapchain }
        let calls5 := calls4 ++ [VkCall.createSwapchain createInfo]
        if drv.createSwapchainResult ≠ VK_SUCCESS then ⟨false, some sc3, calls5⟩
        else
          let newSwapchain := drv.newSwapchain
          let calls6 := calls5 ++
            (if oldSwapchain ≠ VK_NULL_HANDLE then [VkCall.destroySwapchain oldSwapchain]
             else [])
          let sc4 := { sc3 with swapchain := newSwapchain, extent := newExtent }
          let calls7 := calls6 ++ [VkCall.getSwapchainImages newSwapchain,
            VkCall.getSwapchainImages newSwapchain]
          let images := drv.swapchainImages
          let actualImageCount := images.length
          let views := createImageViews drv sc4 images calls7
          if !views.ok then ⟨false, some views.info, views.calls⟩
          else
            let sc5 := views.info
            let fbs := createLoop drv.framebufferAnswer
              (fun i => VkCall.createFramebuffer renderPass (sc5.imageViews.getD i 0)
                newExtent.width newExtent.height)
              actualImageCount 0 (vectorResize sc5.framebuffers actualImageCount)
              views.calls
            let sc6 := { sc5 with framebuffers := fbs.slots }
            match fbs.failedAt with
            | some _ => ⟨false, some sc6, fbs.calls⟩
            | none => ⟨true, some sc6, fbs.calls⟩

/-- The entry point `VulkanRenderer.nativeAcquireNextImage` of Vulkanswapchain.cpp (lines 288-311);
`result` and `imageIndex` are what `vkAcquireNextImageKHR` produced. -/
def nativeAcquireNextImage (result : Int) (imageIndex : Nat) : Int :=
  if result ≠ VK_SUCCESS ∧ result ≠ VK_SUBOPTIMAL_KHR then -1
  else toJint imageIndex

/-- The entry point `VulkanRenderer.nativeGetSwapchainImageCount` (lines 363-369 of the copy under
`app/src/src/main/cpp`). -/
def nativeGetSwapchainImageCount (swapchainInfo : SwapchainInfo) : Int :=
  toJint swapchainInfo.images.length

end Vulkanswapchain

/-! ## vulkan_jni.cpp -/

namespace vulkan_jni

/-- The test of the format loop of `VulkanRunner.nativeCreateSwapchain`. -/
def isPreferredFormat (format : VkSurfaceFormatKHR) : Bool :=
  format.format == VK_FORMAT_B8G8R8A8_SRGB
    && format.colorSpace == VK_COLOR_SPACE_SRGB_NONLINEAR_KHR

/-- Lines 317-324: `surfaceFormat = formats[0]` followed by the loop; `none`
when `formats[0]` is read on an empty vector. -/
def chooseFormat (formats : List VkSurfaceFormatKHR) : Option VkSurfaceFormatKHR :=
  match formats with
  | [] => none
  | first :: _ => some (forBreakLoop isPreferredFormat formats first)

/-- Lines 343-349 of `nativeCreateSwapchain`. -/
def createExtent (capabilities : VkSurfaceCapabilitiesKHR) (width height : Int) : VkExtent2D :=
  if capabilities.currentExtent.width ≠ UINT32_MAX then capabilities.currentExtent
  else ⟨toUint32 width, toUint32 height⟩

/-- Lines 352-355 of `nativeCreateSwapchain`, in `uint32_t` arithmetic. -/
def createImageCount (capabilities : VkSurfaceCapabilitiesKHR) : Nat :=
  let imageCount := (capabilities.minImageCount + 1) % 4294967296
  if capabilities.maxImageCount > 0 ∧ imageCount > capabilities.maxImageCount then
    capabilities.maxImageCount
  else imageCount

/-- The entry point `VulkanRunner.nativeCreateSwapchain` of vulkan_jni.cpp (lines 297-382); it
returns the swapchain handle itself. -/
def nativeCreateSwapchain (drv : Driver) (surface : Nat) (width height : Int) : Run Nat :=
  let capabilities := drv.capabilities
  let formats := drv.formats
  let calls1 := [VkCall.getSurfaceCapabilities, VkCall.getSurfaceFormats,
    VkCall.getSurfaceFormats]
  match chooseFormat formats with
  | none => Run.undefinedBehaviour calls1
  | some surfaceFormat =>
    let presentModes := drv.presentModes
    let calls2 := calls1 ++ [VkCall.getSurfacePresentModes, VkCall.getSurfacePresentModes]
    let presentMode := forBreakLoop (fun mode => mode == VK_PRESENT_MODE_MAILBOX_KHR)
      presentModes VK_PRESENT_MODE_FIFO_KHR
    let extent := createExtent capabilities width height
    let imageCount := createImageCount capabilities
    let createInfo : VkSwapchainCreateInfoKHR :=
      { surface := surface
        minImageCount := imageCount
        imageFormat := surfaceFormat.format
        imageColorSpace := surfaceFormat.colorSpace
        imageExtent := extent
        imageSharingMode := VkSharingMode.exclusive
        queueFamilyIndices := []
        presentMode := presentMode
        oldSwapchain := VK_NULL_HANDLE }
    let calls3 := calls2 ++ [VkCall.createSwapchain createInfo]
    if drv.createSwapchainResult ≠ VK_SUCCESS then Run.done 0 calls3
    else Run.done drv.newSwapchain calls3

/-- The entry point `VulkanRunner.nativeAcquireNextImage` of vulkan_jni.cpp (lines 866-889);
`result` and `imageIndex` are what `vkAcquireNextImageKHR` produced. -/
def nativeAcquireNextImage (result : Int) (imageIndex : Nat) : Int :=
  if result = VK_ERROR_OUT_OF_DATE_KHR ∨ result = VK_SUBOPTIMAL_KHR then -1
  else if result ≠ VK_SUCCESS then -1
  else toJint imageIndex

end vulkan_jni

/-! ## The policies in the words of the specification -/

/-- The value `v` clamped into the interval `[lo, hi]`. -/
def clampInto (v lo hi : Nat) : Nat := max lo (min v hi)

/-- The image-count policy: `clamp(minImageCount + 1, minImageCount,
maxImageCount)` when `maxImageCount` is non-zero and `minImageCount + 1`
otherwise, the sum being the mathematical one. -/
def imageCountPolicy (capabilities : VkSurfaceCapabilitiesKHR) : Nat :=
  if capabilities.maxImageCount ≠ 0 then
    clampInto (capabilities.minImageCount + 1) capabilities.minImageCount
      capabilities.maxImageCount
  else capabilities.minImageCount + 1

/-- The extent policy on resize: the surface's current extent unless it is the
sentinel `0xFFFFFFFF`, otherwise the requested width and height clamped into
`[minImageExtent, maxImageExtent]`. -/
def extentPolicy (capabilities : VkSurfaceCapabilitiesKHR) (width height : Int) : VkExtent2D :=
  if capabilities.currentExtent.width ≠ 4294967295 then capabilities.currentExtent
  else
    { width := clampInto width.toNat capabilities.minImageExtent.width
        capabilities.maxImageExtent.width
      height := clampInto height.toNat capabilities.minImageExtent.height
        capabilities.maxImageExtent.height }

/-- The format policy of `VulkanRenderer.nativeCreateSwapchain`: the first
reported entry that is `B8G8R8A8_UNORM` with `SRGB_NONLINEAR`, otherwise the
entry at index 0. -/
def formatPolicy (formats : List VkSurfaceFormatKHR) : Option VkSurfaceFormatKHR :=
  match formats.find? (fun f => f.format == 44 && f.colorSpace == 0) with
  | some f => some f
  | none => formats.head?

/-- A capability record whose two image counts are `uint32_t` values. -/
def countsAreUint32 (capabilities : VkSurfaceCapabilitiesKHR) : Prop :=
  capabilities.minImageCount ≤ UINT32_MAX ∧ capabilities.maxImageCount ≤ UINT32_MAX

instance (capabilities : VkSurfaceCapabilitiesKHR) : Decidable (countsAreUint32 capabilities) := by
  unfold countsAreUint32
  infer_instance

/-! ## Device, synchronisation and texture calls -/

/-- The kinds of object the entry points below create and destroy. -/
inductive ObjectKind where
  | surface
  | device
  | semaphore
  | fence
  | image
  | memory
  | buffer
  | commandPool
  | imageView
  | sampler
  | shaderModule
  | pipelineLayout
  | descriptorSetLayout
  deriving DecidableEq, Repr

/-- The fields of one `VkSubmitInfo`. -/
structure VkSubmitInfo where
  waitSemaphores : List Nat
  waitDstStageMask : List Nat
  commandBuffers : List Nat
  signalSemaphores : List Nat
  deriving DecidableEq, Repr

/-- A call issued by one of the device, synchronisation, texture or filter
entry points, in program order; calls that only query the driver are left
out.  A creation call carries the driver's answer: its `VkResult` and the
handle it produced. -/
inductive GpuCall where
  | create (kind : ObjectKind) (result : Int) (handle : Nat)
  | destroy (kind : ObjectKind) (handle : Nat)
  | createDevice (physicalDevice : Nat) (queueFamilies : List Nat) (result : Int) (device : Nat)
  | getDeviceQueue (device : Nat) (queueFamily : Nat)
  | releaseNativeWindow (window : Nat)
  | bindImageMemory (image memory : Nat) (result : Int)
  | bindBufferMemory (buffer memory : Nat) (result : Int)
  | mapMemory (memory : Nat) (result : Int)
  | unmapMemory (memory : Nat)
  | allocateCommandBuffers (commandPool : Nat) (result : Int) (commandBuffer : Nat)
  | beginCommandBuffer (commandBuffer : Nat)
  | cmdPipelineBarrier (commandBuffer image : Nat)
  | cmdCopyBufferToImage (commandBuffer buffer image : Nat)
  | endCommandBuffer (commandBuffer : Nat)
  | queueSubmit (queue : Nat) (submits : List VkSubmitInfo) (fence : Nat)
  | queueWaitIdle (queue : Nat)
  | waitForFences (fences : List Nat)
  | deviceWaitIdle (device : Nat)
  | queuePresent (queue : Nat) (waitSemaphores swapchains imageIndices : List Nat)
  | logError
  deriving DecidableEq, Repr

/-- A run of one of those entry points: either it returned `ret`, or it ran
into undefined behaviour (a null-pointer dereference, a write through an
unmapped pointer); `calls` are the calls issued up to that point. -/
inductive GpuRun (α : Type) where
  | undefinedBehaviour (calls : List GpuCall)
  | done (ret : α) (calls : List GpuCall)

/-- The calls issued by a run. -/
def GpuRun.calls {α : Type} : GpuRun α → List GpuCall
  | GpuRun.undefinedBehaviour calls => calls
  | GpuRun.done _ calls => calls

/-- The value a run handed back to its caller, if it returned. -/
def GpuRun.returned {α : Type} : GpuRun α → Option α
  | GpuRun.undefinedBehaviour _ => none
  | GpuRun.done ret _ => some ret

/-- The objects a call list created successfully, in order. -/
def createdObjects (calls : List GpuCall) : List (ObjectKind × Nat) :=
  calls.filterMap fun
    | GpuCall.create kind result handle =>
      if result = VK_SUCCESS then some (kind, handle) else none
    | GpuCall.createDevice _ _ result device =>
      if result = VK_SUCCESS then some (ObjectKind.device, device) else none
    | _ => none

/-- The objects a call list destroyed, in order. -/
def destroyedObjects (calls : List GpuCall) : List (ObjectKind × Nat) :=
  calls.filterMap fun
    | GpuCall.destroy kind handle => some (kind, handle)
    | _ => none

/-- The objects a call list created successfully and did not destroy. -/
def liveObjects (calls : List GpuCall) : List (ObjectKind × Nat) :=
  (createdObjects calls).filter fun object => !(destroyedObjects calls).contains object

/-! ## findQueueFamily (vulkan_renderer.cpp) and Vulkaninstance.cpp -/

def VK_QUEUE_GRAPHICS_BIT : Nat := 1

/-- What the driver reports about one physical device: the `queueFlags` of its
queue families, and for a family index and a surface the answer of
`vkGetPhysicalDeviceSurfaceSupportKHR`. -/
structure PhysicalDeviceInfo where
  queueFamilies : List Nat
  presentSupport : Nat → Nat → Bool

namespace vulkan_renderer

/-- The loop of `findQueueFamily` (lines 57-70) from index `i` on, `remaining`
being `queueFamilyCount - i`. -/
def findQueueFamilyLoop (physicalDevice : PhysicalDeviceInfo) (flags surface : Nat) :
    (remaining : Nat) → (i : Nat) → Nat
  | 0, _ => UINT32_MAX
  | remaining + 1, i =>
    if physicalDevice.queueFamilies.getD i 0 &&& flags ≠ 0 then
      if surface ≠ VK_NULL_HANDLE then
        if physicalDevice.presentSupport i surface then i
        else findQueueFamilyLoop physicalDevice flags surface remaining (i + 1)
      else i
    else findQueueFamilyLoop physicalDevice flags surface remaining (i + 1)

/-- The helper `findQueueFamily` of vulkan_renderer.cpp (lines 50-71), which
Vulkaninstance.cpp declares `extern`. -/
def findQueueFamily (physicalDevice : PhysicalDeviceInfo) (flags surface : Nat) : Nat :=
  findQueueFamilyLoop physicalDevice flags surface physicalDevice.queueFamilies.length 0

end vulkan_renderer

namespace Vulkaninstance

/-- The answers given to `nativeCreateDevice`: the native window behind the
Java surface (0 for none), the outcome of `vkCreateAndroidSurfaceKHR`, the
enumerated physical devices with what each reports, the outcome of
`vkCreateDevice`, and the queue handed out for each family. -/
structure DeviceDriver where
  window : Nat
  surfaceResult : Int
  surface : Nat
  physicalDevices : List Nat
  properties : Nat → PhysicalDeviceInfo
  createDeviceResult : Int
  device : Nat
  queue : Nat → Nat

/-- The contents of `std::set<uint32_t>{graphicsFamily, presentFamily}` in
iteration order. -/
def uniqueQueueFamilies (graphicsFamily presentFamily : Nat) : List Nat :=
  if graphicsFamily = presentFamily then [graphicsFamily]
  else if graphicsFamily < presentFamily then [graphicsFamily, presentFamily]
  else [presentFamily, graphicsFamily]

/-- The entry point `VulkanRenderer.nativeCreateDevice` of Vulkaninstance.cpp
(lines 74-175); `none` is the returned 0. -/
def nativeCreateDevice (drv : DeviceDriver) : GpuRun (Option DeviceInfo) :=
  let window := drv.window
  if window = 0 then GpuRun.done none []
  else
    let calls1 := [GpuCall.create ObjectKind.surface drv.surfaceResult drv.surface]
    if drv.surfaceResult ≠ VK_SUCCESS then
      GpuRun.done none (calls1 ++ [GpuCall.releaseNativeWindow window])
    else
      let vkSurface := drv.surface
      let deviceCount := drv.physicalDevices.length
      if deviceCount = 0 then
        GpuRun.done none (calls1 ++ [GpuCall.releaseNativeWindow window])
      else
        let physicalDevice := drv.physicalDevices.getD 0 0
        let graphicsFamily := vulkan_renderer.findQueueFamily (drv.properties physicalDevice)
          VK_QUEUE_GRAPHICS_BIT VK_NULL_HANDLE
        let presentFamily := vulkan_renderer.findQueueFamily (drv.properties physicalDevice)
          VK_QUEUE_GRAPHICS_BIT vkSurface
        if graphicsFamily = UINT32_MAX ∨ presentFamily = UINT32_MAX then
          GpuRun.done none (calls1 ++ [GpuCall.releaseNativeWindow window])
        else
          let calls2 := calls1 ++ [GpuCall.createDevice physicalDevice
            (uniqueQueueFamilies graphicsFamily presentFamily) drv.createDeviceResult drv.device]
          if drv.createDeviceResult ≠ VK_SUCCESS then
            GpuRun.done none (calls2 ++ [GpuCall.releaseNativeWindow window])
          else
            let device := drv.device
            let deviceInfo : DeviceInfo :=
              { device := device
                physicalDevice := physicalDevice
                graphicsQueue := drv.queue graphicsFamily
                presentQueue := drv.queue presentFamily
                graphicsQueueFamily := graphicsFamily
                presentQueueFamily := presentFamily
                surface := vkSurface }
            GpuRun.done (some deviceInfo)
              (calls2 ++ [GpuCall.getDeviceQueue device graphicsFamily,
                GpuCall.getDeviceQueue device presentFamily,
                GpuCall.releaseNativeWindow window])

end Vulkaninstance

/-! ## Synchronisation entry points of Vulkanswapchain.cpp (second copy) -/

def VK_PIPELINE_STAGE_COLOR_ATTACHMENT_OUTPUT_BIT : Nat := 0x00000400

namespace Vulkanswapchain

/-- The driver's answers to the creation calls of `nativeCreateSyncObjects`
for frame slot `i`: the `VkResult` and the handle produced. -/
structure SyncDriver where
  imageAvailableAnswer : Nat → Int × Nat
  renderFinishedAnswer : Nat → Int × Nat
  fenceAnswer : Nat → Int × Nat

/-- The three native buffers obtained with `GetLongArrayElements`. -/
structure SyncBuffers where
  imageAvailableSems : List Nat
  renderFinishedSems : List Nat
  fences : List Nat
  deriving DecidableEq, Repr

/-- The clean-up loop of lines 479-483: for `j < i`, destroy what the three
buffers hold at `j`. -/
def destroySlotsBelow (buffers : SyncBuffers) (i : Nat) : List GpuCall :=
  (List.range i).foldr
    (fun j rest =>
      [GpuCall.destroy ObjectKind.semaphore (buffers.imageAvailableSems.getD j 0),
        GpuCall.destroy ObjectKind.semaphore (buffers.renderFinishedSems.getD j 0),
        GpuCall.destroy ObjectKind.fence (buffers.fences.getD j 0)] ++ rest)
    []

/-- What the loop of `nativeCreateSyncObjects` did. -/
structure SyncLoopRun where
  ok : Bool
  buffers : SyncBuffers
  calls : List GpuCall
  deriving DecidableEq, Repr

/-- The loop of lines 467-495 from slot `i` on, `remaining` being `count - i`.
The three creation calls are joined by `||`, so a failing call ends the
condition without the later ones being made. -/
def createSyncLoop (drv : SyncDriver) :
    (remaining : Nat) → (i : Nat) → (buffers : SyncBuffers) → (calls : List GpuCall) →
      SyncLoopRun
  | 0, _, buffers, calls => ⟨true, buffers, calls⟩
  | remaining + 1, i, buffers, calls =>
    let calls1 := calls ++ [GpuCall.create ObjectKind.semaphore
      (drv.imageAvailableAnswer i).1 (drv.imageAvailableAnswer i).2]
    if (drv.imageAvailableAnswer i).1 ≠ VK_SUCCESS then
      ⟨false, buffers, calls1 ++ destroySlotsBelow buffers i⟩
    else
      let calls2 := calls1 ++ [GpuCall.create ObjectKind.semaphore
        (drv.renderFinishedAnswer i).1 (drv.renderFinishedAnswer i).2]
      if (drv.renderFinishedAnswer i).1 ≠ VK_SUCCESS then
        ⟨false, buffers, calls2 ++ destroySlotsBelow buffers i⟩
      else
        let calls3 := calls2 ++ [GpuCall.create ObjectKind.fence
          (drv.fenceAnswer i).1 (drv.fenceAnswer i).2]
        if (drv.fenceAnswer i).1 ≠ VK_SUCCESS then
          ⟨false, buffers, calls3 ++ destroySlotsBelow buffers i⟩
        else
          createSyncLoop drv remaining (i + 1)
            { imageAvailableSems :=
                buffers.imageAvailableSems.set i (drv.imageAvailableAnswer i).2
              renderFinishedSems :=
                buffers.renderFinishedSems.set i (drv.renderFinishedAnswer i).2
              fences := buffers.fences.set i (drv.fenceAnswer i).2 }
            calls3

/-- What `nativeCreateSyncObjects` handed back: the `jboolean` and the three
Java arrays as the caller finds them (written back on success, left as they
were after `JNI_ABORT`). -/
structure SyncResult where
  ret : Bool
  arrays : SyncBuffers
  deriving DecidableEq, Repr

/-- The entry point `VulkanRenderer.nativeCreateSyncObjects` (lines 445-503).
`deviceInfo` is `none` for a zero handle, which the first creation call
dereferences; the arrays are meant to hold at least `count` elements. -/
def nativeCreateSyncObjects (drv : SyncDriver) (deviceInfo : Option DeviceInfo) (count : Int)
    (arrays : SyncBuffers) : GpuRun SyncResult :=
  if count ≤ 0 then GpuRun.done ⟨true, arrays⟩ []
  else
    match deviceInfo with
    | none => GpuRun.undefinedBehaviour []
    | some _ =>
      let run := createSyncLoop drv count.toNat 0 arrays []
      if run.ok then GpuRun.done ⟨true, run.buffers⟩ run.calls
      else GpuRun.done ⟨false, arrays⟩ run.calls

/-- The entry point `VulkanRenderer.nativeSubmitCommandBufferWithSync`
(lines 610-645); `submitResult` is the answer of `vkQueueSubmit`. -/
def nativeSubmitCommandBufferWithSync (deviceInfo : Option DeviceInfo)
    (commandBuffer waitSemaphore signalSemaphore fence : Nat) (submitResult : Int) :
    GpuRun Unit :=
  match deviceInfo with
  | none => GpuRun.undefinedBehaviour []
  | some deviceInfo =>
    let waitStages := [VK_PIPELINE_STAGE_COLOR_ATTACHMENT_OUTPUT_BIT]
    let submitInfo : VkSubmitInfo :=
      { waitSemaphores := [waitSemaphore]
        waitDstStageMask := waitStages
        commandBuffers := [commandBuffer]
        signalSemaphores := [signalSemaphore] }
    let calls := [GpuCall.queueSubmit deviceInfo.graphicsQueue [submitInfo] fence]
    if submitResult ≠ VK_SUCCESS then GpuRun.done () (calls ++ [GpuCall.logError])
    else GpuRun.done () calls

/-- The entry point `VulkanRenderer.nativePresentImageWithSync` (lines 648-673);
`presentResult` is the answer of `vkQueuePresentKHR`. -/
def nativePresentImageWithSync (deviceInfo : Option DeviceInfo)
    (swapchainInfo : Option SwapchainInfo) (imageIndex : Int) (waitSemaphore : Nat)
    (presentResult : Int) : GpuRun Unit :=
  match deviceInfo, swapchainInfo with
  | some deviceInfo, some swapchainInfo =>
    let calls := [GpuCall.queuePresent deviceInfo.presentQueue [waitSemaphore]
      [swapchainInfo.swapchain] [toUint32 imageIndex]]
    if presentResult ≠ VK_SUCCESS ∧ presentResult ≠ VK_SUBOPTIMAL_KHR then
      GpuRun.done () (calls ++ [GpuCall.logError])
    else GpuRun.done () calls
  | _, _ => GpuRun.undefinedBehaviour []

end Vulkanswapchain

/-! ## Vulkantexture.cpp -/

namespace Vulkantexture

structure TextureInfo where
  image : Nat
  memory : Nat
  imageView : Nat
  sampler : Nat
  width : Nat
  height : Nat
  deriving DecidableEq, Repr

/-- The driver's answers to the calls of `nativeCreateTestTexture`, in the
order in which the source makes them: a `VkResult`, and for the calls that
produce one the handle found in the output slot. -/
structure TextureDriver where
  createImage : Int × Nat
  allocateImageMemory : Int × Nat
  bindImageMemory : Int
  createBuffer : Int × Nat
  allocateStagingMemory : Int × Nat
  bindBufferMemory : Int
  mapMemory : Int
  createCommandPool : Int × Nat
  allocateCommandBuffers : Int × Nat
  queueSubmit : Int
  createImageView : Int × Nat
  createSampler : Int × Nat

/-- The destructors of the `VulkanResource` guards that are still armed when
the function returns: `guards` lists them in construction order, they run in
reverse order, and each calls its deleter unless the handle is null
(lines 50-54). -/
def unwind (guards : List (ObjectKind × Nat)) : List GpuCall :=
  (guards.reverse.filter fun guard => guard.2 ≠ VK_NULL_HANDLE).map
    fun guard => GpuCall.destroy guard.1 guard.2

/-- The entry point `VulkanRenderer.nativeCreateTestTexture` of Vulkantexture.cpp
(lines 71-325); `none` is the returned 0. -/
def nativeCreateTestTexture (drv : TextureDriver) (deviceInfo : Option DeviceInfo) :
    GpuRun (Option TextureInfo) :=
  match deviceInfo with
  | none => GpuRun.done none []
  | some deviceInfo =>
    -- 1. image
    let calls1 := [GpuCall.create ObjectKind.image drv.createImage.1 drv.createImage.2]
    if drv.createImage.1 ≠ VK_SUCCESS then GpuRun.done none calls1
    else
      let image := drv.createImage.2
      let guards1 := [(ObjectKind.image, image)]
      -- 2. image memory
      let calls2 := calls1 ++ [GpuCall.create ObjectKind.memory drv.allocateImageMemory.1
        drv.allocateImageMemory.2]
      if drv.allocateImageMemory.1 ≠ VK_SUCCESS then
        GpuRun.done none (calls2 ++ unwind guards1)
      else
        let imageMemory := drv.allocateImageMemory.2
        let guards2 := guards1 ++ [(ObjectKind.memory, imageMemory)]
        let calls3 := calls2 ++ [GpuCall.bindImageMemory image imageMemory drv.bindImageMemory]
        -- 3. staging buffer
        let calls4 := calls3 ++ [GpuCall.create ObjectKind.buffer drv.createBuffer.1
          drv.createBuffer.2]
        if drv.createBuffer.1 ≠ VK_SUCCESS then GpuRun.done none (calls4 ++ unwind guards2)
        else
          let stagingBuffer := drv.createBuffer.2
          let guards3 := guards2 ++ [(ObjectKind.buffer, stagingBuffer)]
          -- 4. staging memory
          let calls5 := calls4 ++ [GpuCall.create ObjectKind.memory
            drv.allocateStagingMemory.1 drv.allocateStagingMemory.2]
          if drv.allocateStagingMemory.1 ≠ VK_SUCCESS then
            GpuRun.done none (calls5 ++ unwind guards3)
          else
            let stagingBufferMemory := drv.allocateStagingMemory.2
            let guards4 := guards3 ++ [(ObjectKind.memory, stagingBufferMemory)]
            let calls6 := calls5 ++ [GpuCall.bindBufferMemory stagingBuffer
              stagingBufferMemory drv.bindBufferMemory]
            -- 5. map and fill: the pixels are written through `data` whatever
            -- `vkMapMemory` returned
            let calls7 := calls6 ++ [GpuCall.mapMemory stagingBufferMemory drv.mapMemory]
            if drv.mapMemory ≠ VK_SUCCESS then GpuRun.undefinedBehaviour calls7
            else
              let calls8 := calls7 ++ [GpuCall.unmapMemory stagingBufferMemory]
              -- 6. command pool
              let calls9 := calls8 ++ [GpuCall.create ObjectKind.commandPool
                drv.createCommandPool.1 drv.createCommandPool.2]
              if drv.createCommandPool.1 ≠ VK_SUCCESS then
                GpuRun.done none (calls9 ++ unwind guards4)
              else
                let commandPool := drv.createCommandPool.2
                let guards5 := guards4 ++ [(ObjectKind.commandPool, commandPool)]
                -- 7. command buffer, 8. recording
                let commandBuffer := drv.allocateCommandBuffers.2
                let calls10 := calls9 ++
                  [GpuCall.allocateCommandBuffers commandPool drv.allocateCommandBuffers.1
                    commandBuffer,
                   GpuCall.beginCommandBuffer commandBuffer,
                   GpuCall.cmdPipelineBarrier commandBuffer image,
                   GpuCall.cmdCopyBufferToImage commandBuffer stagingBuffer image,
                   GpuCall.cmdPipelineBarrier commandBuffer image,
                   GpuCall.endCommandBuffer commandBuffer]
                -- 9. submit and wait
                let submitInfo : VkSubmitInfo :=
                  { waitSemaphores := [], waitDstStageMask := []
                    commandBuffers := [commandBuffer], signalSemaphores := [] }
                let calls11 := calls10 ++ [GpuCall.queueSubmit deviceInfo.graphicsQueue
                  [submitInfo] VK_NULL_HANDLE]
                if drv.queueSubmit ≠ VK_SUCCESS then
                  GpuRun.done none (calls11 ++ unwind guards5)
                else
                  let calls12 := calls11 ++ [GpuCall.queueWaitIdle deviceInfo.graphicsQueue]
                  -- 10. image view
                  let calls13 := calls12 ++ [GpuCall.create ObjectKind.imageView
                    drv.createImageView.1 drv.createImageView.2]
                  if drv.createImageView.1 ≠ VK_SUCCESS then
                    GpuRun.done none (calls13 ++ unwind guards5)
                  else
                    let imageView := drv.createImageView.2
                    let guards6 := guards5 ++ [(ObjectKind.imageView, imageView)]
                    -- 11. sampler
                    let calls14 := calls13 ++ [GpuCall.create ObjectKind.sampler
                      drv.createSampler.1 drv.createSampler.2]
                    if drv.createSampler.1 ≠ VK_SUCCESS then
                      GpuRun.done none (calls14 ++ unwind guards6)
                    else
                      let sampler := drv.createSampler.2
                      -- 12. image, memory, view and sampler are released to the
                      -- TextureInfo; the other guards run
                      let textureInfo : TextureInfo :=
                        { image := image, memory := imageMemory, imageView := imageView
                          sampler := sampler, width := 1920, height := 1080 }
                      GpuRun.done (some textureInfo)
                        (calls14 ++ unwind [(ObjectKind.buffer, stagingBuffer),
                          (ObjectKind.memory, stagingBufferMemory),
                          (ObjectKind.commandPool, commandPool)])

end Vulkantexture

/-! ## The other SimpleVulkanFilter entry points that take a device handle -/

namespace Vulkanshader

/-- The entry point `SimpleVulkanFilter.nativeCreateSampler` of Vulkanshader.cpp
(lines 97-126). -/
def nativeCreateSampler (deviceInfo : Option DeviceInfo) (createResult : Int)
    (sampler : Nat) : GpuRun Nat :=
  match getDevice deviceInfo with
  | none => GpuRun.undefinedBehaviour []
  | some device =>
    if !validateHandle device then GpuRun.done 0 []
    else if createResult ≠ VK_SUCCESS then
      GpuRun.done 0 [GpuCall.create ObjectKind.sampler createResult sampler]
    else GpuRun.done sampler [GpuCall.create ObjectKind.sampler createResult sampler]

/-- The entry point `SimpleVulkanFilter.nativeDestroyShaderModule` of
Vulkanshader.cpp (lines 131-142). -/
def nativeDestroyShaderModule (deviceInfo : Option DeviceInfo) (shaderModule : Nat) :
    GpuRun Unit :=
  match getDevice deviceInfo with
  | none => GpuRun.undefinedBehaviour []
  | some device =>
    if validateHandle device && validateHandle shaderModule then
      GpuRun.done () [GpuCall.destroy ObjectKind.shaderModule shaderModule]
    else GpuRun.done () []

/-- The entry point `SimpleVulkanFilter.nativeDestroySampler` of Vulkanshader.cpp
(lines 144-155). -/
def nativeDestroySampler (deviceInfo : Option DeviceInfo) (sampler : Nat) : GpuRun Unit :=
  match getDevice deviceInfo with
  | none => GpuRun.undefinedBehaviour []
  | some device =>
    if validateHandle device && validateHandle sampler then
      GpuRun.done () [GpuCall.destroy ObjectKind.sampler sampler]
    else GpuRun.done () []

end Vulkanshader

namespace Vulkanpipeline

/-- The entry point `SimpleVulkanFilter.nativeCreatePipelineLayout` of
Vulkanpipeline.cpp (lines 12-44). -/
def nativeCreatePipelineLayout (deviceInfo : Option DeviceInfo) (descriptorSetLayout : Nat)
    (createResult : Int) (pipelineLayout : Nat) : GpuRun Nat :=
  match getDevice deviceInfo with
  | none => GpuRun.undefinedBehaviour []
  | some device =>
    if !validateHandle device || !validateHandle descriptorSetLayout then GpuRun.done 0 []
    else if createResult ≠ VK_SUCCESS then
      GpuRun.done 0 [GpuCall.create ObjectKind.pipelineLayout createResult pipelineLayout]
    else
      GpuRun.done pipelineLayout
        [GpuCall.create ObjectKind.pipelineLayout createResult pipelineLayout]

/-- The entry point `SimpleVulkanFilter.nativeDestroyPipelineLayout` of
Vulkanpipeline.cpp (lines 248-259). -/
def nativeDestroyPipelineLayout (deviceInfo : Option DeviceInfo) (pipelineLayout : Nat) :
    GpuRun Unit :=
  match getDevice deviceInfo with
  | none => GpuRun.undefinedBehaviour []
  | some device =>
    if validateHandle device && validateHandle pipelineLayout then
      GpuRun.done () [GpuCall.destroy ObjectKind.pipelineLayout pipelineLayout]
    else GpuRun.done () []

end Vulkanpipeline

namespace Vulkandescriptor

/-- The entry point `SimpleVulkanFilter.nativeCreateDescriptorSetLayout` of
Vulkandescriptor.cpp (lines 12-39). -/
def nativeCreateDescriptorSetLayout (deviceInfo : Option DeviceInfo) (createResult : Int)
    (descriptorSetLayout : Nat) : GpuRun Nat :=
  match getDevice deviceInfo with
  | none => GpuRun.undefinedBehaviour []
  | some device =>
    if !validateHandle device then GpuRun.done 0 []
    else if createResult ≠ VK_SUCCESS then
      GpuRun.done 0
        [GpuCall.create ObjectKind.descriptorSetLayout createResult descriptorSetLayout]
    else
      GpuRun.done descriptorSetLayout
        [GpuCall.create ObjectKind.descriptorSetLayout createResult descriptorSetLayout]

/-- The entry point `SimpleVulkanFilter.nativeDestroyDescriptorSetLayout` of
Vulkandescriptor.cpp (lines 165-176). -/
def nativeDestroyDescriptorSetLayout (deviceInfo : Option DeviceInfo)
    (descriptorSetLayout : Nat) : GpuRun Unit :=
  match getDevice deviceInfo with
  | none => GpuRun.undefinedBehaviour []
  | some device =>
    if validateHandle device && validateHandle descriptorSetLayout then
      GpuRun.done () [GpuCall.destroy ObjectKind.descriptorSetLayout descriptorSetLayout]
    else GpuRun.done () []

end Vulkandescriptor

/-! ## Vulkancommand.cpp -/

/-- The number of low bits of a `uint32_t` that do not fit the 24-bit
significand of a `float`. -/
def droppedBits (n : Nat) : Nat :=
  ((List.range 8).filter fun k => 2 ^ (24 + k) ≤ n).length

/-- The conversion `static_cast<float>` of a `uint32_t`: the nearest value with
a 24-bit significand, a tie going to the even significand (the IEEE 754 default
rounding).  The result is an integer and is given as such. -/
def uint32ToFloat (n : Nat) : Nat :=
  let e := droppedBits n
  let q := n / 2 ^ e
  let r := n % 2 ^ e
  if 2 * r > 2 ^ e ∨ (2 * r = 2 ^ e ∧ q % 2 = 1) then (q + 1) * 2 ^ e
  else q * 2 ^ e

namespace Vulkancommand

structure VkRect2D where
  offsetX : Int
  offsetY : Int
  extent : VkExtent2D
  deriving DecidableEq, Repr

/-- The fields of `VkViewport`; each holds the value of its `float`, which is a
non-negative integer in every use the source makes of it. -/
structure VkViewport where
  x : Nat
  y : Nat
  width : Nat
  height : Nat
  minDepth : Nat
  maxDepth : Nat
  deriving DecidableEq, Repr

structure VkRenderPassBeginInfo where
  renderPass : Nat
  framebuffer : Nat
  renderArea : VkRect2D
  clearValueCount : Nat
  deriving DecidableEq, Repr

/-- A command recorded, or an error logged, by `nativeBeginRenderPass`. -/
inductive CmdCall where
  | cmdBeginRenderPass (commandBuffer : Nat) (info : VkRenderPassBeginInfo)
  | cmdSetViewport (commandBuffer : Nat) (viewport : VkViewport)
  | cmdSetScissor (commandBuffer : Nat) (scissor : VkRect2D)
  | logError
  deriving DecidableEq, Repr

/-- A run of `nativeBeginRenderPass`: the calls it made, or an out-of-bounds
read of the framebuffer vector. -/
inductive CmdRun where
  | undefinedBehaviour
  | done (calls : List CmdCall)
  deriving DecidableEq, Repr

/-- The entry point `VulkanRenderer.nativeBeginRenderPass` of Vulkancommand.cpp
(lines 90-143); `swapchainInfo` is `none` for a zero handle. -/
def nativeBeginRenderPass (commandBuffer renderPass : Nat) (imageIndex : Int)
    (swapchainInfo : Option SwapchainInfo) : CmdRun :=
  match swapchainInfo with
  | none => CmdRun.done [CmdCall.logError]
  | some swapchainInfo =>
    if commandBuffer = VK_NULL_HANDLE ∨ renderPass = VK_NULL_HANDLE then
      CmdRun.done [CmdCall.logError]
    else if imageIndex < 0 ∨ imageIndex ≥ toJint swapchainInfo.framebuffers.length then
      CmdRun.done [CmdCall.logError]
    else
      match swapchainInfo.framebuffers[imageIndex.toNat]? with
      | none => CmdRun.undefinedBehaviour
      | some framebuffer =>
        let renderPassInfo : VkRenderPassBeginInfo :=
          { renderPass := renderPass
            framebuffer := framebuffer
            renderArea := { offsetX := 0, offsetY := 0, extent := swapchainInfo.extent }
            clearValueCount := 1 }
        let viewport : VkViewport :=
          { x := 0, y := 0
            width := uint32ToFloat swapchainInfo.extent.width
            height := uint32ToFloat swapchainInfo.extent.height
            minDepth := 0, maxDepth := 1 }
        let scissor : VkRect2D :=
          { offsetX := 0, offsetY := 0, extent := swapchainInfo.extent }
        CmdRun.done
          [CmdCall.cmdBeginRenderPass commandBuffer renderPassInfo,
            CmdCall.cmdSetViewport commandBuffer viewport,
            CmdCall.cmdSetScissor commandBuffer scissor]

end Vulkancommand

/-! ## Vulkanrenderpass.cpp -/

namespace Vulkanrenderpass

/-- The entry point `VulkanRenderer.nativeCreateFramebuffers` of
Vulkanrenderpass.cpp (lines 79-129); `deviceInfo` and `swapchainInfo` are
`none` for a zero handle. -/
def nativeCreateFramebuffers (drv : Driver) (deviceInfo : Option DeviceInfo)
    (swapchainInfo : Option SwapchainInfo) (renderPass : Nat) : ResizeRun :=
  match deviceInfo, swapchainInfo with
  | none, _ => ⟨false, swapchainInfo, []⟩
  | some _, none => ⟨false, none, []⟩
  | some _, some sc =>
    if renderPass = 0 then ⟨false, some sc, []⟩
    else
      let run := createLoop drv.framebufferAnswer
        (fun i => VkCall.createFramebuffer renderPass (sc.imageViews.getD i 0)
          sc.extent.width sc.extent.height)
        sc.imageViews.length 0 (vectorResize sc.framebuffers sc.imageViews.length) []
      match run.failedAt with
      | some i =>
        ⟨false, some { sc with framebuffers := [] },
          run.calls ++ (List.range i).map fun j =>
            VkCall.destroyFramebuffer (run.slots.getD j 0)⟩
      | none => ⟨true, some { sc with framebuffers := run.slots }, run.calls⟩

end Vulkanrenderpass

/-! ## Further entry points of Vulkanswapchain.cpp and helpers of vulkan_renderer.cpp -/

/-- The 64-bit pattern of a `jlong`. -/
def toUint64 (x : Int) : Nat := (x % 18446744073709551616).toNat

/-- The `jlong` with a given 64-bit pattern (two's complement). -/
def toJlong (x : Nat) : Int :=
  if x % 18446744073709551616 < 9223372036854775808 then
    ((x % 18446744073709551616 : Nat) : Int)
  else ((x % 18446744073709551616 : Nat) : Int) - 18446744073709551616

namespace Vulkanswapchain

/-- What `nativeDestroySwapchain` did: the `SwapchainInfo` behind the handle
afterwards (`none` once it is deleted, or for a zero handle) and the Vulkan
calls issued. -/
structure DestroyRun where
  info : Option SwapchainInfo
  calls : List VkCall
  deriving DecidableEq, Repr

/-- The entry point `VulkanRenderer.nativeDestroySwapchain` of Vulkanswapchain.cpp
(lines 343-359). -/
def nativeDestroySwapchain (deviceInfo : Option DeviceInfo)
    (swapchainInfo : Option SwapchainInfo) : DestroyRun :=
  match deviceInfo, swapchainInfo with
  | some _, some sc =>
    ⟨none, sc.imageViews.map VkCall.destroyImageView ++ [VkCall.destroySwapchain sc.swapchain]⟩
  | _, _ => ⟨swapchainInfo, []⟩

/-- The entry point `VulkanRenderer.nativeAcquireNextImageWithSemaphore`
(lines 583-607 of the copy under `app/src/src/main/cpp`): the value
`(static_cast<jlong>(result) << 32) | static_cast<jlong>(imageIndex)`, computed
on 64-bit patterns; `result` and `imageIndex` are what `vkAcquireNextImageKHR`
produced. -/
def nativeAcquireNextImageWithSemaphore (result : Int) (imageIndex : Nat) : Int :=
  let shifted := (toUint64 result * 4294967296) % 18446744073709551616
  toJlong (shifted ||| (imageIndex % 4294967296))

end Vulkanswapchain

namespace vulkan_renderer

/-- The loop of `findMemoryType` (lines 967-972) from index `i` on, `remaining`
being `memoryTypeCount - i`; `1 << i` is taken as a 32-bit value. -/
def findMemoryTypeLoop (memoryTypes : List Nat) (typeFilter properties : Nat) :
    (remaining : Nat) → (i : Nat) → Nat
  | 0, _ => 0
  | remaining + 1, i =>
    if typeFilter &&& ((1 <<< i) % 4294967296) ≠ 0
        ∧ memoryTypes.getD i 0 &&& properties = properties then i
    else findMemoryTypeLoop memoryTypes typeFilter properties remaining (i + 1)

/-- The helper `findMemoryType` of vulkan_renderer.cpp (lines 963-976), which
Vulkantexture.cpp declares `extern`; `memoryTypes` lists the `propertyFlags` of
the `memoryTypeCount` memory types of the physical device. -/
def findMemoryType (memoryTypes : List Nat) (typeFilter properties : Nat) : Nat :=
  findMemoryTypeLoop memoryTypes typeFilter properties memoryTypes.length 0

end vulkan_renderer

/-! ## The searches in the words of the specification -/

/-- Whether queue family `i` qualifies for `findQueueFamily`: its flags share a
bit with the mask and, when a surface is given, it presents to that surface. -/
def familyQualifies (physicalDevice : PhysicalDeviceInfo) (flags surface : Nat) (i : Nat) :
    Prop :=
  i < physicalDevice.queueFamilies.length
  ∧ physicalDevice.queueFamilies.getD i 0 &&& flags ≠ 0
  ∧ (surface ≠ VK_NULL_HANDLE → physicalDevice.presentSupport i surface = true)

/-- Whether memory type `i` qualifies for `findMemoryType`: bit `i` is set in
the filter and every required property bit is present in its flags. -/
def memoryTypeQualifies (memoryTypes : List Nat) (typeFilter properties : Nat) (i : Nat) :
    Prop :=
  i < memoryTypes.length
  ∧ typeFilter.testBit i = true
  ∧ memoryTypes.getD i 0 &&& properties = properties

/-- Whether a call is a device-idle wait. -/
def isDeviceWaitIdle : VkCall → Bool
  | VkCall.deviceWaitIdle => true
  | _ => false

/-- Whether a call destroys a framebuffer. -/
def isDestroyFramebuffer : VkCall → Bool
  | VkCall.destroyFramebuffer _ => true
  | _ => false

/-- The image views destroyed by a call list, in order. -/
def destroyedImageViews (calls : List VkCall) : List Nat :=
  calls.filterMap fun
    | VkCall.destroyImageView view => some view
    | _ => none

/-! ## Reading a call list -/

/-- The create-infos of the `vkCreateSwapchainKHR` calls of a call list, in order. -/
def createInfos (calls : List VkCall) : List VkSwapchainCreateInfoKHR :=
  calls.filterMap fun
    | VkCall.createSwapchain info => some info
    | _ => none

/-- Whether a call creates or destroys a swapchain. -/
def isSwapchainCall : VkCall → Bool
  | VkCall.createSwapchain _ => true
  | VkCall.destroySwapchain _ => true
  | _ => false

/-- The swapchain creations and destructions of a call list, in order. -/
def swapchainCalls (calls : List VkCall) : List VkCall :=
  calls.filter isSwapchainCall

/-- The framebuffers destroyed by a call list, in order. -/
def destroyedFramebuffers (calls : List VkCall) : List Nat :=
  calls.filterMap fun
    | VkCall.destroyFramebuffer framebuffer => some framebuffer
    | _ => none

/-! ## Inputs used in the evaluations below -/

/-- A capability record reporting `minImageCount = UINT32_MAX` and no maximum. -/
def capsMinAtUint32Max : VkSurfaceCapabilitiesKHR :=
  { minImageCount := 4294967295, maxImageCount := 0
    currentExtent := ⟨640, 480⟩, minImageExtent := ⟨1, 1⟩, maxImageExtent := ⟨4096, 4096⟩ }

/-- A capability record whose non-zero maximum is below its minimum. -/
def capsMaxBelowMin : VkSurfaceCapabilitiesKHR :=
  { minImageCount := 3, maxImageCount := 2
    currentExtent := ⟨640, 480⟩, minImageExtent := ⟨1, 1⟩, maxImageExtent := ⟨4096, 4096⟩ }

/-- An ordinary capability record: 2 to 8 images, extent left to the caller. -/
def capsOrdinary : VkSurfaceCapabilitiesKHR :=
  { minImageCount := 2, maxImageCount := 8
    currentExtent := ⟨4294967295, 4294967295⟩
    minImageExtent := ⟨16, 16⟩, maxImageExtent := ⟨4096, 4096⟩ }

/-- A driver on which every call succeeds: the new swapchain `20` has the three
images `31, 32, 33`, image view `i` is `40 + i` and framebuffer `i` is `50 + i`. -/
def driverThreeImages : Driver :=
  { waitIdleResult := 0
    capabilitiesResult := 0
    capabilities := capsOrdinary
    formats := [⟨37, 0⟩, ⟨44, 0⟩]
    presentModes := [2]
    createSwapchainResult := 0
    newSwapchain := 20
    swapchainImages := [31, 32, 33]
    imageViewAnswer := fun i => (0, 40 + i)
    framebufferAnswer := fun i => (0, 50 + i) }

/-- The driver `driverThreeImages`, except that the creation of framebuffer `1`
fails with `VK_ERROR_OUT_OF_HOST_MEMORY` and leaves its slot null. -/
def driverSecondFramebufferFails : Driver :=
  { driverThreeImages with
    framebufferAnswer := fun i => if i = 1 then (-1, 0) else (0, 50 + i) }

/-- A device whose graphics and present families are both family `0`. -/
def deviceOneFamily : DeviceInfo :=
  { device := 1, physicalDevice := 2, graphicsQueue := 3, presentQueue := 3
    graphicsQueueFamily := 0, presentQueueFamily := 0, surface := 4 }

/-- A chain with two images, two image views and two framebuffers. -/
def chainTwoImages : SwapchainInfo :=
  { swapchain := 10
    images := [11, 12]
    imageViews := [13, 14]
    framebuffers := [15, 16]
    format := ⟨44, 0⟩
    extent := ⟨640, 480⟩ }

/-- Stand-ins for the three `extern` helpers of Vulkanswapchain.cpp. -/
def externsExample : Vulkanswapchain.Externs :=
  { chooseSurfaceFormat := fun formats => formats.getD 0 ⟨44, 0⟩
    getSwapchainImageCount := fun capabilities => capabilities.minImageCount + 1
    chooseSwapExtent := fun _ width height => ⟨width, height⟩ }

/-- An adapter whose family 0 does graphics without presenting and whose
family 1 (compute only, `queueFlags = 2`) presents to every surface. -/
def adapterPresentOnCompute : PhysicalDeviceInfo :=
  { queueFamilies := [1, 2]
    presentSupport := fun i _ => i == 1 }

/-- An adapter whose family 0 is transfer-only and whose family 1 does
graphics and compute and presents to every surface. -/
def adapterGraphicsPresents : PhysicalDeviceInfo :=
  { queueFamilies := [4, 3]
    presentSupport := fun i _ => i == 1 }

/-- An adapter with a single compute-only family. -/
def adapterComputeOnly : PhysicalDeviceInfo :=
  { queueFamilies := [2]
    presentSupport := fun _ _ => true }

/-- A run of `nativeCreateDevice` in which window 8 gives surface 4, the one
adapter is `adapterGraphicsPresents` and `vkCreateDevice` gives device 6. -/
def deviceDriverOrdinary : Vulkaninstance.DeviceDriver :=
  { window := 8
    surfaceResult := 0
    surface := 4
    physicalDevices := [5]
    properties := fun _ => adapterGraphicsPresents
    createDeviceResult := 0
    device := 6
    queue := fun family => 70 + family }

/-- The driver `deviceDriverOrdinary` with no physical device enumerated. -/
def deviceDriverNoAdapter : Vulkaninstance.DeviceDriver :=
  { deviceDriverOrdinary with physicalDevices := [] }

/-- The driver `deviceDriverOrdinary` on the adapter `adapterPresentOnCompute`. -/
def deviceDriverPresentOnCompute : Vulkaninstance.DeviceDriver :=
  { deviceDriverOrdinary with properties := fun _ => adapterPresentOnCompute }

/-- The driver `deviceDriverOrdinary` on the adapter `adapterComputeOnly`. -/
def deviceDriverComputeOnly : Vulkaninstance.DeviceDriver :=
  { deviceDriverOrdinary with properties := fun _ => adapterComputeOnly }

/-- The driver `deviceDriverOrdinary` with `vkCreateDevice` failing. -/
def deviceDriverCreateFails : Vulkaninstance.DeviceDriver :=
  { deviceDriverOrdinary with createDeviceResult := -3, device := 0 }

/-- Whether a call is a `vkCreateDevice`. -/
def isCreateDevice : GpuCall → Bool
  | GpuCall.createDevice _ _ _ _ => true
  | _ => false

/-- A driver for `nativeCreateSyncObjects` on which slot `i` gets the
semaphores `60 + 3 i` and `61 + 3 i` and the fence `62 + 3 i`. -/
def syncDriverOrdinary : Vulkanswapchain.SyncDriver :=
  { imageAvailableAnswer := fun i => (0, 60 + 3 * i)
    renderFinishedAnswer := fun i => (0, 61 + 3 * i)
    fenceAnswer := fun i => (0, 62 + 3 * i) }

/-- The driver `syncDriverOrdinary`, except that the second semaphore of slot 0
cannot be created. -/
def syncDriverSecondSemaphoreFails : Vulkanswapchain.SyncDriver :=
  { syncDriverOrdinary with renderFinishedAnswer := fun _ => (-1, 0) }

/-- The driver `syncDriverOrdinary`, except that the fence of slot 1 cannot be
created. -/
def syncDriverSecondFenceFails : Vulkanswapchain.SyncDriver :=
  { syncDriverOrdinary with
    fenceAnswer := fun i => if i = 1 then (-1, 0) else (0, 62 + 3 * i) }

/-- Java arrays of two elements each, all zero. -/
def syncArraysOfTwo : Vulkanswapchain.SyncBuffers :=
  { imageAvailableSems := [0, 0], renderFinishedSems := [0, 0], fences := [0, 0] }

/-- A driver on which every call of `nativeCreateTestTexture` succeeds. -/
def textureDriverOrdinary : Vulkantexture.TextureDriver :=
  { createImage := (0, 80)
    allocateImageMemory := (0, 81)
    bindImageMemory := 0
    createBuffer := (0, 82)
    allocateStagingMemory := (0, 83)
    bindBufferMemory := 0
    mapMemory := 0
    createCommandPool := (0, 84)
    allocateCommandBuffers := (0, 85)
    queueSubmit := 0
    createImageView := (0, 86)
    createSampler := (0, 87) }

/-- Whether a call is a queue submission. -/
def isQueueSubmit : GpuCall → Bool
  | GpuCall.queueSubmit _ _ _ => true
  | _ => false

/-- Whether a call blocks the CPU: a fence wait, a queue-idle wait or a
device-idle wait. -/
def isWaitCall : GpuCall → Bool
  | GpuCall.waitForFences _ => true
  | GpuCall.queueWaitIdle _ => true
  | GpuCall.deviceWaitIdle _ => true
  | _ => false

/-- Whether an extent lies within `[minImageExtent, maxImageExtent]` of a
capability record in both dimensions. -/
def extentWithinBounds (capabilities : VkSurfaceCapabilitiesKHR) (extent : VkExtent2D) : Prop :=
  capabilities.minImageExtent.width ≤ extent.width
  ∧ extent.width ≤ capabilities.maxImageExtent.width
  ∧ capabilities.minImageExtent.height ≤ extent.height
  ∧ extent.height ≤ capabilities.maxImageExtent.height

instance (capabilities : VkSurfaceCapabilitiesKHR) (extent : VkExtent2D) :
    Decidable (extentWithinBounds capabilities extent) := by
  unfold extentWithinBounds
  infer_instance

/-- A capability record with the undefined-extent sentinel and extents
limited to 1280x720. -/
def capsSentinelUpTo720p : VkSurfaceCapabilitiesKHR :=
  { minImageCount := 2, maxImageCount := 8
    currentExtent := ⟨4294967295, 4294967295⟩
    minImageExtent := ⟨16, 16⟩, maxImageExtent := ⟨1280, 720⟩ }

/-- The driver `driverThreeImages` on a surface reporting `capsSentinelUpTo720p`. -/
def driverUpTo720p : Driver :=
  { driverThreeImages with capabilities := capsSentinelUpTo720p }

/-- The chain `chainTwoImages` as an 800x600 resize on `driverThreeImages`
leaves it. -/
def chainAfterResize : SwapchainInfo :=
  { swapchain := 20
    images := [11, 12]
    imageViews := [40, 41, 42]
    framebuffers := [50, 51, 52]
    format := ⟨44, 0⟩
    extent := ⟨800, 600⟩ }

/-- A device whose graphics family is 0 and whose present family is 1. -/
def deviceTwoFamilies : DeviceInfo :=
  { device := 1, physicalDevice := 2, graphicsQueue := 3, presentQueue := 9
    graphicsQueueFamily := 0, presentQueueFamily := 1, surface := 4 }

/-! # Theorems -/

/-! ### Loops and call lists -/

theorem createLoop_calls_filterMap {β : Type} (f : VkCall → Option β)
    (answer : Nat → Int × Nat) (mkCall : Nat → VkCall) (hmk : ∀ i, f (mkCall i) = none) :
    ∀ (remaining i : Nat) (slots : List Nat) (calls : List VkCall),
      (createLoop answer mkCall remaining i slots calls).calls.filterMap f
        = calls.filterMap f := by
  intro remaining
  induction remaining with
  | zero => intro i slots calls; rfl
  | succ n ih =>
    intro i slots calls
    unfold createLoop
    split_ifs
    · simp [hmk]
    · rw [ih]
      simp [hmk]

theorem createLoop_calls_filter (p : VkCall → Bool)
    (answer : Nat → Int × Nat) (mkCall : Nat → VkCall) (hmk : ∀ i, p (mkCall i) = false) :
    ∀ (remaining i : Nat) (slots : List Nat) (calls : List VkCall),
      (createLoop answer mkCall remaining i slots calls).calls.filter p = calls.filter p := by
  intro remaining
  induction remaining with
  | zero => intro i slots calls; rfl
  | succ n ih =>
    intro i slots calls
    unfold createLoop
    split_ifs
    · simp [hmk]
    · rw [ih]
      simp [hmk]

theorem createLoop_slots_length (answer : Nat → Int × Nat) (mkCall : Nat → VkCall) :
    ∀ (remaining i : Nat) (slots : List Nat) (calls : List VkCall),
      (createLoop answer mkCall remaining i slots calls).slots.length = slots.length := by
  intro remaining
  induction remaining with
  | zero => intro i slots calls; rfl
  | succ n ih =>
    intro i slots calls
    unfold createLoop
    split_ifs
    · simp
    · rw [ih]
      simp

theorem destroyNonNull_filterMap {β : Type} (f : VkCall → Option β) (mkCall : Nat → VkCall)
    (hmk : ∀ h, f (mkCall h) = none) (handles : List Nat) :
    (destroyNonNull mkCall handles).filterMap f = [] := by
  unfold destroyNonNull
  generalize (handles.filter fun h => decide (h ≠ VK_NULL_HANDLE)) = l
  induction l with
  | nil => rfl
  | cons h t ih => rw [List.map_cons, List.filterMap_cons, hmk]; exact ih

theorem destroyNonNull_filter (p : VkCall → Bool) (mkCall : Nat → VkCall)
    (hmk : ∀ h, p (mkCall h) = false) (handles : List Nat) :
    (destroyNonNull mkCall handles).filter p = [] := by
  unfold destroyNonNull
  generalize (handles.filter fun h => decide (h ≠ VK_NULL_HANDLE)) = l
  induction l with
  | nil => rfl
  | cons h t ih => rw [List.map_cons, List.filter_cons, hmk]; exact ih

theorem vectorResize_length (v : List Nat) (n : Nat) : (vectorResize v n).length = n := by
  unfold vectorResize
  simp
  omega

theorem stdClamp_eq_clampInto (v lo hi : Nat) (h : lo ≤ hi) :
    stdClamp v lo hi = clampInto v lo hi := by
  unfold stdClamp clampInto
  split_ifs <;> omega

theorem toUint32_of_jint (x : Int) (h0 : 0 ≤ x) (h1 : x ≤ 2147483647) :
    toUint32 x = x.toNat := by
  unfold toUint32
  rw [Int.emod_eq_of_lt h0 (by omega)]

/-! ### Shader validation -/

theorem alignedCode_length (code : List Nat) : (alignedCode code).length = code.length / 4 := by
  simp [alignedCode]

theorem alignedCode_head (b0 b1 b2 b3 : Nat) (rest : List Nat) :
    (alignedCode (b0 :: b1 :: b2 :: b3 :: rest)).getD 0 0
      = b0 % 256 + 256 * (b1 % 256) + 65536 * (b2 % 256) + 16777216 * (b3 % 256) := by
  have h : (b0 :: b1 :: b2 :: b3 :: rest).length / 4 = rest.length / 4 + 1 := by
    simp only [List.length_cons]
    omega
  unfold alignedCode
  rw [h, List.range_succ_eq_map, List.map_cons]
  simp [memcpyWord]

theorem validateSPIRV_iff (code : List Nat) :
    validateSPIRV code = true ↔ 4 ≤ code.length ∧ code.getD 0 0 = SPIRV_MAGIC := by
  unfold validateSPIRV
  cases code with
  | nil => simp
  | cons a t =>
    simp only [List.isEmpty_cons, Bool.false_eq_true, if_false, List.length_cons,
      List.getD_cons_zero]
    by_cases h1 : (t.length + 1) * 4 < 16
    · simp only [h1, if_true, Bool.false_eq_true, false_iff]
      omega
    · by_cases h2 : a = SPIRV_MAGIC
      · simp only [h1, if_false, h2, ne_eq, not_true_eq_false, and_true, true_iff]
        omega
      · simp [h1, h2]

theorem firstWordLE_eq_alignedCode (code : List Nat) (h : 4 ≤ code.length) :
    firstWordLE code = some ((alignedCode code).getD 0 0) := by
  match code, h with
  | b0 :: b1 :: b2 :: b3 :: rest, _ =>
    rw [alignedCode_head]
    rfl

theorem issuedCreateShaderModule_iff (deviceInfo : DeviceInfo) (code : List Nat)
    (elementsOk : Bool) (createResult : Int) (shaderModule : Nat)
    (hdev : deviceInfo.device ≠ VK_NULL_HANDLE) :
    issuedCreateShaderModule
        (nativeCreateShaderModule (some deviceInfo) (some code) elementsOk createResult
          shaderModule).calls = true
      ↔ (code.length % 4 = 0 ∧ elementsOk = true ∧ validateSPIRV (alignedCode code) = true) := by
  unfold nativeCreateShaderModule issuedCreateShaderModule
  simp only [getDevice, validateHandle, hdev, if_false, Bool.not_true, Bool.false_eq_true]
  by_cases h4 : code.length % 4 = 0
  · cases elementsOk
    · simp [h4, Run.calls]
    · by_cases hv : validateSPIRV (alignedCode code) = true
      · by_cases hr : createResult = VK_SUCCESS <;> simp [h4, hv, hr, Run.calls]
      · simp [h4, hv, Run.calls]
  · simp [h4, Run.calls]

/-- C1 (as stated, refuted): a 4-byte array holding exactly the SPIR-V magic
word has a length that is a multiple of 4 and the right first word, yet
`nativeCreateShaderModule` rejects it before `vkCreateShaderModule`. -/
theorem c1_magic_only_array_rejected :
    ¬ (issuedCreateShaderModule
          (nativeCreateShaderModule (some deviceOneFamily) (some [3, 2, 35, 7]) true 0 1).calls
          = true
        ↔ ([3, 2, 35, 7].length % 4 = 0 ∧ firstWordLE [3, 2, 35, 7] = some SPIRV_MAGIC)) := by
  decide

/-- C1 (amended): for a valid device and a non-null byte array whose elements
the JNI layer hands out, `nativeCreateShaderModule` goes on to issue
`vkCreateShaderModule` if and only if the array length is a multiple of 4, is
at least 16 bytes, and the first four bytes read as a little-endian word are
`0x07230203`. -/
theorem c1_shader_validation (deviceInfo : DeviceInfo) (code : List Nat) (createResult : Int)
    (shaderModule : Nat) (hdev : deviceInfo.device ≠ VK_NULL_HANDLE) :
    issuedCreateShaderModule
        (nativeCreateShaderModule (some deviceInfo) (some code) true createResult
          shaderModule).calls = true
      ↔ (code.length % 4 = 0 ∧ 16 ≤ code.length ∧ firstWordLE code = some SPIRV_MAGIC) := by
  rw [issuedCreateShaderModule_iff deviceInfo code true createResult shaderModule hdev,
    validateSPIRV_iff, alignedCode_length]
  constructor
  · rintro ⟨h4, -, hlen, hmagic⟩
    have h16 : 16 ≤ code.length := by omega
    refine ⟨h4, h16, ?_⟩
    rw [firstWordLE_eq_alignedCode code (by omega), hmagic]
  · rintro ⟨h4, h16, hmagic⟩
    refine ⟨h4, rfl, by omega, ?_⟩
    rw [firstWordLE_eq_alignedCode code (by omega)] at hmagic
    exact Option.some.inj hmagic

/-- C1 witness: a 16-byte array starting with the magic word, on device 1. -/
theorem c1_shader_validation_witness :
    deviceOneFamily.device ≠ VK_NULL_HANDLE ∧
    (issuedCreateShaderModule
        (nativeCreateShaderModule (some deviceOneFamily)
          (some [3, 2, 35, 7, 0, 0, 1, 0, 0, 0, 0, 0, 0, 0, 0, 0]) true 0 5).calls = true
      ↔ ([3, 2, 35, 7, 0, 0, 1, 0, 0, 0, 0, 0, 0, 0, 0, 0].length % 4 = 0
          ∧ 16 ≤ [3, 2, 35, 7, 0, 0, 1, 0, 0, 0, 0, 0, 0, 0, 0, 0].length
          ∧ firstWordLE [3, 2, 35, 7, 0, 0, 1, 0, 0, 0, 0, 0, 0, 0, 0, 0] = some SPIRV_MAGIC)) :=
  ⟨by decide, c1_shader_validation deviceOneFamily _ 0 5 (by decide)⟩

/-! ### Image count -/

/-- C2 (as stated, refuted): with `minImageCount = UINT32_MAX` the `uint32_t` sum
wraps to 0, and with a non-zero maximum below the minimum the maximum is
requested; in both cases the requested count differs from the clamp of the
mathematical sum and is below `minImageCount`, at all three sites. -/
theorem c2_image_count_wraps_or_undershoots :
    countsAreUint32 capsMinAtUint32Max ∧ countsAreUint32 capsMaxBelowMin ∧
    ¬ (vulkan_renderer.resizeImageCount capsMinAtUint32Max = imageCountPolicy capsMinAtUint32Max
        ∧ capsMinAtUint32Max.minImageCount
            ≤ vulkan_renderer.resizeImageCount capsMinAtUint32Max) ∧
    ¬ (vulkan_renderer.createImageCount capsMinAtUint32Max = imageCountPolicy capsMinAtUint32Max
        ∧ capsMinAtUint32Max.minImageCount
            ≤ vulkan_renderer.createImageCount capsMinAtUint32Max) ∧
    ¬ (vulkan_jni.createImageCount capsMinAtUint32Max = imageCountPolicy capsMinAtUint32Max
        ∧ capsMinAtUint32Max.minImageCount ≤ vulkan_jni.createImageCount capsMinAtUint32Max) ∧
    ¬ (vulkan_renderer.resizeImageCount capsMaxBelowMin = imageCountPolicy capsMaxBelowMin
        ∧ capsMaxBelowMin.minImageCount ≤ vulkan_renderer.resizeImageCount capsMaxBelowMin) ∧
    ¬ (vulkan_renderer.createImageCount capsMaxBelowMin = imageCountPolicy capsMaxBelowMin
        ∧ capsMaxBelowMin.minImageCount ≤ vulkan_renderer.createImageCount capsMaxBelowMin) ∧
    ¬ (vulkan_jni.createImageCount capsMaxBelowMin = imageCountPolicy capsMaxBelowMin
        ∧ capsMaxBelowMin.minImageCount ≤ vulkan_jni.createImageCount capsMaxBelowMin) := by
  decide

/-- C2 (amended): for every capability record with `minImageCount` below
`UINT32_MAX` and `maxImageCount` either zero or at least `minImageCount`, the
image count requested at each of the three sites equals
`clamp(minImageCount + 1, minImageCount, maxImageCount)` when `maxImageCount`
is non-zero and `minImageCount + 1` when it is zero, and is never below
`minImageCount`. -/
theorem c2_image_count (capabilities : VkSurfaceCapabilitiesKHR)
    (hmin : capabilities.minImageCount < UINT32_MAX)
    (hmax : capabilities.maxImageCount = 0
      ∨ capabilities.minImageCount ≤ capabilities.maxImageCount) :
    (vulkan_renderer.resizeImageCount capabilities = imageCountPolicy capabilities
      ∧ capabilities.minImageCount ≤ vulkan_renderer.resizeImageCount capabilities) ∧
    (vulkan_renderer.createImageCount capabilities = imageCountPolicy capabilities
      ∧ capabilities.minImageCount ≤ vulkan_renderer.createImageCount capabilities) ∧
    (vulkan_jni.createImageCount capabilities = imageCountPolicy capabilities
      ∧ capabilities.minImageCount ≤ vulkan_jni.createImageCount capabilities) := by
  have hwrap : (capabilities.minImageCount + 1) % 4294967296
      = capabilities.minImageCount + 1 := by
    apply Nat.mod_eq_of_lt
    unfold UINT32_MAX at hmin
    omega
  simp only [vulkan_renderer.resizeImageCount, vulkan_renderer.createImageCount,
    vulkan_jni.createImageCount, imageCountPolicy, clampInto, hwrap]
  refine ⟨?_, ?_, ?_⟩ <;> split_ifs <;> omega

/-- C2 witness: a surface reporting 2 to 8 images. -/
theorem c2_image_count_witness :
    capsOrdinary.minImageCount < UINT32_MAX ∧
    (capsOrdinary.maxImageCount = 0 ∨ capsOrdinary.minImageCount ≤ capsOrdinary.maxImageCount) ∧
    ((vulkan_renderer.resizeImageCount capsOrdinary = imageCountPolicy capsOrdinary
      ∧ capsOrdinary.minImageCount ≤ vulkan_renderer.resizeImageCount capsOrdinary) ∧
    (vulkan_renderer.createImageCount capsOrdinary = imageCountPolicy capsOrdinary
      ∧ capsOrdinary.minImageCount ≤ vulkan_renderer.createImageCount capsOrdinary) ∧
    (vulkan_jni.createImageCount capsOrdinary = imageCountPolicy capsOrdinary
      ∧ capsOrdinary.minImageCount ≤ vulkan_jni.createImageCount capsOrdinary)) :=
  ⟨by decide, by decide, c2_image_count capsOrdinary (by decide) (by decide)⟩

/-! ### Extent chosen on resize -/

theorem resizeExtent_eq (capabilities : VkSurfaceCapabilitiesKHR) (width height : Int)
    (hw : 0 < width) (hh : 0 < height) (hwj : width ≤ 2147483647) (hhj : height ≤ 2147483647)
    (hwidth : capabilities.minImageExtent.width ≤ capabilities.maxImageExtent.width)
    (hheight : capabilities.minImageExtent.height ≤ capabilities.maxImageExtent.height) :
    vulkan_renderer.resizeExtent capabilities width height
      = if capabilities.currentExtent.width ≠ UINT32_MAX then capabilities.currentExtent
        else ⟨clampInto width.toNat capabilities.minImageExtent.width
                capabilities.maxImageExtent.width,
              clampInto height.toNat capabilities.minImageExtent.height
                capabilities.maxImageExtent.height⟩ := by
  unfold vulkan_renderer.resizeExtent
  rw [toUint32_of_jint width (by omega) hwj, toUint32_of_jint height (by omega) hhj,
    stdClamp_eq_clampInto _ _ _ hwidth, stdClamp_eq_clampInto _ _ _ hheight]

theorem renderer_resize_createInfos (drv : Driver) (dev : DeviceInfo) (sc : SwapchainInfo)
    (renderPass : Nat) (width height : Int) (hw : 0 < width) (hh : 0 < height)
    (hidle : drv.waitIdleResult = VK_SUCCESS) (hcaps : drv.capabilitiesResult = VK_SUCCESS) :
    (createInfos (vulkan_renderer.nativeResizeSwapchain drv (some dev) (some sc) renderPass
        width height).calls).map (fun info => info.imageExtent)
      = [vulkan_renderer.resizeExtent drv.capabilities width height] := by
  have hdim : ¬ (width ≤ 0 ∨ height ≤ 0) := by omega
  unfold vulkan_renderer.nativeResizeSwapchain createInfos
  simp only [hdim, if_false, hidle, hcaps, ne_eq, not_true_eq_false]
  by_cases hcreate : drv.createSwapchainResult = VK_SUCCESS
  · simp only [hcreate, not_true_eq_false, if_false]
    split
    · simp [createLoop_calls_filterMap, destroyNonNull_filterMap, List.filterMap_append]
    · split <;>
        simp [createLoop_calls_filterMap, destroyNonNull_filterMap, List.filterMap_append]
  · simp [hcreate, destroyNonNull_filterMap, List.filterMap_append]

theorem renderer_resize_extent_stored (drv : Driver) (dev : DeviceInfo) (sc : SwapchainInfo)
    (renderPass : Nat) (width height : Int) (hw : 0 < width) (hh : 0 < height)
    (hidle : drv.waitIdleResult = VK_SUCCESS) (hcaps : drv.capabilitiesResult = VK_SUCCESS)
    (hcreate : drv.createSwapchainResult = VK_SUCCESS) :
    (vulkan_renderer.nativeResizeSwapchain drv (some dev) (some sc) renderPass
        width height).info.map (fun info => info.extent)
      = some (vulkan_renderer.resizeExtent drv.capabilities width height) := by
  have hdim : ¬ (width ≤ 0 ∨ height ≤ 0) := by omega
  unfold vulkan_renderer.nativeResizeSwapchain
  simp only [hdim, if_false, hidle, hcaps, hcreate, ne_eq, not_true_eq_false]
  split
  · rfl
  · split <;> rfl

/-- C3: when `nativeResizeSwapchain` of vulkan_renderer.cpp is called with a
positive width and height on a surface whose `minImageExtent` does not exceed
its `maxImageExtent`, and its device wait and capability query succeed, the
extent it requests for the new swapchain is the surface's `currentExtent` if
`currentExtent.width` is not `0xFFFFFFFF`, whatever was requested, and the
requested width and height clamped into `[minImageExtent, maxImageExtent]`
otherwise; once the swapchain is created that extent is the one stored. -/
theorem c3_resize_extent (drv : Driver) (dev : DeviceInfo) (sc : SwapchainInfo)
    (renderPass : Nat) (width height : Int) (hw : 0 < width) (hh : 0 < height)
    (hwj : width ≤ 2147483647) (hhj : height ≤ 2147483647)
    (hwidth : drv.capabilities.minImageExtent.width ≤ drv.capabilities.maxImageExtent.width)
    (hheight : drv.capabilities.minImageExtent.height
      ≤ drv.capabilities.maxImageExtent.height)
    (hidle : drv.waitIdleResult = VK_SUCCESS) (hcaps : drv.capabilitiesResult = VK_SUCCESS) :
    (createInfos (vulkan_renderer.nativeResizeSwapchain drv (some dev) (some sc) renderPass
        width height).calls).map (fun info => info.imageExtent)
      = [extentPolicy drv.capabilities width height]
    ∧ (drv.createSwapchainResult = VK_SUCCESS →
        (vulkan_renderer.nativeResizeSwapchain drv (some dev) (some sc) renderPass
          width height).info.map (fun info => info.extent)
        = some (extentPolicy drv.capabilities width height)) := by
  have hpol : vulkan_renderer.resizeExtent drv.capabilities width height
      = extentPolicy drv.capabilities width height := by
    rw [resizeExtent_eq drv.capabilities width height hw hh hwj hhj hwidth hheight]
    rfl
  constructor
  · rw [renderer_resize_createInfos drv dev sc renderPass width height hw hh hidle hcaps, hpol]
  · intro hcreate
    rw [renderer_resize_extent_stored drv dev sc renderPass width height hw hh hidle hcaps
      hcreate, hpol]

/-- C3 witness: an 800x600 resize of a two-image chain on a surface that leaves
the extent to the caller. -/
theorem c3_resize_extent_witness :
    (0 : Int) < 800 ∧ (0 : Int) < 600 ∧ (800 : Int) ≤ 2147483647 ∧ (600 : Int) ≤ 2147483647 ∧
    driverThreeImages.capabilities.minImageExtent.width
      ≤ driverThreeImages.capabilities.maxImageExtent.width ∧
    driverThreeImages.capabilities.minImageExtent.height
      ≤ driverThreeImages.capabilities.maxImageExtent.height ∧
    driverThreeImages.waitIdleResult = VK_SUCCESS ∧
    driverThreeImages.capabilitiesResult = VK_SUCCESS ∧
    ((createInfos (vulkan_renderer.nativeResizeSwapchain driverThreeImages
        (some deviceOneFamily) (some chainTwoImages) 7 800 600).calls).map
          (fun info => info.imageExtent)
      = [extentPolicy driverThreeImages.capabilities 800 600]
    ∧ (driverThreeImages.createSwapchainResult = VK_SUCCESS →
        (vulkan_renderer.nativeResizeSwapchain driverThreeImages
          (some deviceOneFamily) (some chainTwoImages) 7 800 600).info.map
            (fun info => info.extent)
        = some (extentPolicy driverThreeImages.capabilities 800 600))) :=
  ⟨by decide, by decide, by decide, by decide, by decide, by decide, by decide, by decide,
    c3_resize_extent driverThreeImages deviceOneFamily chainTwoImages 7 800 600
      (by decide) (by decide) (by decide) (by decide) (by decide) (by decide)
      (by decide) (by decide)⟩

/-! ### Format chosen on creation -/

theorem forBreakLoop_eq_find {α : Type} (test : α → Bool) (xs : List α) (chosen : α) :
    forBreakLoop test xs chosen = (xs.find? test).getD chosen := by
  induction xs with
  | nil => rfl
  | cons x rest ih =>
    unfold forBreakLoop
    by_cases hx : test x = true
    · simp [hx]
    · simp [hx, ih]

theorem renderer_chooseFormat_eq_policy (formats : List VkSurfaceFormatKHR) :
    vulkan_renderer.chooseFormat formats = formatPolicy formats := by
  cases formats with
  | nil => rfl
  | cons first rest =>
    simp only [vulkan_renderer.chooseFormat, formatPolicy]
    rw [forBreakLoop_eq_find]
    have hp : vulkan_renderer.isPreferredFormat = fun f => f.format == 44 && f.colorSpace == 0 :=
      rfl
    rw [hp]
    cases List.find? (fun f => f.format == 44 && f.colorSpace == 0) (first :: rest) <;> rfl

theorem formatPolicy_mem (formats : List VkSurfaceFormatKHR) (chosen : VkSurfaceFormatKHR)
    (h : formatPolicy formats = some chosen) : chosen ∈ formats := by
  unfold formatPolicy at h
  split at h
  · next f hf =>
    cases h
    exact List.mem_of_find?_eq_some hf
  · exact List.mem_of_mem_head? h

/-- C4: for every non-empty list of reported surface formats,
`VulkanRenderer.nativeCreateSwapchain` of vulkan_renderer.cpp selects the first
entry that is `B8G8R8A8_UNORM` with `SRGB_NONLINEAR` if there is one and the
entry at index 0 otherwise; the selected entry belongs to the reported list,
is the format requested from `vkCreateSwapchainKHR` and is the format stored in
the returned `SwapchainInfo`. -/
theorem c4_format_selection (drv : Driver) (deviceInfo : DeviceInfo)
    (hne : drv.formats ≠ []) :
    ∃ chosen ret calls,
      formatPolicy drv.formats = some chosen
      ∧ chosen ∈ drv.formats
      ∧ vulkan_renderer.nativeCreateSwapchain drv deviceInfo = Run.done ret calls
      ∧ (createInfos calls).map (fun info => (info.imageFormat, info.imageColorSpace))
          = [(chosen.format, chosen.colorSpace)]
      ∧ ∀ swapchainInfo, ret = some swapchainInfo → swapchainInfo.format = chosen := by
  have hsome : ∃ chosen, vulkan_renderer.chooseFormat drv.formats = some chosen := by
    cases hf : drv.formats with
    | nil => exact absurd hf hne
    | cons first rest => exact ⟨_, rfl⟩
  obtain ⟨chosen, hchosen⟩ := hsome
  have hpol : formatPolicy drv.formats = some chosen := by
    rw [← renderer_chooseFormat_eq_policy, hchosen]
  have hmem := formatPolicy_mem _ _ hpol
  by_cases hcreate : drv.createSwapchainResult = VK_SUCCESS
  · simp only [vulkan_renderer.nativeCreateSwapchain, hchosen, hcreate, ne_eq,
      not_true_eq_false, if_false]
    refine ⟨chosen, _, _, hpol, hmem, rfl, ?_, ?_⟩
    · simp [createInfos, List.filterMap_append]
    · intro swapchainInfo h
      cases h
      rfl
  · simp only [vulkan_renderer.nativeCreateSwapchain, hchosen, hcreate, ne_eq,
      not_false_eq_true, if_true]
    refine ⟨chosen, _, _, hpol, hmem, rfl, ?_, ?_⟩
    · simp [createInfos]
    · intro swapchainInfo h
      cases h

/-- C4 witness: a surface reporting `R8G8B8A8_UNORM` and then `B8G8R8A8_UNORM`. -/
theorem c4_format_selection_witness :
    driverThreeImages.formats ≠ [] ∧
    ∃ chosen ret calls,
      formatPolicy driverThreeImages.formats = some chosen
      ∧ chosen ∈ driverThreeImages.formats
      ∧ vulkan_renderer.nativeCreateSwapchain driverThreeImages deviceOneFamily
          = Run.done ret calls
      ∧ (createInfos calls).map (fun info => (info.imageFormat, info.imageColorSpace))
          = [(chosen.format, chosen.colorSpace)]
      ∧ ∀ swapchainInfo, ret = some swapchainInfo → swapchainInfo.format = chosen :=
  ⟨by decide, c4_format_selection driverThreeImages deviceOneFamily (by decide)⟩

/-! ### A surface that reports no format -/

/-- C5 (evaluation at the failing input): when the surface reports zero formats,
`nativeCreateSwapchain` of vulkan_renderer.cpp and of vulkan_jni.cpp both read
`formats[0]` on the empty vector right after the format query, whereas
`nativeCreateSwapchain` of Vulkanswapchain.cpp returns 0 after the format-count
query without requesting a swapchain. -/
theorem c5_empty_format_list_read (drv : Driver) (ext : Vulkanswapchain.Externs)
    (deviceInfo : DeviceInfo) (surface : Nat) (width height : Int) :
    vulkan_renderer.nativeCreateSwapchain { drv with formats := [] } deviceInfo
      = Run.undefinedBehaviour
          [VkCall.getSurfaceCapabilities, VkCall.getSurfaceFormats, VkCall.getSurfaceFormats]
    ∧ vulkan_jni.nativeCreateSwapchain { drv with formats := [] } surface width height
      = Run.undefinedBehaviour
          [VkCall.getSurfaceCapabilities, VkCall.getSurfaceFormats, VkCall.getSurfaceFormats]
    ∧ ∃ calls,
        Vulkanswapchain.nativeCreateSwapchain ext { drv with formats := [] } (some deviceInfo)
          = Run.done none calls
        ∧ createInfos calls = [] := by
  refine ⟨rfl, rfl, ?_⟩
  by_cases hcaps : drv.capabilitiesResult = VK_SUCCESS
  · refine ⟨[VkCall.getSurfaceCapabilities, VkCall.getSurfaceFormats], ?_, rfl⟩
    simp [Vulkanswapchain.nativeCreateSwapchain, hcaps]
  · refine ⟨[VkCall.getSurfaceCapabilities], ?_, rfl⟩
    simp [Vulkanswapchain.nativeCreateSwapchain, hcaps]

/-! ### The lists of a resized chain -/

/-- C6 (evaluation at the failing input): resizing a chain of two images on a
driver that gives the new swapchain three images succeeds in both
implementations and leaves three image views and three framebuffers next to
the two images of the old chain, which is also the count that
`nativeGetSwapchainImageCount` goes on reporting. -/
theorem c6_resize_keeps_old_image_list :
    (vulkan_renderer.nativeResizeSwapchain driverThreeImages (some deviceOneFamily)
        (some chainTwoImages) 7 800 600).ret = true
    ∧ (vulkan_renderer.nativeResizeSwapchain driverThreeImages (some deviceOneFamily)
        (some chainTwoImages) 7 800 600).info.map
          (fun info => (info.images, info.imageViews, info.framebuffers))
        = some ([11, 12], [40, 41, 42], [50, 51, 52])
    ∧ (Vulkanswapchain.nativeResizeSwapchain externsExample driverThreeImages
        (some deviceOneFamily) (some chainTwoImages) 7 800 600).ret = true
    ∧ (Vulkanswapchain.nativeResizeSwapchain externsExample driverThreeImages
        (some deviceOneFamily) (some chainTwoImages) 7 800 600).info.map
          (fun info => (info.images, info.imageViews, info.framebuffers))
        = some ([11, 12], [40, 41, 42], [50, 51, 52])
    ∧ (Vulkanswapchain.nativeResizeSwapchain externsExample driverThreeImages
        (some deviceOneFamily) (some chainTwoImages) 7 800 600).info.map
          Vulkanswapchain.nativeGetSwapchainImageCount
        = some 2 := by
  decide

/-! ### A framebuffer that cannot be created -/

/-- C7 (evaluation at the failing input): when the creation of framebuffer 1
fails during a resize, both implementations return false with framebuffer 0
(handle 50) still in the chain's framebuffer list, and the only framebuffers
they destroyed are the two of the old chain. -/
theorem c7_failed_framebuffer_not_rolled_back :
    (vulkan_renderer.nativeResizeSwapchain driverSecondFramebufferFails
        (some deviceOneFamily) (some chainTwoImages) 7 800 600).ret = false
    ∧ (vulkan_renderer.nativeResizeSwapchain driverSecondFramebufferFails
        (some deviceOneFamily) (some chainTwoImages) 7 800 600).info.map
          (fun info => info.framebuffers) = some [50, 0, 0]
    ∧ destroyedFramebuffers (vulkan_renderer.nativeResizeSwapchain
        driverSecondFramebufferFails (some deviceOneFamily) (some chainTwoImages)
          7 800 600).calls = [15, 16]
    ∧ (Vulkanswapchain.nativeResizeSwapchain externsExample driverSecondFramebufferFails
        (some deviceOneFamily) (some chainTwoImages) 7 800 600).ret = false
    ∧ (Vulkanswapchain.nativeResizeSwapchain externsExample driverSecondFramebufferFails
        (some deviceOneFamily) (some chainTwoImages) 7 800 600).info.map
          (fun info => info.framebuffers) = some [50, 0, 0]
    ∧ destroyedFramebuffers (Vulkanswapchain.nativeResizeSwapchain externsExample
        driverSecondFramebufferFails (some deviceOneFamily) (some chainTwoImages)
          7 800 600).calls = [15, 16] := by
  decide

/-! ### The old swapchain on resize -/

theorem isSwapchainCall_createImageView (images : List Nat) (format : Nat) (i : Nat) :
    isSwapchainCall (VkCall.createImageView (images.getD i 0) format) = false := rfl

theorem createImageViews_calls_filter (drv : Driver) (swapchainInfo : SwapchainInfo)
    (images : List Nat) (calls : List VkCall) :
    (Vulkanswapchain.createImageViews drv swapchainInfo images calls).calls.filter
        isSwapchainCall
      = calls.filter isSwapchainCall := by
  simp only [Vulkanswapchain.createImageViews]
  split
  · next i _ =>
    have hd : List.filter isSwapchainCall ((List.range i).map fun j =>
        VkCall.destroyImageView ((createLoop drv.imageViewAnswer
          (fun i => VkCall.createImageView (images.getD i 0) swapchainInfo.format.format)
          images.length 0 (vectorResize swapchainInfo.imageViews images.length)
          calls).slots.getD j 0)) = [] := by
      rw [List.filter_eq_nil_iff]
      intro c hc
      obtain ⟨j, _, rfl⟩ := List.mem_map.mp hc
      simp [isSwapchainCall]
    rw [List.filter_append, hd, List.append_nil]
    exact createLoop_calls_filter _ _ _ (fun _ => rfl) _ _ _ _
  · exact createLoop_calls_filter _ _ _ (fun _ => rfl) _ _ _ _

theorem createImageViews_swapchain (drv : Driver) (swapchainInfo : SwapchainInfo)
    (images : List Nat) (calls : List VkCall) :
    (Vulkanswapchain.createImageViews drv swapchainInfo images calls).info.swapchain
        = swapchainInfo.swapchain
    ∧ (Vulkanswapchain.createImageViews drv swapchainInfo images calls).info.extent
        = swapchainInfo.extent := by
  simp only [Vulkanswapchain.createImageViews]
  split <;> exact ⟨rfl, rfl⟩

/-- C8: in `nativeResizeSwapchain` of Vulkanswapchain.cpp, once the arguments
are accepted and the surface capabilities are obtained, the new swapchain is
requested with `oldSwapchain` set to the chain's current handle.  If that
creation fails the call returns false, no swapchain is destroyed and the
`SwapchainInfo` still holds the old handle; if it succeeds the old handle, when
non-null, is destroyed exactly once, right after the creation call, and the
`SwapchainInfo` holds the new handle and the new extent. -/
theorem c8_old_swapchain_on_resize (ext : Vulkanswapchain.Externs) (drv : Driver)
    (dev : DeviceInfo) (sc : SwapchainInfo) (renderPass : Nat) (width height : Int)
    (hw : 0 < width) (hh : 0 < height) (hcaps : drv.capabilitiesResult = VK_SUCCESS) :
    ∃ info : VkSwapchainCreateInfoKHR,
      info.oldSwapchain = sc.swapchain
      ∧ info.imageExtent
          = ext.chooseSwapExtent drv.capabilities (toUint32 width) (toUint32 height)
      ∧ (drv.createSwapchainResult ≠ VK_SUCCESS →
          (Vulkanswapchain.nativeResizeSwapchain ext drv (some dev) (some sc) renderPass
            width height).ret = false
          ∧ swapchainCalls (Vulkanswapchain.nativeResizeSwapchain ext drv (some dev) (some sc)
              renderPass width height).calls = [VkCall.createSwapchain info]
          ∧ (Vulkanswapchain.nativeResizeSwapchain ext drv (some dev) (some sc) renderPass
              width height).info.map (fun i => i.swapchain) = some sc.swapchain)
      ∧ (drv.createSwapchainResult = VK_SUCCESS →
          swapchainCalls (Vulkanswapchain.nativeResizeSwapchain ext drv (some dev) (some sc)
              renderPass width height).calls
            = VkCall.createSwapchain info ::
                (if sc.swapchain ≠ VK_NULL_HANDLE then [VkCall.destroySwapchain sc.swapchain]
                 else [])
          ∧ (Vulkanswapchain.nativeResizeSwapchain ext drv (some dev) (some sc) renderPass
              width height).info.map (fun i => (i.swapchain, i.extent))
            = some (drv.newSwapchain,
                ext.chooseSwapExtent drv.capabilities (toUint32 width) (toUint32 height))) := by
  have hdim : ¬ (width ≤ 0 ∨ height ≤ 0) := by omega
  refine ⟨{ surface := dev.surface
            minImageCount := ext.getSwapchainImageCount drv.capabilities
            imageFormat := sc.format.format
            imageColorSpace := sc.format.colorSpace
            imageExtent :=
              ext.chooseSwapExtent drv.capabilities (toUint32 width) (toUint32 height)
            imageSharingMode := VkSharingMode.exclusive
            queueFamilyIndices := []
            presentMode := VK_PRESENT_MODE_FIFO_KHR
            oldSwapchain := sc.swapchain }, rfl, rfl, ?_, ?_⟩
  · intro hcreate
    unfold Vulkanswapchain.nativeResizeSwapchain
    simp only [hdim, if_false, hcaps, hcreate, ne_eq, not_true_eq_false, not_false_eq_true,
      if_true]
    simp [swapchainCalls, List.filter_append, destroyNonNull_filter, isSwapchainCall]
  · intro hcreate
    unfold Vulkanswapchain.nativeResizeSwapchain
    simp only [hdim, if_false, hcaps, hcreate, ne_eq, not_true_eq_false]
    by_cases hnull : sc.swapchain = VK_NULL_HANDLE
    · simp only [hnull, not_true_eq_false, if_false]
      split_ifs
      · constructor
        · simp [swapchainCalls, createImageViews_calls_filter, List.filter_append,
            destroyNonNull_filter, isSwapchainCall, hnull]
        · simp [createImageViews_swapchain]
      · split <;> constructor <;>
          simp [swapchainCalls, createImageViews_calls_filter, createLoop_calls_filter,
            List.filter_append, destroyNonNull_filter, isSwapchainCall, hnull,
            createImageViews_swapchain]
    · simp only [hnull, not_false_eq_true, if_true]
      split_ifs
      · constructor
        · simp [swapchainCalls, createImageViews_calls_filter, List.filter_append,
            destroyNonNull_filter, isSwapchainCall]
        · simp [createImageViews_swapchain]
      · split <;> constructor <;>
          simp [swapchainCalls, createImageViews_calls_filter, createLoop_calls_filter,
            List.filter_append, destroyNonNull_filter, isSwapchainCall,
            createImageViews_swapchain]

/-- C8 witness: an 800x600 resize of the chain holding swapchain 10. -/
theorem c8_old_swapchain_on_resize_witness :
    (0 : Int) < 800 ∧ (0 : Int) < 600 ∧ driverThreeImages.capabilitiesResult = VK_SUCCESS ∧
    ∃ info : VkSwapchainCreateInfoKHR,
      info.oldSwapchain = chainTwoImages.swapchain
      ∧ info.imageExtent
          = externsExample.chooseSwapExtent driverThreeImages.capabilities (toUint32 800)
              (toUint32 600)
      ∧ (driverThreeImages.createSwapchainResult ≠ VK_SUCCESS →
          (Vulkanswapchain.nativeResizeSwapchain externsExample driverThreeImages
            (some deviceOneFamily) (some chainTwoImages) 7 800 600).ret = false
          ∧ swapchainCalls (Vulkanswapchain.nativeResizeSwapchain externsExample
              driverThreeImages (some deviceOneFamily) (some chainTwoImages) 7 800 600).calls
            = [VkCall.createSwapchain info]
          ∧ (Vulkanswapchain.nativeResizeSwapchain externsExample driverThreeImages
              (some deviceOneFamily) (some chainTwoImages) 7 800 600).info.map
                (fun i => i.swapchain) = some chainTwoImages.swapchain)
      ∧ (driverThreeImages.createSwapchainResult = VK_SUCCESS →
          swapchainCalls (Vulkanswapchain.nativeResizeSwapchain externsExample
              driverThreeImages (some deviceOneFamily) (some chainTwoImages) 7 800 600).calls
            = VkCall.createSwapchain info ::
                (if chainTwoImages.swapchain ≠ VK_NULL_HANDLE then
                  [VkCall.destroySwapchain chainTwoImages.swapchain]
                 else [])
          ∧ (Vulkanswapchain.nativeResizeSwapchain externsExample driverThreeImages
              (some deviceOneFamily) (some chainTwoImages) 7 800 600).info.map
                (fun i => (i.swapchain, i.extent))
            = some (driverThreeImages.newSwapchain,
                externsExample.chooseSwapExtent driverThreeImages.capabilities (toUint32 800)
                  (toUint32 600))) :=
  ⟨by decide, by decide, by decide,
    c8_old_swapchain_on_resize externsExample driverThreeImages deviceOneFamily chainTwoImages
      7 800 600 (by decide) (by decide) (by decide)⟩

/-! ### Acquiring the next image -/

theorem toJint_of_small (x : Nat) (h : x < 2147483648) : toJint x = (x : Int) := by
  unfold toJint
  have hmod : x % 4294967296 = x := Nat.mod_eq_of_lt (by omega)
  rw [hmod, if_pos h]

/-- C9 (as stated, refuted): on a successful acquire that produced image
index 0xFFFFFFFF, `VulkanRunner.nativeAcquireNextImage` returns -1, the value it
returns for a failure, and not the image index; for index 0x80000000 it
returns -2147483648. -/
theorem c9_large_index_not_returned :
    vulkan_jni.nativeAcquireNextImage VK_SUCCESS 4294967295 = -1
    ∧ ¬ (vulkan_jni.nativeAcquireNextImage VK_SUCCESS 4294967295 = ((4294967295 : Nat) : Int))
    ∧ vulkan_jni.nativeAcquireNextImage VK_SUCCESS 2147483648 = -2147483648
    ∧ ¬ (vulkan_jni.nativeAcquireNextImage VK_SUCCESS 2147483648
          = ((2147483648 : Nat) : Int)) := by
  decide

/-- C9 (amended): for every result code of `vkAcquireNextImageKHR` and every
image index, `VulkanRunner.nativeAcquireNextImage` returns -1 for every result
other than `VK_SUCCESS`, out-of-date and suboptimal included, whatever index
was produced, and for `VK_SUCCESS` it returns the index converted to `jint`.
For a `uint32_t` index that is the index itself below 2^31 and the index minus
2^32 from there on, so the value returned is the acquired image index if and
only if the result is `VK_SUCCESS` and the index is below 2^31. -/
theorem c9_runner_acquire (result : Int) (imageIndex : Nat) :
    (result ≠ VK_SUCCESS → vulkan_jni.nativeAcquireNextImage result imageIndex = -1)
    ∧ vulkan_jni.nativeAcquireNextImage VK_ERROR_OUT_OF_DATE_KHR imageIndex = -1
    ∧ vulkan_jni.nativeAcquireNextImage VK_SUBOPTIMAL_KHR imageIndex = -1
    ∧ vulkan_jni.nativeAcquireNextImage VK_SUCCESS imageIndex = toJint imageIndex
    ∧ (imageIndex < 4294967296 →
        toJint imageIndex
          = (if imageIndex < 2147483648 then (imageIndex : Int)
             else (imageIndex : Int) - 4294967296)
        ∧ (vulkan_jni.nativeAcquireNextImage result imageIndex = (imageIndex : Int)
            ↔ result = VK_SUCCESS ∧ imageIndex < 2147483648)) := by
  have hval : vulkan_jni.nativeAcquireNextImage result imageIndex
      = (if result = VK_SUCCESS then toJint imageIndex else -1) := by
    unfold vulkan_jni.nativeAcquireNextImage
    by_cases hs : result = VK_SUCCESS
    · subst hs
      have h1 : ¬ (VK_SUCCESS = VK_ERROR_OUT_OF_DATE_KHR ∨ VK_SUCCESS = VK_SUBOPTIMAL_KHR) := by
        decide
      rw [if_neg h1, if_neg (fun h => h rfl), if_pos rfl]
    · by_cases h1 : result = VK_ERROR_OUT_OF_DATE_KHR ∨ result = VK_SUBOPTIMAL_KHR
      · simp only [h1, if_true, hs, if_false]
      · simp only [h1, if_false, hs, ne_eq, not_false_eq_true, if_true]
  refine ⟨?_, by simp [vulkan_jni.nativeAcquireNextImage],
    by simp [vulkan_jni.nativeAcquireNextImage],
    by simp [vulkan_jni.nativeAcquireNextImage, VK_SUCCESS, VK_ERROR_OUT_OF_DATE_KHR,
      VK_SUBOPTIMAL_KHR], ?_⟩
  · intro hs
    rw [hval, if_neg hs]
  · intro hidx
    have hmod : imageIndex % 4294967296 = imageIndex := Nat.mod_eq_of_lt hidx
    have hconv : toJint imageIndex
        = (if imageIndex < 2147483648 then (imageIndex : Int)
           else (imageIndex : Int) - 4294967296) := by
      unfold toJint
      rw [hmod]
    refine ⟨hconv, ?_⟩
    rw [hval]
    by_cases hs : result = VK_SUCCESS
    · rw [if_pos hs, hconv]
      split_ifs with hsmall
      · exact ⟨fun _ => ⟨hs, hsmall⟩, fun _ => rfl⟩
      · constructor
        · intro h
          omega
        · rintro ⟨-, h⟩
          exact absurd h hsmall
    · rw [if_neg hs]
      constructor
      · intro h
        omega
      · rintro ⟨h, -⟩
        exact absurd h hs

/-- C10 (as stated, refuted): on a suboptimal acquire that produced image index 2,
`VulkanRenderer.nativeAcquireNextImage` returns 2 and not -1, in Vulkanswapchain.cpp
and in vulkan_renderer.cpp alike. -/
theorem c10_suboptimal_returns_index :
    ¬ (Vulkanswapchain.nativeAcquireNextImage VK_SUBOPTIMAL_KHR 2 = -1)
    ∧ ¬ (vulkan_renderer.nativeAcquireNextImage VK_SUBOPTIMAL_KHR 2 = -1)
    ∧ Vulkanswapchain.nativeAcquireNextImage VK_SUBOPTIMAL_KHR 2 = 2
    ∧ vulkan_renderer.nativeAcquireNextImage VK_SUBOPTIMAL_KHR 2 = 2 := by
  decide

/-- C10 (amended): for every acquire whose underlying result is out-of-date,
`VulkanRenderer.nativeAcquireNextImage` returns -1; for a suboptimal result it
returns what it returns for `VK_SUCCESS`, the acquired image index converted to
`jint`. -/
theorem c10_renderer_acquire (imageIndex : Nat) :
    Vulkanswapchain.nativeAcquireNextImage VK_ERROR_OUT_OF_DATE_KHR imageIndex = -1
    ∧ vulkan_renderer.nativeAcquireNextImage VK_ERROR_OUT_OF_DATE_KHR imageIndex = -1
    ∧ Vulkanswapchain.nativeAcquireNextImage VK_SUBOPTIMAL_KHR imageIndex = toJint imageIndex
    ∧ vulkan_renderer.nativeAcquireNextImage VK_SUBOPTIMAL_KHR imageIndex = toJint imageIndex
    ∧ Vulkanswapchain.nativeAcquireNextImage VK_SUCCESS imageIndex = toJint imageIndex
    ∧ vulkan_renderer.nativeAcquireNextImage VK_SUCCESS imageIndex = toJint imageIndex := by
  simp [Vulkanswapchain.nativeAcquireNextImage, vulkan_renderer.nativeAcquireNextImage,
    VK_ERROR_OUT_OF_DATE_KHR, VK_SUBOPTIMAL_KHR, VK_SUCCESS]

/-! ### Queue families and device creation -/

theorem findQueueFamilyLoop_found (physicalDevice : PhysicalDeviceInfo) (flags surface : Nat)
    (hsurface : surface ≠ VK_NULL_HANDLE) :
    ∀ (remaining i : Nat),
      (∃ j, i ≤ j ∧ j < i + remaining
        ∧ physicalDevice.queueFamilies.getD j 0 &&& flags ≠ 0
        ∧ physicalDevice.presentSupport j surface = true) →
      i ≤ vulkan_renderer.findQueueFamilyLoop physicalDevice flags surface remaining i
      ∧ vulkan_renderer.findQueueFamilyLoop physicalDevice flags surface remaining i
          < i + remaining
      ∧ physicalDevice.queueFamilies.getD
          (vulkan_renderer.findQueueFamilyLoop physicalDevice flags surface remaining i) 0
            &&& flags ≠ 0
      ∧ physicalDevice.presentSupport
          (vulkan_renderer.findQueueFamilyLoop physicalDevice flags surface remaining i)
          surface = true := by
  intro remaining
  induction remaining with
  | zero =>
    rintro i ⟨j, h1, h2, -, -⟩
    omega
  | succ n ih =>
    rintro i ⟨j, h1, h2, hflags, hpresent⟩
    unfold vulkan_renderer.findQueueFamilyLoop
    by_cases hi : physicalDevice.queueFamilies.getD i 0 &&& flags ≠ 0
    · rw [if_pos hi, if_pos hsurface]
      by_cases hp : physicalDevice.presentSupport i surface = true
      · rw [if_pos hp]
        exact ⟨le_refl i, by omega, hi, hp⟩
      · rw [if_neg hp]
        have hne : j ≠ i := by
          rintro rfl
          exact hp hpresent
        obtain ⟨r1, r2, r3, r4⟩ := ih (i + 1) ⟨j, by omega, by omega, hflags, hpresent⟩
        exact ⟨by omega, by omega, r3, r4⟩
    · rw [if_neg hi]
      have hne : j ≠ i := by
        rintro rfl
        exact hi hflags
      obtain ⟨r1, r2, r3, r4⟩ := ih (i + 1) ⟨j, by omega, by omega, hflags, hpresent⟩
      exact ⟨by omega, by omega, r3, r4⟩

/-- C11 (as stated, refuted): on an adapter whose only presenting family is
compute-only, a family supports presentation to surface 4 and yet the
present-family search of `nativeCreateDevice` returns `UINT32_MAX`, so that the
call returns 0. -/
theorem c11_present_only_family_not_found :
    ¬ ((∃ i, i < adapterPresentOnCompute.queueFamilies.length
          ∧ adapterPresentOnCompute.presentSupport i 4 = true) →
        vulkan_renderer.findQueueFamily adapterPresentOnCompute VK_QUEUE_GRAPHICS_BIT 4
          ≠ UINT32_MAX)
    ∧ (Vulkaninstance.nativeCreateDevice deviceDriverPresentOnCompute).returned = some none := by
  constructor
  · intro h
    exact h ⟨1, by decide, by decide⟩ (by decide)
  · decide

/-- C11 (amended): for every adapter and surface, if at least one queue family
of the adapter supports both graphics operations and presentation to the
surface, the present-family search made by `nativeCreateDevice` succeeds: it
returns the index of such a family and not `UINT32_MAX`. -/
theorem c11_present_family_search (physicalDevice : PhysicalDeviceInfo) (surface : Nat)
    (hsurface : surface ≠ VK_NULL_HANDLE)
    (hcount : physicalDevice.queueFamilies.length ≤ UINT32_MAX)
    (hfamily : ∃ i, i < physicalDevice.queueFamilies.length
      ∧ physicalDevice.queueFamilies.getD i 0 &&& VK_QUEUE_GRAPHICS_BIT ≠ 0
      ∧ physicalDevice.presentSupport i surface = true) :
    vulkan_renderer.findQueueFamily physicalDevice VK_QUEUE_GRAPHICS_BIT surface ≠ UINT32_MAX
    ∧ vulkan_renderer.findQueueFamily physicalDevice VK_QUEUE_GRAPHICS_BIT surface
        < physicalDevice.queueFamilies.length
    ∧ physicalDevice.queueFamilies.getD
        (vulkan_renderer.findQueueFamily physicalDevice VK_QUEUE_GRAPHICS_BIT surface) 0
          &&& VK_QUEUE_GRAPHICS_BIT ≠ 0
    ∧ physicalDevice.presentSupport
        (vulkan_renderer.findQueueFamily physicalDevice VK_QUEUE_GRAPHICS_BIT surface)
        surface = true := by
  obtain ⟨i, hi, hflags, hpresent⟩ := hfamily
  obtain ⟨-, r2, r3, r4⟩ := findQueueFamilyLoop_found physicalDevice VK_QUEUE_GRAPHICS_BIT
    surface hsurface physicalDevice.queueFamilies.length 0
    ⟨i, Nat.zero_le i, by omega, hflags, hpresent⟩
  unfold vulkan_renderer.findQueueFamily
  refine ⟨?_, by omega, r3, r4⟩
  omega

/-- C11 witness: the adapter whose family 1 does graphics and presents. -/
theorem c11_present_family_search_witness :
    (4 : Nat) ≠ VK_NULL_HANDLE
    ∧ adapterGraphicsPresents.queueFamilies.length ≤ UINT32_MAX
    ∧ (∃ i, i < adapterGraphicsPresents.queueFamilies.length
      ∧ adapterGraphicsPresents.queueFamilies.getD i 0 &&& VK_QUEUE_GRAPHICS_BIT ≠ 0
      ∧ adapterGraphicsPresents.presentSupport i 4 = true)
    ∧ (vulkan_renderer.findQueueFamily adapterGraphicsPresents VK_QUEUE_GRAPHICS_BIT 4
        ≠ UINT32_MAX
      ∧ vulkan_renderer.findQueueFamily adapterGraphicsPresents VK_QUEUE_GRAPHICS_BIT 4
          < adapterGraphicsPresents.queueFamilies.length
      ∧ adapterGraphicsPresents.queueFamilies.getD
          (vulkan_renderer.findQueueFamily adapterGraphicsPresents VK_QUEUE_GRAPHICS_BIT 4) 0
            &&& VK_QUEUE_GRAPHICS_BIT ≠ 0
      ∧ adapterGraphicsPresents.presentSupport
          (vulkan_renderer.findQueueFamily adapterGraphicsPresents VK_QUEUE_GRAPHICS_BIT 4)
          4 = true) :=
  ⟨by decide, by decide, ⟨1, by decide, by decide, by decide⟩,
    c11_present_family_search adapterGraphicsPresents 4 (by decide) (by decide)
      ⟨1, by decide, by decide, by decide⟩⟩

/-- C12: when `nativeCreateDevice` of Vulkaninstance.cpp has its window, its
surface and at least one adapter, and the graphics-family search or the
present-family search on the first adapter returns `UINT32_MAX`, the call
returns 0 and issues no `vkCreateDevice`. -/
theorem c12_no_device_without_queue_family (drv : Vulkaninstance.DeviceDriver)
    (hwindow : drv.window ≠ 0) (hsurface : drv.surfaceResult = VK_SUCCESS)
    (hdevices : drv.physicalDevices ≠ [])
    (hsearch :
      vulkan_renderer.findQueueFamily (drv.properties (drv.physicalDevices.getD 0 0))
          VK_QUEUE_GRAPHICS_BIT VK_NULL_HANDLE = UINT32_MAX
      ∨ vulkan_renderer.findQueueFamily (drv.properties (drv.physicalDevices.getD 0 0))
          VK_QUEUE_GRAPHICS_BIT drv.surface = UINT32_MAX) :
    (Vulkaninstance.nativeCreateDevice drv).returned = some none
    ∧ (Vulkaninstance.nativeCreateDevice drv).calls.filter isCreateDevice = [] := by
  have hlen : drv.physicalDevices.length ≠ 0 := by
    intro h
    exact hdevices (List.length_eq_zero.mp h)
  unfold Vulkaninstance.nativeCreateDevice
  simp only [hwindow, if_false, hsurface, ne_eq, not_true_eq_false, hlen, hsearch, if_true]
  exact ⟨rfl, rfl⟩

/-- C12 witness: an adapter with a single compute-only family. -/
theorem c12_no_device_without_queue_family_witness :
    deviceDriverComputeOnly.window ≠ 0 ∧ deviceDriverComputeOnly.surfaceResult = VK_SUCCESS
    ∧ deviceDriverComputeOnly.physicalDevices ≠ []
    ∧ (vulkan_renderer.findQueueFamily
          (deviceDriverComputeOnly.properties (deviceDriverComputeOnly.physicalDevices.getD 0 0))
          VK_QUEUE_GRAPHICS_BIT VK_NULL_HANDLE = UINT32_MAX
      ∨ vulkan_renderer.findQueueFamily
          (deviceDriverComputeOnly.properties (deviceDriverComputeOnly.physicalDevices.getD 0 0))
          VK_QUEUE_GRAPHICS_BIT deviceDriverComputeOnly.surface = UINT32_MAX)
    ∧ ((Vulkaninstance.nativeCreateDevice deviceDriverComputeOnly).returned = some none
      ∧ (Vulkaninstance.nativeCreateDevice deviceDriverComputeOnly).calls.filter
          isCreateDevice = []) :=
  ⟨by decide, by decide, by decide, Or.inl (by decide),
    c12_no_device_without_queue_family deviceDriverComputeOnly (by decide) (by decide)
      (by decide) (Or.inl (by decide))⟩

/-- C13 (evaluation at the failing inputs): `nativeCreateDevice` of
Vulkaninstance.cpp never destroys a surface; when no adapter is enumerated,
when a queue-family search fails and when `vkCreateDevice` fails, it returns 0
after releasing the native window only, and surface 4, created by the call, is
still allocated. -/
theorem c13_surface_left_allocated :
    (∀ drv : Vulkaninstance.DeviceDriver,
      destroyedObjects (Vulkaninstance.nativeCreateDevice drv).calls = [])
    ∧ (Vulkaninstance.nativeCreateDevice deviceDriverNoAdapter).returned = some none
    ∧ (Vulkaninstance.nativeCreateDevice deviceDriverNoAdapter).calls
        = [GpuCall.create ObjectKind.surface 0 4, GpuCall.releaseNativeWindow 8]
    ∧ liveObjects (Vulkaninstance.nativeCreateDevice deviceDriverNoAdapter).calls
        = [(ObjectKind.surface, 4)]
    ∧ (Vulkaninstance.nativeCreateDevice deviceDriverComputeOnly).returned = some none
    ∧ liveObjects (Vulkaninstance.nativeCreateDevice deviceDriverComputeOnly).calls
        = [(ObjectKind.surface, 4)]
    ∧ (Vulkaninstance.nativeCreateDevice deviceDriverCreateFails).returned = some none
    ∧ liveObjects (Vulkaninstance.nativeCreateDevice deviceDriverCreateFails).calls
        = [(ObjectKind.surface, 4)] := by
  refine ⟨?_, by decide, by decide, by decide, by decide, by decide, by decide, by decide⟩
  intro drv
  unfold Vulkaninstance.nativeCreateDevice
  simp only []
  split_ifs <;> simp [destroyedObjects, GpuRun.calls]

/-! ### Synchronisation objects -/

/-- C14 (evaluation at the failing inputs): when the second semaphore of slot 0
cannot be created, `nativeCreateSyncObjects` returns false without destroying
anything, and semaphore 60, created for that slot, stays allocated; when the
fence of slot 1 cannot be created, the three objects of slot 0 are destroyed
and the two semaphores 63 and 64 of slot 1 stay allocated. -/
theorem c14_failing_slot_objects_left_allocated :
    (Vulkanswapchain.nativeCreateSyncObjects syncDriverSecondSemaphoreFails
        (some deviceOneFamily) 2 syncArraysOfTwo).returned = some ⟨false, syncArraysOfTwo⟩
    ∧ destroyedObjects (Vulkanswapchain.nativeCreateSyncObjects syncDriverSecondSemaphoreFails
        (some deviceOneFamily) 2 syncArraysOfTwo).calls = []
    ∧ liveObjects (Vulkanswapchain.nativeCreateSyncObjects syncDriverSecondSemaphoreFails
        (some deviceOneFamily) 2 syncArraysOfTwo).calls = [(ObjectKind.semaphore, 60)]
    ∧ (Vulkanswapchain.nativeCreateSyncObjects syncDriverSecondFenceFails
        (some deviceOneFamily) 2 syncArraysOfTwo).returned = some ⟨false, syncArraysOfTwo⟩
    ∧ destroyedObjects (Vulkanswapchain.nativeCreateSyncObjects syncDriverSecondFenceFails
        (some deviceOneFamily) 2 syncArraysOfTwo).calls
        = [(ObjectKind.semaphore, 60), (ObjectKind.semaphore, 61), (ObjectKind.fence, 62)]
    ∧ liveObjects (Vulkanswapchain.nativeCreateSyncObjects syncDriverSecondFenceFails
        (some deviceOneFamily) 2 syncArraysOfTwo).calls
        = [(ObjectKind.semaphore, 63), (ObjectKind.semaphore, 64)] := by
  decide

/-! ### The test texture -/

/-- C15 (evaluation at the failing inputs): a failing `vkBindImageMemory`, a
failing `vkBindBufferMemory` and a failing `vkAllocateCommandBuffers` do not
make `nativeCreateTestTexture` return 0: the call goes on and returns the
texture; after a failing `vkMapMemory` the pixels are written through the
unset pointer.  A failing `vkCreateSampler`, whose result is checked, makes it
return 0 with nothing left allocated. -/
theorem c15_unchecked_steps_do_not_fail :
    (Vulkantexture.nativeCreateTestTexture { textureDriverOrdinary with bindImageMemory := -2 }
        (some deviceOneFamily)).returned
      = some (some ⟨80, 81, 86, 87, 1920, 1080⟩)
    ∧ (Vulkantexture.nativeCreateTestTexture { textureDriverOrdinary with bindBufferMemory := -2 }
        (some deviceOneFamily)).returned
      = some (some ⟨80, 81, 86, 87, 1920, 1080⟩)
    ∧ (Vulkantexture.nativeCreateTestTexture
        { textureDriverOrdinary with allocateCommandBuffers := (-1, 0) }
        (some deviceOneFamily)).returned
      = some (some ⟨80, 81, 86, 87, 1920, 1080⟩)
    ∧ (Vulkantexture.nativeCreateTestTexture { textureDriverOrdinary with mapMemory := -5 }
        (some deviceOneFamily)).returned = none
    ∧ liveObjects (Vulkantexture.nativeCreateTestTexture
        { textureDriverOrdinary with mapMemory := -5 } (some deviceOneFamily)).calls
      = [(ObjectKind.image, 80), (ObjectKind.memory, 81), (ObjectKind.buffer, 82),
          (ObjectKind.memory, 83)]
    ∧ (Vulkantexture.nativeCreateTestTexture { textureDriverOrdinary with createSampler := (-1, 0) }
        (some deviceOneFamily)).returned = some none
    ∧ liveObjects (Vulkantexture.nativeCreateTestTexture
        { textureDriverOrdinary with createSampler := (-1, 0) } (some deviceOneFamily)).calls
      = [] := by
  decide

/-! ### A zero device handle -/

/-- C16 (evaluation at the failing input): with a zero device handle each of
the eight SimpleVulkanFilter entry points dereferences the handle in
`getDevice` before any validation, whatever its other arguments are. -/
theorem c16_zero_device_handle_dereferenced (codeArray : Option (List Nat))
    (elementsOk : Bool) (createResult : Int) (handle : Nat) :
    nativeCreateShaderModule none codeArray elementsOk createResult handle
      = Run.undefinedBehaviour []
    ∧ Vulkanshader.nativeCreateSampler none createResult handle = GpuRun.undefinedBehaviour []
    ∧ Vulkanpipeline.nativeCreatePipelineLayout none handle createResult handle
      = GpuRun.undefinedBehaviour []
    ∧ Vulkandescriptor.nativeCreateDescriptorSetLayout none createResult handle
      = GpuRun.undefinedBehaviour []
    ∧ Vulkanshader.nativeDestroyShaderModule none handle = GpuRun.undefinedBehaviour []
    ∧ Vulkanshader.nativeDestroySampler none handle = GpuRun.undefinedBehaviour []
    ∧ Vulkanpipeline.nativeDestroyPipelineLayout none handle = GpuRun.undefinedBehaviour []
    ∧ Vulkandescriptor.nativeDestroyDescriptorSetLayout none handle
      = GpuRun.undefinedBehaviour [] :=
  ⟨rfl, rfl, rfl, rfl, rfl, rfl, rfl, rfl⟩

/-! ### Submitting and presenting a frame -/

/-- C17: with a valid device handle `nativeSubmitCommandBufferWithSync` issues
exactly one queue submission, on the graphics queue, of one batch holding
exactly the given command buffer, the given wait semaphore waited at the
colour-attachment-output stage and the given signal semaphore, with the given
fence as completion fence; it issues no fence wait, queue-idle wait or
device-idle wait. -/
theorem c17_submit_with_sync (deviceInfo : DeviceInfo)
    (commandBuffer waitSemaphore signalSemaphore fence : Nat) (submitResult : Int) :
    (Vulkanswapchain.nativeSubmitCommandBufferWithSync (some deviceInfo) commandBuffer
        waitSemaphore signalSemaphore fence submitResult).calls.filter isQueueSubmit
      = [GpuCall.queueSubmit deviceInfo.graphicsQueue
          [{ waitSemaphores := [waitSemaphore]
             waitDstStageMask := [VK_PIPELINE_STAGE_COLOR_ATTACHMENT_OUTPUT_BIT]
             commandBuffers := [commandBuffer]
             signalSemaphores := [signalSemaphore] }] fence]
    ∧ (Vulkanswapchain.nativeSubmitCommandBufferWithSync (some deviceInfo) commandBuffer
        waitSemaphore signalSemaphore fence submitResult).calls.filter isWaitCall = []
    ∧ (Vulkanswapchain.nativeSubmitCommandBufferWithSync (some deviceInfo) commandBuffer
        waitSemaphore signalSemaphore fence submitResult).returned = some () := by
  unfold Vulkanswapchain.nativeSubmitCommandBufferWithSync
  by_cases h : submitResult = VK_SUCCESS <;>
    simp [h, GpuRun.calls, GpuRun.returned, isQueueSubmit, isWaitCall]

/-- C18 (as stated, refuted): on a present that reports out-of-date and on one
that reports suboptimal, `nativePresentImageWithSync` hands its caller the very
outcome of a successful present. -/
theorem c18_present_outcome_same_as_success :
    ¬ ((Vulkanswapchain.nativePresentImageWithSync (some deviceOneFamily)
          (some chainTwoImages) 1 61 VK_ERROR_OUT_OF_DATE_KHR).returned
        ≠ (Vulkanswapchain.nativePresentImageWithSync (some deviceOneFamily)
          (some chainTwoImages) 1 61 VK_SUCCESS).returned)
    ∧ ¬ ((Vulkanswapchain.nativePresentImageWithSync (some deviceOneFamily)
          (some chainTwoImages) 1 61 VK_SUBOPTIMAL_KHR).returned
        ≠ (Vulkanswapchain.nativePresentImageWithSync (some deviceOneFamily)
          (some chainTwoImages) 1 61 VK_SUCCESS).returned) := by
  decide

/-- C18 (amended): `nativePresentImageWithSync` returns nothing, so whatever
the underlying present call reports its caller receives the same outcome; it
issues the one present call, and writes an error to the log exactly when the
result is neither success nor suboptimal. -/
theorem c18_present_with_sync (deviceInfo : DeviceInfo) (swapchainInfo : SwapchainInfo)
    (imageIndex : Int) (waitSemaphore : Nat) (presentResult otherResult : Int) :
    (Vulkanswapchain.nativePresentImageWithSync (some deviceInfo) (some swapchainInfo)
        imageIndex waitSemaphore presentResult).returned
      = (Vulkanswapchain.nativePresentImageWithSync (some deviceInfo) (some swapchainInfo)
        imageIndex waitSemaphore otherResult).returned
    ∧ (Vulkanswapchain.nativePresentImageWithSync (some deviceInfo) (some swapchainInfo)
        imageIndex waitSemaphore presentResult).calls
      = GpuCall.queuePresent deviceInfo.presentQueue [waitSemaphore] [swapchainInfo.swapchain]
          [toUint32 imageIndex]
        :: (if presentResult ≠ VK_SUCCESS ∧ presentResult ≠ VK_SUBOPTIMAL_KHR then
              [GpuCall.logError]
            else []) := by
  unfold Vulkanswapchain.nativePresentImageWithSync
  simp only []
  split_ifs <;> simp [GpuRun.calls, GpuRun.returned]

/-! ### Resizing twice -/

theorem renderer_resize_success (drv : Driver) (dev : DeviceInfo) (sc : SwapchainInfo)
    (renderPass : Nat) (width height : Int)
    (hret : (vulkan_renderer.nativeResizeSwapchain drv (some dev) (some sc) renderPass
      width height).ret = true) :
    (createInfos (vulkan_renderer.nativeResizeSwapchain drv (some dev) (some sc) renderPass
        width height).calls).map (fun info => info.minImageCount)
      = [vulkan_renderer.resizeImageCount drv.capabilities]
    ∧ (vulkan_renderer.nativeResizeSwapchain drv (some dev) (some sc) renderPass
        width height).info.map (fun info => (info.extent, info.format))
      = some (vulkan_renderer.resizeExtent drv.capabilities width height, sc.format) := by
  unfold vulkan_renderer.nativeResizeSwapchain at hret ⊢
  by_cases hdim : width ≤ 0 ∨ height ≤ 0
  · simp [hdim] at hret
  · simp only [hdim, if_false] at hret ⊢
    by_cases hidle : drv.waitIdleResult = VK_SUCCESS
    · simp only [hidle, ne_eq, not_true_eq_false, if_false] at hret ⊢
      by_cases hcaps : drv.capabilitiesResult = VK_SUCCESS
      · simp only [hcaps, not_true_eq_false, if_false] at hret ⊢
        by_cases hcreate : drv.createSwapchainResult = VK_SUCCESS
        · simp only [hcreate, not_true_eq_false, if_false] at hret ⊢
          split at hret
          · simp at hret
          · split at hret
            · simp at hret
            · rename_i hviews _ hfbs
              simp only [hviews, hfbs]
              constructor
              · simp [createInfos, createLoop_calls_filterMap, destroyNonNull_filterMap,
                  List.filterMap_append]
              · rfl
        · simp [hcreate] at hret
      · simp [hcaps] at hret
    · simp [hidle] at hret

/-- C19: if `nativeResizeSwapchain` of vulkan_renderer.cpp is called twice in
succession with the same width and height, the surface reports the same
capabilities both times and both calls succeed, then both calls request the
same image count from `vkCreateSwapchainKHR` and the second call leaves the
chain with the extent and the format the first one left. -/
theorem c19_resize_twice (drv1 drv2 : Driver) (dev : DeviceInfo)
    (sc sc1 sc2 : SwapchainInfo) (renderPass : Nat) (width height : Int)
    (hcaps : drv2.capabilities = drv1.capabilities)
    (hfirst : (vulkan_renderer.nativeResizeSwapchain drv1 (some dev) (some sc) renderPass
      width height).ret = true)
    (hstate1 : (vulkan_renderer.nativeResizeSwapchain drv1 (some dev) (some sc) renderPass
      width height).info = some sc1)
    (hsecond : (vulkan_renderer.nativeResizeSwapchain drv2 (some dev) (some sc1) renderPass
      width height).ret = true)
    (hstate2 : (vulkan_renderer.nativeResizeSwapchain drv2 (some dev) (some sc1) renderPass
      width height).info = some sc2) :
    (createInfos (vulkan_renderer.nativeResizeSwapchain drv1 (some dev) (some sc) renderPass
        width height).calls).map (fun info => info.minImageCount)
      = [vulkan_renderer.resizeImageCount drv1.capabilities]
    ∧ (createInfos (vulkan_renderer.nativeResizeSwapchain drv2 (some dev) (some sc1) renderPass
        width height).calls).map (fun info => info.minImageCount)
      = [vulkan_renderer.resizeImageCount drv1.capabilities]
    ∧ sc2.extent = sc1.extent
    ∧ sc2.format = sc1.format := by
  obtain ⟨hcount1, hinfo1⟩ := renderer_resize_success drv1 dev sc renderPass width height hfirst
  obtain ⟨hcount2, hinfo2⟩ := renderer_resize_success drv2 dev sc1 renderPass width height
    hsecond
  rw [hstate1] at hinfo1
  rw [hstate2] at hinfo2
  rw [hcaps] at hcount2 hinfo2
  simp only [Option.map_some', Option.some.injEq, Prod.mk.injEq] at hinfo1 hinfo2
  refine ⟨hcount1, hcount2, ?_, ?_⟩
  · rw [hinfo2.1, hinfo1.1]
  · rw [hinfo2.2]

/-- C19 witness: two 800x600 resizes of the two-image chain on the same driver. -/
theorem c19_resize_twice_witness :
    driverThreeImages.capabilities = driverThreeImages.capabilities
    ∧ (vulkan_renderer.nativeResizeSwapchain driverThreeImages (some deviceOneFamily)
        (some chainTwoImages) 7 800 600).ret = true
    ∧ (vulkan_renderer.nativeResizeSwapchain driverThreeImages (some deviceOneFamily)
        (some chainTwoImages) 7 800 600).info = some chainAfterResize
    ∧ (vulkan_renderer.nativeResizeSwapchain driverThreeImages (some deviceOneFamily)
        (some chainAfterResize) 7 800 600).ret = true
    ∧ (vulkan_renderer.nativeResizeSwapchain driverThreeImages (some deviceOneFamily)
        (some chainAfterResize) 7 800 600).info = some chainAfterResize
    ∧ ((createInfos (vulkan_renderer.nativeResizeSwapchain driverThreeImages
          (some deviceOneFamily) (some chainTwoImages) 7 800 600).calls).map
            (fun info => info.minImageCount)
        = [vulkan_renderer.resizeImageCount driverThreeImages.capabilities]
      ∧ (createInfos (vulkan_renderer.nativeResizeSwapchain driverThreeImages
          (some deviceOneFamily) (some chainAfterResize) 7 800 600).calls).map
            (fun info => info.minImageCount)
        = [vulkan_renderer.resizeImageCount driverThreeImages.capabilities]
      ∧ chainAfterResize.extent = chainAfterResize.extent
      ∧ chainAfterResize.format = chainAfterResize.format) :=
  ⟨rfl, by decide, by decide, by decide, by decide,
    c19_resize_twice driverThreeImages driverThreeImages deviceOneFamily chainTwoImages
      chainAfterResize chainAfterResize 7 800 600 rfl (by decide) (by decide) (by decide)
      (by decide)⟩

/-! ### Extent chosen on creation -/

/-- C20 (evaluation at the failing inputs): on a surface that reports the
undefined-extent sentinel and limits extents to 1280x720,
`VulkanRenderer.nativeCreateSwapchain` requests its 1920x1080 default and
`VulkanRunner.nativeCreateSwapchain`, called with 4000x3000, requests 4000x3000;
neither extent lies within `[minImageExtent, maxImageExtent]`. -/
theorem c20_creation_extent_not_clamped :
    capsSentinelUpTo720p.currentExtent.width = UINT32_MAX
    ∧ (createInfos (vulkan_renderer.nativeCreateSwapchain driverUpTo720p
        deviceOneFamily).calls).map (fun info => info.imageExtent) = [⟨1920, 1080⟩]
    ∧ ¬ extentWithinBounds capsSentinelUpTo720p ⟨1920, 1080⟩
    ∧ (createInfos (vulkan_jni.nativeCreateSwapchain driverUpTo720p 4 4000 3000).calls).map
        (fun info => info.imageExtent) = [⟨4000, 3000⟩]
    ∧ ¬ extentWithinBounds capsSentinelUpTo720p ⟨4000, 3000⟩ := by
  decide

/-! ### Beginning a render pass -/

theorem toJint_length_of_small (n : Nat) (h : n < 2147483648) : toJint n = (n : Int) := by
  unfold toJint
  have hmod : n % 4294967296 = n := Nat.mod_eq_of_lt (by omega)
  rw [hmod, if_pos h]

theorem uint32ToFloat_of_small (n : Nat) (h : n ≤ 16777216) : uint32ToFloat n = n := by
  by_cases heq : n = 16777216
  · rw [heq]
    decide
  · have hdrop : droppedBits n = 0 := by
      unfold droppedBits
      rw [List.length_eq_zero, List.filter_eq_nil_iff]
      intro k _
      have hpow : 2 ^ 24 ≤ 2 ^ (24 + k) := Nat.pow_le_pow_right (by decide) (by omega)
      have h24 : (2 : Nat) ^ 24 = 16777216 := by norm_num
      simp only [decide_eq_true_eq]
      omega
    unfold uint32ToFloat
    simp only [hdrop, pow_zero, Nat.div_one, Nat.mod_one, Nat.mul_one]
    rw [if_neg (by omega)]

/-- C24 (as stated, refuted): on a chain whose extent is 16777217 x 16777217,
`nativeBeginRenderPass` records a viewport of width and height 16777216, the
`float` nearest to the extent, and not the extent itself; render area and
scissor carry the extent unchanged. -/
theorem c24_viewport_is_rounded_extent :
    Vulkancommand.nativeBeginRenderPass 21 7 1
        (some { chainTwoImages with extent := ⟨16777217, 16777217⟩ })
      = Vulkancommand.CmdRun.done
          [Vulkancommand.CmdCall.cmdBeginRenderPass 21
              { renderPass := 7
                framebuffer := 16
                renderArea := { offsetX := 0, offsetY := 0, extent := ⟨16777217, 16777217⟩ }
                clearValueCount := 1 },
            Vulkancommand.CmdCall.cmdSetViewport 21
              { x := 0, y := 0, width := 16777216, height := 16777216
                minDepth := 0, maxDepth := 1 },
            Vulkancommand.CmdCall.cmdSetScissor 21
              { offsetX := 0, offsetY := 0, extent := ⟨16777217, 16777217⟩ }]
    ∧ uint32ToFloat 16777217 ≠ 16777217 := by
  decide

/-- C24 (amended): for `nativeBeginRenderPass` of Vulkancommand.cpp with non-null
handles: if `0 <= imageIndex < static_cast<jint>(len(framebuffers))` it begins
the render pass on `framebuffers[imageIndex]`, which exists, with render area
(0,0)+extent, then sets a viewport with origin (0,0), depth range [0,1] and as
width and height the swapchain's extent converted to `float`, then a scissor
with offset (0,0) and the swapchain's extent; for every other `imageIndex` it
records nothing (it only logs) and reads no framebuffer.  The converted count
is the count itself below 2^31, and the converted width or height is the
extent's whenever that is at most 2^24. -/
theorem c24_begin_render_pass (commandBuffer renderPass : Nat) (imageIndex : Int)
    (swapchainInfo : SwapchainInfo) (hcb : commandBuffer ≠ VK_NULL_HANDLE)
    (hrp : renderPass ≠ VK_NULL_HANDLE) :
    (if 0 ≤ imageIndex ∧ imageIndex < toJint swapchainInfo.framebuffers.length then
      ∃ framebuffer, swapchainInfo.framebuffers[imageIndex.toNat]? = some framebuffer
        ∧ Vulkancommand.nativeBeginRenderPass commandBuffer renderPass imageIndex
            (some swapchainInfo)
          = Vulkancommand.CmdRun.done
              [Vulkancommand.CmdCall.cmdBeginRenderPass commandBuffer
                  { renderPass := renderPass
                    framebuffer := framebuffer
                    renderArea := { offsetX := 0, offsetY := 0, extent := swapchainInfo.extent }
                    clearValueCount := 1 },
                Vulkancommand.CmdCall.cmdSetViewport commandBuffer
                  { x := 0, y := 0
                    width := uint32ToFloat swapchainInfo.extent.width
                    height := uint32ToFloat swapchainInfo.extent.height
                    minDepth := 0, maxDepth := 1 },
                Vulkancommand.CmdCall.cmdSetScissor commandBuffer
                  { offsetX := 0, offsetY := 0, extent := swapchainInfo.extent }]
    else
      Vulkancommand.nativeBeginRenderPass commandBuffer renderPass imageIndex
          (some swapchainInfo)
        = Vulkancommand.CmdRun.done [Vulkancommand.CmdCall.logError])
    ∧ (swapchainInfo.framebuffers.length < 2147483648 →
        toJint swapchainInfo.framebuffers.length = swapchainInfo.framebuffers.length)
    ∧ (swapchainInfo.extent.width ≤ 16777216 →
        uint32ToFloat swapchainInfo.extent.width = swapchainInfo.extent.width)
    ∧ (swapchainInfo.extent.height ≤ 16777216 →
        uint32ToFloat swapchainInfo.extent.height = swapchainInfo.extent.height) := by
  refine ⟨?_, toJint_length_of_small _, uint32ToFloat_of_small _, uint32ToFloat_of_small _⟩
  have hhandles : ¬ (commandBuffer = VK_NULL_HANDLE ∨ renderPass = VK_NULL_HANDLE) := by
    rintro (h | h)
    · exact hcb h
    · exact hrp h
  unfold Vulkancommand.nativeBeginRenderPass
  simp only [hhandles, if_false]
  by_cases hidx : 0 ≤ imageIndex ∧ imageIndex < toJint swapchainInfo.framebuffers.length
  · have hguard : ¬ (imageIndex < 0
        ∨ imageIndex ≥ toJint swapchainInfo.framebuffers.length) := by
      omega
    have hnat : imageIndex.toNat < swapchainInfo.framebuffers.length := by
      have h2 := hidx.2
      unfold toJint at h2
      split_ifs at h2 <;> omega
    rw [if_pos hidx, if_neg hguard]
    refine ⟨swapchainInfo.framebuffers[imageIndex.toNat], List.getElem?_eq_getElem hnat, ?_⟩
    rw [List.getElem?_eq_getElem hnat]
  · have hguard : imageIndex < 0 ∨ imageIndex ≥ toJint swapchainInfo.framebuffers.length := by
      omega
    rw [if_neg hidx, if_pos hguard]

/-- C24 witness: image index 1 of the 640 x 480 chain with two framebuffers. -/
theorem c24_begin_render_pass_witness :
    (21 : Nat) ≠ VK_NULL_HANDLE ∧ (7 : Nat) ≠ VK_NULL_HANDLE
    ∧ ((if (0 : Int) ≤ 1 ∧ (1 : Int) < toJint chainTwoImages.framebuffers.length then
        ∃ framebuffer, chainTwoImages.framebuffers[(1 : Int).toNat]? = some framebuffer
          ∧ Vulkancommand.nativeBeginRenderPass 21 7 1 (some chainTwoImages)
            = Vulkancommand.CmdRun.done
                [Vulkancommand.CmdCall.cmdBeginRenderPass 21
                    { renderPass := 7
                      framebuffer := framebuffer
                      renderArea :=
                        { offsetX := 0, offsetY := 0, extent := chainTwoImages.extent }
                      clearValueCount := 1 },
                  Vulkancommand.CmdCall.cmdSetViewport 21
                    { x := 0, y := 0
                      width := uint32ToFloat chainTwoImages.extent.width
                      height := uint32ToFloat chainTwoImages.extent.height
                      minDepth := 0, maxDepth := 1 },
                  Vulkancommand.CmdCall.cmdSetScissor 21
                    { offsetX := 0, offsetY := 0, extent := chainTwoImages.extent }]
      else
        Vulkancommand.nativeBeginRenderPass 21 7 1 (some chainTwoImages)
          = Vulkancommand.CmdRun.done [Vulkancommand.CmdCall.logError])
      ∧ (chainTwoImages.framebuffers.length < 2147483648 →
          toJint chainTwoImages.framebuffers.length = chainTwoImages.framebuffers.length)
      ∧ (chainTwoImages.extent.width ≤ 16777216 →
          uint32ToFloat chainTwoImages.extent.width = chainTwoImages.extent.width)
      ∧ (chainTwoImages.extent.height ≤ 16777216 →
          uint32ToFloat chainTwoImages.extent.height = chainTwoImages.extent.height))
    ∧ Vulkancommand.nativeBeginRenderPass 21 7 1 (some chainTwoImages)
        = Vulkancommand.CmdRun.done
            [Vulkancommand.CmdCall.cmdBeginRenderPass 21
                { renderPass := 7
                  framebuffer := 16
                  renderArea := { offsetX := 0, offsetY := 0, extent := ⟨640, 480⟩ }
                  clearValueCount := 1 },
              Vulkancommand.CmdCall.cmdSetViewport 21
                { x := 0, y := 0, width := 640, height := 480, minDepth := 0, maxDepth := 1 },
              Vulkancommand.CmdCall.cmdSetScissor 21
                { offsetX := 0, offsetY := 0, extent := ⟨640, 480⟩ }]
    ∧ Vulkancommand.nativeBeginRenderPass 21 7 2 (some chainTwoImages)
        = Vulkancommand.CmdRun.done [Vulkancommand.CmdCall.logError] :=
  ⟨by decide, by decide,
    c24_begin_render_pass 21 7 1 chainTwoImages (by decide) (by decide),
    by decide, by decide⟩

/-! ### Destroying a swapchain -/

/-- C26 (evaluation at the failing input): on the chain whose two framebuffers
`nativeCreateFramebuffers` created, `nativeDestroySwapchain` destroys the two
image views and the swapchain and deletes the `SwapchainInfo`; it destroys no
framebuffer, on this chain or on any other. -/
theorem c26_destroy_swapchain_leaves_framebuffers :
    (Vulkanrenderpass.nativeCreateFramebuffers driverThreeImages (some deviceOneFamily)
        (some { chainTwoImages with framebuffers := [] }) 7).info
      = some { chainTwoImages with framebuffers := [50, 51] }
    ∧ Vulkanswapchain.nativeDestroySwapchain (some deviceOneFamily)
        (some { chainTwoImages with framebuffers := [50, 51] })
      = ⟨none, [VkCall.destroyImageView 13, VkCall.destroyImageView 14,
          VkCall.destroySwapchain 10]⟩
    ∧ ∀ (deviceInfo : DeviceInfo) (swapchainInfo : SwapchainInfo),
        destroyedFramebuffers
          (Vulkanswapchain.nativeDestroySwapchain (some deviceInfo) (some swapchainInfo)).calls
        = [] := by
  refine ⟨by decide, by decide, ?_⟩
  intro deviceInfo swapchainInfo
  simp only [Vulkanswapchain.nativeDestroySwapchain, destroyedFramebuffers]
  rw [List.filterMap_append]
  have hviews : ∀ views : List Nat, List.filterMap
      (fun call => match call with
        | VkCall.destroyFramebuffer framebuffer => some framebuffer
        | _ => none)
      (views.map VkCall.destroyImageView) = [] := by
    intro views
    induction views with
    | nil => rfl
    | cons v t ih =>
      rw [List.map_cons, List.filterMap_cons]
      exact ih
  rw [hviews]
  rfl

/-! ### Sharing mode on resize -/

/-- C30 (evaluation at the failing input): for a device whose graphics family is
0 and whose present family is 1, `nativeCreateSwapchain` of Vulkanswapchain.cpp
requests concurrent sharing over the families 0 and 1, and
`nativeResizeSwapchain` requests exclusive sharing with no family list. -/
theorem c30_resize_requests_exclusive_sharing :
    (createInfos (Vulkanswapchain.nativeCreateSwapchain externsExample driverThreeImages
        (some deviceTwoFamilies)).calls).map
          (fun info => (info.imageSharingMode, info.queueFamilyIndices))
      = [(VkSharingMode.concurrent, [0, 1])]
    ∧ (createInfos (Vulkanswapchain.nativeResizeSwapchain externsExample driverThreeImages
        (some deviceTwoFamilies) (some chainTwoImages) 7 800 600).calls).map
          (fun info => (info.imageSharingMode, info.queueFamilyIndices))
      = [(VkSharingMode.exclusive, [])] := by
  decide

/-! ### The packed result of an acquire -/

/-- C27: for every 32-bit signed result code `r` and every 32-bit unsigned
image index `i`, the `jlong` returned by `nativeAcquireNextImageWithSemaphore`
has `i` as its low 32 bits and `r` as its high 32 bits, the floor quotient by
`2^32` being the arithmetic shift right by 32. -/
theorem c27_packed_acquire_decodes (result : Int) (imageIndex : Nat)
    (hlow : -2147483648 ≤ result) (hhigh : result ≤ 2147483647)
    (hidx : imageIndex < 4294967296) :
    toUint32 (Vulkanswapchain.nativeAcquireNextImageWithSemaphore result imageIndex)
      = imageIndex
    ∧ Vulkanswapchain.nativeAcquireNextImageWithSemaphore result imageIndex / 4294967296
      = result := by
  have hshift : (toUint64 result * 4294967296) % 18446744073709551616
      = 4294967296 * toUint32 result := by
    unfold toUint64 toUint32
    omega
  have hor : 4294967296 * toUint32 result ||| imageIndex
      = 4294967296 * toUint32 result + imageIndex := by
    have h := Nat.mul_add_lt_is_or (i := 32) (b := imageIndex) (by omega) (toUint32 result)
    simpa using h.symm
  have hmod : imageIndex % 4294967296 = imageIndex := Nat.mod_eq_of_lt hidx
  have hvalue : Vulkanswapchain.nativeAcquireNextImageWithSemaphore result imageIndex
      = result * 4294967296 + imageIndex := by
    unfold Vulkanswapchain.nativeAcquireNextImageWithSemaphore
    simp only [hshift, hmod, hor]
    unfold toJlong toUint32
    split_ifs <;> omega
  rw [hvalue]
  constructor
  · unfold toUint32
    omega
  · omega

/-- C27 witness: the out-of-date result with image index 2. -/
theorem c27_packed_acquire_decodes_witness :
    (-2147483648 : Int) ≤ VK_ERROR_OUT_OF_DATE_KHR ∧ VK_ERROR_OUT_OF_DATE_KHR ≤ 2147483647
    ∧ (2 : Nat) < 4294967296
    ∧ (toUint32 (Vulkanswapchain.nativeAcquireNextImageWithSemaphore
          VK_ERROR_OUT_OF_DATE_KHR 2) = 2
      ∧ Vulkanswapchain.nativeAcquireNextImageWithSemaphore VK_ERROR_OUT_OF_DATE_KHR 2
          / 4294967296 = VK_ERROR_OUT_OF_DATE_KHR) :=
  ⟨by decide, by decide, by decide,
    c27_packed_acquire_decodes VK_ERROR_OUT_OF_DATE_KHR 2 (by decide) (by decide) (by decide)⟩

/-! ### The two searches -/

theorem findQueueFamilyLoop_spec (physicalDevice : PhysicalDeviceInfo) (flags surface : Nat) :
    ∀ (remaining i : Nat),
      ((∃ j, i ≤ j ∧ j < i + remaining
          ∧ physicalDevice.queueFamilies.getD j 0 &&& flags ≠ 0
          ∧ (surface ≠ VK_NULL_HANDLE → physicalDevice.presentSupport j surface = true)) →
        i ≤ vulkan_renderer.findQueueFamilyLoop physicalDevice flags surface remaining i
        ∧ vulkan_renderer.findQueueFamilyLoop physicalDevice flags surface remaining i
            < i + remaining
        ∧ physicalDevice.queueFamilies.getD
            (vulkan_renderer.findQueueFamilyLoop physicalDevice flags surface remaining i) 0
              &&& flags ≠ 0
        ∧ (surface ≠ VK_NULL_HANDLE → physicalDevice.presentSupport
            (vulkan_renderer.findQueueFamilyLoop physicalDevice flags surface remaining i)
            surface = true)
        ∧ ∀ j, i ≤ j →
            j < vulkan_renderer.findQueueFamilyLoop physicalDevice flags surface remaining i →
            ¬ (physicalDevice.queueFamilies.getD j 0 &&& flags ≠ 0
              ∧ (surface ≠ VK_NULL_HANDLE →
                  physicalDevice.presentSupport j surface = true)))
      ∧ ((¬ ∃ j, i ≤ j ∧ j < i + remaining
          ∧ physicalDevice.queueFamilies.getD j 0 &&& flags ≠ 0
          ∧ (surface ≠ VK_NULL_HANDLE → physicalDevice.presentSupport j surface = true)) →
        vulkan_renderer.findQueueFamilyLoop physicalDevice flags surface remaining i
          = UINT32_MAX) := by
  intro remaining
  induction remaining with
  | zero =>
    intro i
    constructor
    · rintro ⟨j, h1, h2, -, -⟩
      omega
    · intro _
      rfl
  | succ n ih =>
    intro i
    unfold vulkan_renderer.findQueueFamilyLoop
    by_cases hq : physicalDevice.queueFamilies.getD i 0 &&& flags ≠ 0
        ∧ (surface ≠ VK_NULL_HANDLE → physicalDevice.presentSupport i surface = true)
    · -- index `i` qualifies and is returned
      have hret : (if physicalDevice.queueFamilies.getD i 0 &&& flags ≠ 0 then
            if surface ≠ VK_NULL_HANDLE then
              if physicalDevice.presentSupport i surface = true then i
              else vulkan_renderer.findQueueFamilyLoop physicalDevice flags surface n (i + 1)
            else i
          else vulkan_renderer.findQueueFamilyLoop physicalDevice flags surface n (i + 1))
          = i := by
        rw [if_pos hq.1]
        by_cases hs : surface ≠ VK_NULL_HANDLE
        · rw [if_pos hs, if_pos (hq.2 hs)]
        · rw [if_neg hs]
      rw [hret]
      constructor
      · intro _
        exact ⟨le_refl i, by omega, hq.1, hq.2, fun j h1 h2 => by omega⟩
      · intro hnone
        exact absurd ⟨i, le_refl i, by omega, hq.1, hq.2⟩ hnone
    · -- index `i` does not qualify and the loop goes on
      have hret : (if physicalDevice.queueFamilies.getD i 0 &&& flags ≠ 0 then
            if surface ≠ VK_NULL_HANDLE then
              if physicalDevice.presentSupport i surface = true then i
              else vulkan_renderer.findQueueFamilyLoop physicalDevice flags surface n (i + 1)
            else i
          else vulkan_renderer.findQueueFamilyLoop physicalDevice flags surface n (i + 1))
          = vulkan_renderer.findQueueFamilyLoop physicalDevice flags surface n (i + 1) := by
        by_cases hf : physicalDevice.queueFamilies.getD i 0 &&& flags ≠ 0
        · rw [if_pos hf]
          by_cases hs : surface ≠ VK_NULL_HANDLE
          · have hp : ¬ physicalDevice.presentSupport i surface = true := fun hp =>
              hq ⟨hf, fun _ => hp⟩
            rw [if_pos hs, if_neg hp]
          · exact absurd ⟨hf, fun h => absurd h hs⟩ hq
        · rw [if_neg hf]
      rw [hret]
      obtain ⟨ihfound, ihnone⟩ := ih (i + 1)
      constructor
      · rintro ⟨j, h1, h2, hj1, hj2⟩
        have hne : j ≠ i := by
          rintro rfl
          exact hq ⟨hj1, hj2⟩
        obtain ⟨r1, r2, r3, r4, r5⟩ := ihfound ⟨j, by omega, by omega, hj1, hj2⟩
        refine ⟨by omega, by omega, r3, r4, ?_⟩
        intro k hk1 hk2
        by_cases hki : k = i
        · rw [hki]
          exact hq
        · exact r5 k (by omega) hk2
      · intro hnone
        apply ihnone
        rintro ⟨j, h1, h2, hj1, hj2⟩
        exact hnone ⟨j, by omega, by omega, hj1, hj2⟩

/-- C28: for every list of queue families (of a length that `uint32_t` can
hold), flag mask and optional surface, `findQueueFamily` returns the smallest
index whose `queueFlags` share a bit with the mask and which, when a surface is
given, supports presentation to that surface; it returns `UINT32_MAX` exactly
when no index qualifies. -/
theorem c28_find_queue_family (physicalDevice : PhysicalDeviceInfo) (flags surface : Nat)
    (hcount : physicalDevice.queueFamilies.length ≤ UINT32_MAX) :
    ((∃ i, familyQualifies physicalDevice flags surface i) →
      familyQualifies physicalDevice flags surface
        (vulkan_renderer.findQueueFamily physicalDevice flags surface)
      ∧ ∀ j, j < vulkan_renderer.findQueueFamily physicalDevice flags surface →
          ¬ familyQualifies physicalDevice flags surface j)
    ∧ (vulkan_renderer.findQueueFamily physicalDevice flags surface = UINT32_MAX
        ↔ ¬ ∃ i, familyQualifies physicalDevice flags surface i) := by
  obtain ⟨hfound, hnone⟩ := findQueueFamilyLoop_spec physicalDevice flags surface
    physicalDevice.queueFamilies.length 0
  unfold vulkan_renderer.findQueueFamily
  have hyes : (∃ i, familyQualifies physicalDevice flags surface i) →
      familyQualifies physicalDevice flags surface
        (vulkan_renderer.findQueueFamilyLoop physicalDevice flags surface
          physicalDevice.queueFamilies.length 0)
      ∧ ∀ j, j < vulkan_renderer.findQueueFamilyLoop physicalDevice flags surface
            physicalDevice.queueFamilies.length 0 →
          ¬ familyQualifies physicalDevice flags surface j := by
    rintro ⟨i, hi, hi1, hi2⟩
    obtain ⟨-, r2, r3, r4, r5⟩ := hfound ⟨i, Nat.zero_le i, by omega, hi1, hi2⟩
    refine ⟨⟨by omega, r3, r4⟩, ?_⟩
    rintro j hj ⟨-, hj1, hj2⟩
    exact r5 j (Nat.zero_le j) hj ⟨hj1, hj2⟩
  refine ⟨hyes, ?_, ?_⟩
  · intro hmax hex
    obtain ⟨⟨hlt, -, -⟩, -⟩ := hyes hex
    omega
  · intro hno
    apply hnone
    rintro ⟨j, -, h2, hj1, hj2⟩
    exact hno ⟨j, by omega, hj1, hj2⟩

/-- C28 witness: the adapter whose family 1 does graphics and presents, asked
for a graphics family presenting to surface 4. -/
theorem c28_find_queue_family_witness :
    adapterGraphicsPresents.queueFamilies.length ≤ UINT32_MAX
    ∧ (((∃ i, familyQualifies adapterGraphicsPresents VK_QUEUE_GRAPHICS_BIT 4 i) →
        familyQualifies adapterGraphicsPresents VK_QUEUE_GRAPHICS_BIT 4
          (vulkan_renderer.findQueueFamily adapterGraphicsPresents VK_QUEUE_GRAPHICS_BIT 4)
        ∧ ∀ j, j < vulkan_renderer.findQueueFamily adapterGraphicsPresents
              VK_QUEUE_GRAPHICS_BIT 4 →
            ¬ familyQualifies adapterGraphicsPresents VK_QUEUE_GRAPHICS_BIT 4 j)
      ∧ (vulkan_renderer.findQueueFamily adapterGraphicsPresents VK_QUEUE_GRAPHICS_BIT 4
          = UINT32_MAX
          ↔ ¬ ∃ i, familyQualifies adapterGraphicsPresents VK_QUEUE_GRAPHICS_BIT 4 i)) :=
  ⟨by decide, c28_find_queue_family adapterGraphicsPresents VK_QUEUE_GRAPHICS_BIT 4 (by decide)⟩

theorem filterBit_iff_testBit (typeFilter j : Nat) (hj : j < 32) :
    typeFilter &&& ((1 <<< j) % 4294967296) ≠ 0 ↔ typeFilter.testBit j = true := by
  have hpow : (1 <<< j) % 4294967296 = 2 ^ j := by
    rw [Nat.one_shiftLeft]
    apply Nat.mod_eq_of_lt
    calc 2 ^ j < 2 ^ 32 := Nat.pow_lt_pow_right (by decide) hj
      _ = 4294967296 := by norm_num
  rw [hpow]
  constructor
  · intro hne
    by_contra hbit
    apply hne
    apply Nat.eq_of_testBit_eq
    intro k
    rw [Nat.testBit_and, Nat.testBit_two_pow, Nat.zero_testBit]
    by_cases hk : j = k
    · subst hk
      simp only [Bool.not_eq_true] at hbit
      rw [hbit]
      rfl
    · simp only [hk, decide_False, Bool.and_false]
  · intro hbit hzero
    have h := congrArg (fun n => n.testBit j) hzero
    simp only [Nat.testBit_and, Nat.testBit_two_pow, Nat.zero_testBit, hbit, decide_True,
      Bool.and_self] at h
    exact absurd h (by decide)

theorem findMemoryTypeLoop_spec (memoryTypes : List Nat) (typeFilter properties : Nat) :
    ∀ (remaining i : Nat),
      ((∃ j, i ≤ j ∧ j < i + remaining
          ∧ typeFilter &&& ((1 <<< j) % 4294967296) ≠ 0
          ∧ memoryTypes.getD j 0 &&& properties = properties) →
        i ≤ vulkan_renderer.findMemoryTypeLoop memoryTypes typeFilter properties remaining i
        ∧ vulkan_renderer.findMemoryTypeLoop memoryTypes typeFilter properties remaining i
            < i + remaining
        ∧ typeFilter &&& ((1 <<<
            vulkan_renderer.findMemoryTypeLoop memoryTypes typeFilter properties remaining i)
              % 4294967296) ≠ 0
        ∧ memoryTypes.getD
            (vulkan_renderer.findMemoryTypeLoop memoryTypes typeFilter properties remaining i) 0
              &&& properties = properties
        ∧ ∀ j, i ≤ j →
            j < vulkan_renderer.findMemoryTypeLoop memoryTypes typeFilter properties remaining i →
            ¬ (typeFilter &&& ((1 <<< j) % 4294967296) ≠ 0
              ∧ memoryTypes.getD j 0 &&& properties = properties))
      ∧ ((¬ ∃ j, i ≤ j ∧ j < i + remaining
          ∧ typeFilter &&& ((1 <<< j) % 4294967296) ≠ 0
          ∧ memoryTypes.getD j 0 &&& properties = properties) →
        vulkan_renderer.findMemoryTypeLoop memoryTypes typeFilter properties remaining i = 0) := by
  intro remaining
  induction remaining with
  | zero =>
    intro i
    constructor
    · rintro ⟨j, h1, h2, -, -⟩
      omega
    · intro _
      rfl
  | succ n ih =>
    intro i
    unfold vulkan_renderer.findMemoryTypeLoop
    by_cases hq : typeFilter &&& ((1 <<< i) % 4294967296) ≠ 0
        ∧ memoryTypes.getD i 0 &&& properties = properties
    · rw [if_pos hq]
      constructor
      · intro _
        exact ⟨le_refl i, by omega, hq.1, hq.2, fun j h1 h2 => by omega⟩
      · intro hnone
        exact absurd ⟨i, le_refl i, by omega, hq.1, hq.2⟩ hnone
    · rw [if_neg hq]
      obtain ⟨ihfound, ihnone⟩ := ih (i + 1)
      constructor
      · rintro ⟨j, h1, h2, hj1, hj2⟩
        have hne : j ≠ i := by
          rintro rfl
          exact hq ⟨hj1, hj2⟩
        obtain ⟨r1, r2, r3, r4, r5⟩ := ihfound ⟨j, by omega, by omega, hj1, hj2⟩
        refine ⟨by omega, by omega, r3, r4, ?_⟩
        intro k hk1 hk2
        by_cases hki : k = i
        · rw [hki]
          exact hq
        · exact r5 k (by omega) hk2
      · intro hnone
        apply ihnone
        rintro ⟨j, h1, h2, hj1, hj2⟩
        exact hnone ⟨j, by omega, by omega, hj1, hj2⟩

/-- C29: for every memory-type table (of at most the 32 entries Vulkan allows),
type filter and required property mask, `findMemoryType` returns the smallest
index `i < memoryTypeCount` with bit `i` set in the filter and every required
property bit present in `memoryTypes[i]`; when no index qualifies it returns 0,
which is also what it returns when index 0 qualifies. -/
theorem c29_find_memory_type (memoryTypes : List Nat) (typeFilter properties : Nat)
    (hcount : memoryTypes.length ≤ 32) :
    ((∃ i, memoryTypeQualifies memoryTypes typeFilter properties i) →
      memoryTypeQualifies memoryTypes typeFilter properties
        (vulkan_renderer.findMemoryType memoryTypes typeFilter properties)
      ∧ ∀ j, j < vulkan_renderer.findMemoryType memoryTypes typeFilter properties →
          ¬ memoryTypeQualifies memoryTypes typeFilter properties j)
    ∧ ((¬ ∃ i, memoryTypeQualifies memoryTypes typeFilter properties i) →
        vulkan_renderer.findMemoryType memoryTypes typeFilter properties = 0)
    ∧ (memoryTypeQualifies memoryTypes typeFilter properties 0 →
        vulkan_renderer.findMemoryType memoryTypes typeFilter properties = 0) := by
  obtain ⟨hfound, hnone⟩ := findMemoryTypeLoop_spec memoryTypes typeFilter properties
    memoryTypes.length 0
  unfold vulkan_renderer.findMemoryType
  have hyes : (∃ i, memoryTypeQualifies memoryTypes typeFilter properties i) →
      memoryTypeQualifies memoryTypes typeFilter properties
        (vulkan_renderer.findMemoryTypeLoop memoryTypes typeFilter properties
          memoryTypes.length 0)
      ∧ ∀ j, j < vulkan_renderer.findMemoryTypeLoop memoryTypes typeFilter properties
            memoryTypes.length 0 →
          ¬ memoryTypeQualifies memoryTypes typeFilter properties j := by
    rintro ⟨i, hi, hi1, hi2⟩
    obtain ⟨-, r2, r3, r4, r5⟩ := hfound
      ⟨i, Nat.zero_le i, by omega, (filterBit_iff_testBit typeFilter i (by omega)).2 hi1, hi2⟩
    refine ⟨⟨by omega, (filterBit_iff_testBit typeFilter _ (by omega)).1 r3, r4⟩, ?_⟩
    rintro j hj ⟨hjlt, hj1, hj2⟩
    exact r5 j (Nat.zero_le j) hj
      ⟨(filterBit_iff_testBit typeFilter j (by omega)).2 hj1, hj2⟩
  refine ⟨hyes, ?_, ?_⟩
  · intro hno
    apply hnone
    rintro ⟨j, -, h2, hj1, hj2⟩
    exact hno ⟨j, by omega, (filterBit_iff_testBit typeFilter j (by omega)).1 hj1, hj2⟩
  · intro hzero
    obtain ⟨-, hmin⟩ := hyes ⟨0, hzero⟩
    by_contra hne
    exact hmin 0 (Nat.pos_of_ne_zero hne) hzero

/-- C29 witness: a table of two memory types where only type 1 has both
required property bits, and the two one-entry tables, one whose type 0
qualifies and one where nothing qualifies, for which the answer is 0 alike. -/
theorem c29_find_memory_type_witness :
    ([1, 6] : List Nat).length ≤ 32
    ∧ (((∃ i, memoryTypeQualifies [1, 6] 3 6 i) →
        memoryTypeQualifies [1, 6] 3 6 (vulkan_renderer.findMemoryType [1, 6] 3 6)
        ∧ ∀ j, j < vulkan_renderer.findMemoryType [1, 6] 3 6 →
            ¬ memoryTypeQualifies [1, 6] 3 6 j)
      ∧ ((¬ ∃ i, memoryTypeQualifies [1, 6] 3 6 i) →
          vulkan_renderer.findMemoryType [1, 6] 3 6 = 0)
      ∧ (memoryTypeQualifies [1, 6] 3 6 0 → vulkan_renderer.findMemoryType [1, 6] 3 6 = 0))
    ∧ vulkan_renderer.findMemoryType [1, 6] 3 6 = 1
    ∧ vulkan_renderer.findMemoryType [6] 1 6 = 0
    ∧ vulkan_renderer.findMemoryType [1] 1 6 = 0 :=
  ⟨by decide, c29_find_memory_type [1, 6] 3 6 (by decide), by decide, by decide, by decide⟩

/-! ### What a creation loop did -/

theorem getD_set_self (l : List Nat) (i a : Nat) (h : i < l.length) :
    (l.set i a).getD i 0 = a := by
  simp [List.getD_eq_getElem?_getD, List.getElem?_set, h]

theorem getD_set_of_ne (l : List Nat) (i j a : Nat) (h : i ≠ j) :
    (l.set i a).getD j 0 = l.getD j 0 := by
  simp [List.getD_eq_getElem?_getD, List.getElem?_set, h]

theorem createLoop_slots_below (answer : Nat → Int × Nat) (mkCall : Nat → VkCall) :
    ∀ (remaining i : Nat) (slots : List Nat) (calls : List VkCall) (j : Nat), j < i →
      (createLoop answer mkCall remaining i slots calls).slots.getD j 0 = slots.getD j 0 := by
  intro remaining
  induction remaining with
  | zero => intro i slots calls j _; rfl
  | succ n ih =>
    intro i slots calls j hj
    unfold createLoop
    split_ifs
    · exact getD_set_of_ne slots i j _ (by omega)
    · rw [ih (i + 1) _ _ j (by omega)]
      exact getD_set_of_ne slots i j _ (by omega)

theorem createLoop_failed (answer : Nat → Int × Nat) (mkCall : Nat → VkCall) :
    ∀ (remaining i : Nat) (slots : List Nat) (calls : List VkCall) (k : Nat),
      i + remaining ≤ slots.length →
      (createLoop answer mkCall remaining i slots calls).failedAt = some k →
      i ≤ k ∧ k < i + remaining ∧ (answer k).1 ≠ VK_SUCCESS
      ∧ (∀ j, i ≤ j → j < k → (answer j).1 = VK_SUCCESS)
      ∧ (createLoop answer mkCall remaining i slots calls).calls
          = calls ++ (List.range' i (k + 1 - i)).map mkCall
      ∧ ∀ j, i ≤ j → j ≤ k →
          (createLoop answer mkCall remaining i slots calls).slots.getD j 0 = (answer j).2 := by
  intro remaining
  induction remaining with
  | zero =>
    intro i slots calls k _ h
    exact absurd h (by simp [createLoop])
  | succ n ih =>
    intro i slots calls k hlen
    unfold createLoop
    split_ifs with hfail
    · intro h
      have hk : i = k := by simpa using h
      subst hk
      refine ⟨le_refl _, by omega, hfail, fun j h1 h2 => by omega, ?_, ?_⟩
      · have h1 : i + 1 - i = 1 := by omega
        rw [h1]
        rfl
      · intro j h1 h2
        have hj : j = i := by omega
        subst hj
        exact getD_set_self slots j _ (by omega)
    · intro h
      have hok : (answer i).1 = VK_SUCCESS := by
        by_contra hne
        exact hfail hne
      obtain ⟨r1, r2, r3, r4, r5, r6⟩ := ih (i + 1) (slots.set i (answer i).2)
        (calls ++ [mkCall i]) k (by rw [List.length_set]; omega) h
      refine ⟨by omega, by omega, r3, ?_, ?_, ?_⟩
      · intro j h1 h2
        by_cases hj : j = i
        · rw [hj]
          exact hok
        · exact r4 j (by omega) h2
      · rw [r5]
        have h1 : k + 1 - i = (k + 1 - (i + 1)) + 1 := by omega
        rw [h1, List.range'_succ, List.map_cons, List.append_assoc]
        rfl
      · intro j h1 h2
        by_cases hj : j = i
        · rw [hj, createLoop_slots_below answer mkCall n (i + 1) _ _ i (by omega)]
          exact getD_set_self slots i _ (by omega)
        · exact r6 j (by omega) h2

theorem createLoop_completed (answer : Nat → Int × Nat) (mkCall : Nat → VkCall) :
    ∀ (remaining i : Nat) (slots : List Nat) (calls : List VkCall),
      i + remaining ≤ slots.length →
      (createLoop answer mkCall remaining i slots calls).failedAt = none →
      (∀ j, i ≤ j → j < i + remaining → (answer j).1 = VK_SUCCESS)
      ∧ (createLoop answer mkCall remaining i slots calls).calls
          = calls ++ (List.range' i remaining).map mkCall
      ∧ ∀ j, i ≤ j → j < i + remaining →
          (createLoop answer mkCall remaining i slots calls).slots.getD j 0 = (answer j).2 := by
  intro remaining
  induction remaining with
  | zero =>
    intro i slots calls _ _
    refine ⟨fun j h1 h2 => by omega, ?_, fun j h1 h2 => by omega⟩
    simp [createLoop]
  | succ n ih =>
    intro i slots calls hlen
    unfold createLoop
    split_ifs with hfail
    · intro h
      exact absurd h (by simp)
    · intro h
      have hok : (answer i).1 = VK_SUCCESS := by
        by_contra hne
        exact hfail hne
      obtain ⟨r1, r2, r3⟩ := ih (i + 1) (slots.set i (answer i).2)
        (calls ++ [mkCall i]) (by rw [List.length_set]; omega) h
      refine ⟨?_, ?_, ?_⟩
      · intro j h1 h2
        by_cases hj : j = i
        · rw [hj]
          exact hok
        · exact r1 j (by omega) (by omega)
      · rw [r2, List.range'_succ, List.map_cons, List.append_assoc]
        rfl
      · intro j h1 h2
        by_cases hj : j = i
        · rw [hj, createLoop_slots_below answer mkCall n (i + 1) _ _ i (by omega)]
          exact getD_set_self slots i _ (by omega)
        · exact r3 j (by omega) (by omega)

/-- When every creation up to the end succeeds the loop reports no failure. -/
theorem createLoop_failedAt_none (answer : Nat → Int × Nat) (mkCall : Nat → VkCall)
    (remaining i : Nat) (slots : List Nat) (calls : List VkCall)
    (hlen : i + remaining ≤ slots.length)
    (hall : ∀ j, i ≤ j → j < i + remaining → (answer j).1 = VK_SUCCESS) :
    (createLoop answer mkCall remaining i slots calls).failedAt = none := by
  cases hfa : (createLoop answer mkCall remaining i slots calls).failedAt with
  | none => rfl
  | some k =>
    obtain ⟨r1, r2, r3, -⟩ := createLoop_failed answer mkCall remaining i slots calls k hlen hfa
    exact absurd (hall k r1 r2) r3

/-- When creation `k` is the first to fail the loop reports `k`. -/
theorem createLoop_failedAt_some (answer : Nat → Int × Nat) (mkCall : Nat → VkCall)
    (remaining i : Nat) (slots : List Nat) (calls : List VkCall) (k : Nat)
    (hlen : i + remaining ≤ slots.length) (h1 : i ≤ k) (h2 : k < i + remaining)
    (hfail : (answer k).1 ≠ VK_SUCCESS)
    (hbefore : ∀ j, i ≤ j → j < k → (answer j).1 = VK_SUCCESS) :
    (createLoop answer mkCall remaining i slots calls).failedAt = some k := by
  cases hfa : (createLoop answer mkCall remaining i slots calls).failedAt with
  | none =>
    obtain ⟨r1, -⟩ := createLoop_completed answer mkCall remaining i slots calls hlen hfa
    exact absurd (r1 k h1 h2) hfail
  | some m =>
    obtain ⟨r1, r2, r3, r4, -⟩ :=
      createLoop_failed answer mkCall remaining i slots calls m hlen hfa
    have hkm : ¬ k < m := fun hlt => hfail (r4 k h1 hlt)
    have hmk : ¬ m < k := fun hlt => r3 (hbefore m r1 hlt)
    have : m = k := by omega
    rw [this]

/-- C25: for `nativeCreateFramebuffers` of Vulkanrenderpass.cpp with three
non-zero handles: if every framebuffer creation succeeds it returns true, issues
one creation per image view, number `i` on image view `i` at the chain's extent,
and leaves a framebuffer list as long as the image-view list whose entry `i` is
the handle creation `i` returned; if creation `i` is the first to fail it
destroys the framebuffers of creations `0..i-1`, leaves the framebuffer list
empty and returns false.  If any handle is zero it returns false, issues no
call and leaves the chain as it was. -/
theorem c25_create_framebuffers (drv : Driver) (deviceInfo : DeviceInfo)
    (swapchainInfo : SwapchainInfo) (renderPass : Nat) (hrenderPass : renderPass ≠ 0) :
    ((∀ i, i < swapchainInfo.imageViews.length → (drv.framebufferAnswer i).1 = VK_SUCCESS) →
      ∃ framebuffers,
        Vulkanrenderpass.nativeCreateFramebuffers drv (some deviceInfo) (some swapchainInfo)
            renderPass
          = ⟨true, some { swapchainInfo with framebuffers := framebuffers },
              (List.range swapchainInfo.imageViews.length).map fun i =>
                VkCall.createFramebuffer renderPass (swapchainInfo.imageViews.getD i 0)
                  swapchainInfo.extent.width swapchainInfo.extent.height⟩
        ∧ framebuffers.length = swapchainInfo.imageViews.length
        ∧ ∀ i, i < swapchainInfo.imageViews.length →
            framebuffers.getD i 0 = (drv.framebufferAnswer i).2)
    ∧ (∀ i, i < swapchainInfo.imageViews.length →
        (drv.framebufferAnswer i).1 ≠ VK_SUCCESS →
        (∀ j, j < i → (drv.framebufferAnswer j).1 = VK_SUCCESS) →
        Vulkanrenderpass.nativeCreateFramebuffers drv (some deviceInfo) (some swapchainInfo)
            renderPass
          = ⟨false, some { swapchainInfo with framebuffers := [] },
              ((List.range (i + 1)).map fun j =>
                VkCall.createFramebuffer renderPass (swapchainInfo.imageViews.getD j 0)
                  swapchainInfo.extent.width swapchainInfo.extent.height)
              ++ (List.range i).map fun j =>
                VkCall.destroyFramebuffer (drv.framebufferAnswer j).2⟩)
    ∧ ∀ (device : Option DeviceInfo) (chain : Option SwapchainInfo) (pass : Nat),
        device = none ∨ chain = none ∨ pass = 0 →
        Vulkanrenderpass.nativeCreateFramebuffers drv device chain pass = ⟨false, chain, []⟩ := by
  have hlen : 0 + swapchainInfo.imageViews.length
      ≤ (vectorResize swapchainInfo.framebuffers swapchainInfo.imageViews.length).length := by
    rw [vectorResize_length]
    omega
  refine ⟨?_, ?_, ?_⟩
  · intro hall
    have hfa := createLoop_failedAt_none drv.framebufferAnswer
      (fun i => VkCall.createFramebuffer renderPass (swapchainInfo.imageViews.getD i 0)
        swapchainInfo.extent.width swapchainInfo.extent.height)
      swapchainInfo.imageViews.length 0
      (vectorResize swapchainInfo.framebuffers swapchainInfo.imageViews.length) [] hlen
      (fun j _ h2 => hall j (by omega))
    obtain ⟨-, r2, r3⟩ := createLoop_completed drv.framebufferAnswer
      (fun i => VkCall.createFramebuffer renderPass (swapchainInfo.imageViews.getD i 0)
        swapchainInfo.extent.width swapchainInfo.extent.height)
      swapchainInfo.imageViews.length 0
      (vectorResize swapchainInfo.framebuffers swapchainInfo.imageViews.length) [] hlen hfa
    refine ⟨(createLoop drv.framebufferAnswer
      (fun i => VkCall.createFramebuffer renderPass (swapchainInfo.imageViews.getD i 0)
        swapchainInfo.extent.width swapchainInfo.extent.height)
      swapchainInfo.imageViews.length 0
      (vectorResize swapchainInfo.framebuffers swapchainInfo.imageViews.length) []).slots,
      ?_, ?_, ?_⟩
    · simp only [Vulkanrenderpass.nativeCreateFramebuffers, if_neg hrenderPass, hfa]
      rw [r2, List.nil_append, List.range_eq_range']
    · rw [createLoop_slots_length, vectorResize_length]
    · intro i hi
      exact r3 i (Nat.zero_le i) (by omega)
  · intro i hi hfail hbefore
    have hfa := createLoop_failedAt_some drv.framebufferAnswer
      (fun i => VkCall.createFramebuffer renderPass (swapchainInfo.imageViews.getD i 0)
        swapchainInfo.extent.width swapchainInfo.extent.height)
      swapchainInfo.imageViews.length 0
      (vectorResize swapchainInfo.framebuffers swapchainInfo.imageViews.length) [] i hlen
      (Nat.zero_le i) (by omega) hfail (fun j _ h2 => hbefore j h2)
    obtain ⟨-, -, -, -, r5, r6⟩ := createLoop_failed drv.framebufferAnswer
      (fun i => VkCall.createFramebuffer renderPass (swapchainInfo.imageViews.getD i 0)
        swapchainInfo.extent.width swapchainInfo.extent.height)
      swapchainInfo.imageViews.length 0
      (vectorResize swapchainInfo.framebuffers swapchainInfo.imageViews.length) [] i hlen hfa
    simp only [Vulkanrenderpass.nativeCreateFramebuffers, if_neg hrenderPass, hfa]
    rw [r5, List.nil_append, Nat.sub_zero, ← List.range_eq_range']
    congr 2
    apply List.map_congr_left
    intro j hj
    rw [r6 j (Nat.zero_le j) (by rw [List.mem_range] at hj; omega)]
  · rintro device chain pass (h | h | h)
    · subst h
      rfl
    · subst h
      cases device <;> rfl
    · subst h
      cases device with
      | none => rfl
      | some d =>
        cases chain with
        | none => rfl
        | some c => simp [Vulkanrenderpass.nativeCreateFramebuffers]

/-- C25 witness: render pass 7 on the chain of two image views, with the driver
whose second framebuffer creation fails: the first framebuffer, 50, is
destroyed, the list is left empty and the call returns false. -/
theorem c25_create_framebuffers_witness :
    (7 : Nat) ≠ 0
    ∧ (((∀ i, i < chainTwoImages.imageViews.length →
          (driverSecondFramebufferFails.framebufferAnswer i).1 = VK_SUCCESS) →
        ∃ framebuffers,
          Vulkanrenderpass.nativeCreateFramebuffers driverSecondFramebufferFails
              (some deviceOneFamily) (some chainTwoImages) 7
            = ⟨true, some { chainTwoImages with framebuffers := framebuffers },
                (List.range chainTwoImages.imageViews.length).map fun i =>
                  VkCall.createFramebuffer 7 (chainTwoImages.imageViews.getD i 0)
                    chainTwoImages.extent.width chainTwoImages.extent.height⟩
          ∧ framebuffers.length = chainTwoImages.imageViews.length
          ∧ ∀ i, i < chainTwoImages.imageViews.length →
              framebuffers.getD i 0 = (driverSecondFramebufferFails.framebufferAnswer i).2)
      ∧ (∀ i, i < chainTwoImages.imageViews.length →
          (driverSecondFramebufferFails.framebufferAnswer i).1 ≠ VK_SUCCESS →
          (∀ j, j < i → (driverSecondFramebufferFails.framebufferAnswer j).1 = VK_SUCCESS) →
          Vulkanrenderpass.nativeCreateFramebuffers driverSecondFramebufferFails
              (some deviceOneFamily) (some chainTwoImages) 7
            = ⟨false, some { chainTwoImages with framebuffers := [] },
                ((List.range (i + 1)).map fun j =>
                  VkCall.createFramebuffer 7 (chainTwoImages.imageViews.getD j 0)
                    chainTwoImages.extent.width chainTwoImages.extent.height)
                ++ (List.range i).map fun j =>
                  VkCall.destroyFramebuffer
                    (driverSecondFramebufferFails.framebufferAnswer j).2⟩)
      ∧ ∀ (device : Option DeviceInfo) (chain : Option SwapchainInfo) (pass : Nat),
          device = none ∨ chain = none ∨ pass = 0 →
          Vulkanrenderpass.nativeCreateFramebuffers driverSecondFramebufferFails device chain
            pass = ⟨false, chain, []⟩)
    ∧ Vulkanrenderpass.nativeCreateFramebuffers driverSecondFramebufferFails
          (some deviceOneFamily) (some chainTwoImages) 7
        = ⟨false, some { chainTwoImages with framebuffers := [] },
            [VkCall.createFramebuffer 7 13 640 480, VkCall.createFramebuffer 7 14 640 480,
              VkCall.destroyFramebuffer 50]⟩
    ∧ Vulkanrenderpass.nativeCreateFramebuffers driverThreeImages
          (some deviceOneFamily) (some chainTwoImages) 7
        = ⟨true, some { chainTwoImages with framebuffers := [50, 51] },
            [VkCall.createFramebuffer 7 13 640 480, VkCall.createFramebuffer 7 14 640 480]⟩ :=
  ⟨by decide,
    c25_create_framebuffers driverSecondFramebufferFails deviceOneFamily chainTwoImages 7
      (by decide),
    by decide, by decide⟩

/-! ### The calls a step appends -/

theorem createLoop_calls_irrelevant (answer : Nat → Int × Nat) (mkCall : Nat → VkCall) :
    ∀ (remaining i : Nat) (slots : List Nat) (calls : List VkCall),
      (createLoop answer mkCall remaining i slots calls).failedAt
          = (createLoop answer mkCall remaining i slots []).failedAt
      ∧ (createLoop answer mkCall remaining i slots calls).slots
          = (createLoop answer mkCall remaining i slots []).slots := by
  intro remaining
  induction remaining with
  | zero => intro i slots calls; exact ⟨rfl, rfl⟩
  | succ n ih =>
    intro i slots calls
    simp only [createLoop]
    split_ifs
    · exact ⟨rfl, rfl⟩
    · rw [(ih (i + 1) _ (calls ++ [mkCall i])).1, (ih (i + 1) _ (calls ++ [mkCall i])).2,
        (ih (i + 1) _ ([] ++ [mkCall i])).1, (ih (i + 1) _ ([] ++ [mkCall i])).2]
      exact ⟨rfl, rfl⟩

theorem createLoop_calls_append (answer : Nat → Int × Nat) (mkCall : Nat → VkCall) :
    ∀ (remaining i : Nat) (slots : List Nat) (calls : List VkCall),
      (createLoop answer mkCall remaining i slots calls).calls
        = calls ++ (createLoop answer mkCall remaining i slots []).calls := by
  intro remaining
  induction remaining with
  | zero => intro i slots calls; simp [createLoop]
  | succ n ih =>
    intro i slots calls
    simp only [createLoop]
    split_ifs
    · rfl
    · rw [ih (i + 1) _ (calls ++ [mkCall i]), ih (i + 1) _ ([] ++ [mkCall i]),
        List.nil_append, List.append_assoc]

theorem createImageViews_calls_append (drv : Driver) (swapchainInfo : SwapchainInfo)
    (images : List Nat) (calls : List VkCall) :
    (Vulkanswapchain.createImageViews drv swapchainInfo images calls).calls
      = calls ++ (Vulkanswapchain.createImageViews drv swapchainInfo images []).calls := by
  simp only [Vulkanswapchain.createImageViews]
  rw [(createLoop_calls_irrelevant drv.imageViewAnswer _ images.length 0 _ calls).1,
    (createLoop_calls_irrelevant drv.imageViewAnswer _ images.length 0 _ calls).2,
    createLoop_calls_append drv.imageViewAnswer _ images.length 0 _ calls]
  cases (createLoop drv.imageViewAnswer
    (fun i => VkCall.createImageView (images.getD i 0) swapchainInfo.format.format)
    images.length 0 (vectorResize swapchainInfo.imageViews images.length) []).failedAt with
  | none => rfl
  | some i => simp only [List.append_assoc]

theorem createImageViews_filter_of (p : VkCall → Bool)
    (hcreate : ∀ image format, p (VkCall.createImageView image format) = false)
    (hdestroy : ∀ view, p (VkCall.destroyImageView view) = false)
    (drv : Driver) (swapchainInfo : SwapchainInfo) (images : List Nat) (calls : List VkCall) :
    (Vulkanswapchain.createImageViews drv swapchainInfo images calls).calls.filter p
      = calls.filter p := by
  simp only [Vulkanswapchain.createImageViews]
  split
  · rw [List.filter_append, createLoop_calls_filter p _ _ (fun i => hcreate _ _)]
    have hd : ∀ (l : List Nat) (g : Nat → Nat),
        (l.map fun j => VkCall.destroyImageView (g j)).filter p = [] := by
      intro l g
      induction l with
      | nil => rfl
      | cons h t ih => rw [List.map_cons, List.filter_cons, hdestroy]; exact ih
    rw [hd, List.append_nil]
  · exact createLoop_calls_filter p _ _ (fun i => hcreate _ _) _ _ _ _

/-- The image views that `createImageViews` destroys are those it created
before the creation that failed. -/
theorem createImageViews_destroyed (drv : Driver) (swapchainInfo : SwapchainInfo)
    (images : List Nat) :
    destroyedImageViews (Vulkanswapchain.createImageViews drv swapchainInfo images []).calls = []
    ∨ ∃ i, i < images.length ∧ (drv.imageViewAnswer i).1 ≠ VK_SUCCESS
        ∧ destroyedImageViews
            (Vulkanswapchain.createImageViews drv swapchainInfo images []).calls
          = (List.range i).map fun j => (drv.imageViewAnswer j).2 := by
  have hlen : 0 + images.length
      ≤ (vectorResize swapchainInfo.imageViews images.length).length := by
    rw [vectorResize_length]
    omega
  cases hfa : (createLoop drv.imageViewAnswer
    (fun i => VkCall.createImageView (images.getD i 0) swapchainInfo.format.format)
    images.length 0 (vectorResize swapchainInfo.imageViews images.length) []).failedAt with
  | none =>
    left
    simp only [Vulkanswapchain.createImageViews, hfa]
    exact createLoop_calls_filterMap _ _ _ (fun i => rfl) _ _ _ _
  | some i =>
    right
    obtain ⟨-, r2, r3, -, -, r6⟩ := createLoop_failed _ _ _ _ _ _ i hlen hfa
    refine ⟨i, by omega, r3, ?_⟩
    simp only [Vulkanswapchain.createImageViews, hfa, destroyedImageViews]
    rw [List.filterMap_append, createLoop_calls_filterMap _ _ _ (fun i => rfl)]
    rw [List.filterMap_nil, List.nil_append, List.filterMap_map]
    rw [← List.filterMap_eq_map]
    apply List.filterMap_congr
    intro j hj
    rw [List.mem_range] at hj
    simp only [Function.comp_apply, r6 j (Nat.zero_le j) (by omega)]

/-- The call list of an accepted `nativeResizeSwapchain` of Vulkanswapchain.cpp:
the wait, the teardown of the old chain, the surface query, and a remainder that
destroys no framebuffer, waits for nothing and destroys only image views it
created itself. -/
theorem swapchain_resize_calls (ext : Vulkanswapchain.Externs) (drv : Driver)
    (dev : DeviceInfo) (sc : SwapchainInfo) (renderPass : Nat) (width height : Int)
    (hw : 0 < width) (hh : 0 < height) :
    ∃ rest,
      (Vulkanswapchain.nativeResizeSwapchain ext drv (some dev) (some sc) renderPass width
          height).calls
        = [VkCall.deviceWaitIdle] ++ destroyNonNull VkCall.destroyFramebuffer sc.framebuffers
            ++ destroyNonNull VkCall.destroyImageView sc.imageViews
            ++ [VkCall.getSurfaceCapabilities] ++ rest
      ∧ rest.filter isDestroyFramebuffer = []
      ∧ rest.filter isDeviceWaitIdle = []
      ∧ (destroyedImageViews rest = []
          ∨ ∃ i, i < drv.swapchainImages.length ∧ (drv.imageViewAnswer i).1 ≠ VK_SUCCESS
              ∧ destroyedImageViews rest
                = (List.range i).map fun j => (drv.imageViewAnswer j).2) := by
  have hdim : ¬ (width ≤ 0 ∨ height ≤ 0) := by omega
  unfold Vulkanswapchain.nativeResizeSwapchain
  simp only [hdim, if_false]
  by_cases hcaps : drv.capabilitiesResult ≠ VK_SUCCESS
  · rw [if_pos hcaps]
    exact ⟨[], by simp only [List.append_nil], rfl, rfl, Or.inl rfl⟩
  rw [if_neg hcaps]
  by_cases hcreate : drv.createSwapchainResult ≠ VK_SUCCESS
  · rw [if_pos hcreate]
    exact ⟨[_], rfl, rfl, rfl, Or.inl rfl⟩
  rw [if_neg hcreate]
  have hviews := createImageViews_destroyed drv
    { swapchain := drv.newSwapchain
      images := sc.images
      imageViews := []
      framebuffers := []
      format := sc.format
      extent := ext.chooseSwapExtent drv.capabilities (toUint32 width) (toUint32 height) }
    drv.swapchainImages
  have hmid1 : (if sc.swapchain ≠ VK_NULL_HANDLE
      then [VkCall.destroySwapchain sc.swapchain] else []).filter isDestroyFramebuffer = [] := by
    split_ifs <;> rfl
  have hmid2 : (if sc.swapchain ≠ VK_NULL_HANDLE
      then [VkCall.destroySwapchain sc.swapchain] else []).filter isDeviceWaitIdle = [] := by
    split_ifs <;> rfl
  have hmid3 : destroyedImageViews (if sc.swapchain ≠ VK_NULL_HANDLE
      then [VkCall.destroySwapchain sc.swapchain] else []) = [] := by
    split_ifs <;> rfl
  generalize (if sc.swapchain ≠ VK_NULL_HANDLE
      then [VkCall.destroySwapchain sc.swapchain] else []) = mid at hmid1 hmid2 hmid3 ⊢
  unfold destroyedImageViews at hviews hmid3 ⊢
  split_ifs with hok
  · rw [createImageViews_calls_append]
    refine ⟨_, by simp only [List.append_assoc]; rfl, ?_, ?_, ?_⟩
    · simp only [List.filter_append, hmid1,
        createImageViews_filter_of isDestroyFramebuffer (fun _ _ => rfl) (fun _ => rfl)]
      rfl
    · simp only [List.filter_append, hmid2,
        createImageViews_filter_of isDeviceWaitIdle (fun _ _ => rfl) (fun _ => rfl)]
      rfl
    · simp only [List.filterMap_append, hmid3]
      exact hviews
  · split <;>
    · rw [createLoop_calls_append, createImageViews_calls_append]
      refine ⟨_, by simp only [List.append_assoc]; rfl, ?_, ?_, ?_⟩
      · simp only [List.filter_append, hmid1,
          createImageViews_filter_of isDestroyFramebuffer (fun _ _ => rfl) (fun _ => rfl)]
        rw [createLoop_calls_filter isDestroyFramebuffer]
        · rfl
        · intro i
          rfl
      · simp only [List.filter_append, hmid2,
          createImageViews_filter_of isDeviceWaitIdle (fun _ _ => rfl) (fun _ => rfl)]
        rw [createLoop_calls_filter isDeviceWaitIdle]
        · rfl
        · intro i
          rfl
      · simp only [List.filterMap_append, hmid3]
        rw [createLoop_calls_filterMap]
        · rw [List.filterMap_nil, List.append_nil]
          exact hviews
        · intro i
          rfl

/-- The call list of an accepted `nativeResizeSwapchain` of vulkan_renderer.cpp
starts with the wait for the device and holds no other wait. -/
theorem renderer_resize_calls (drv : Driver) (dev : DeviceInfo) (sc : SwapchainInfo)
    (renderPass : Nat) (width height : Int) (hw : 0 < width) (hh : 0 < height) :
    ∃ rest,
      (vulkan_renderer.nativeResizeSwapchain drv (some dev) (some sc) renderPass width
          height).calls = [VkCall.deviceWaitIdle] ++ rest
      ∧ rest.filter isDeviceWaitIdle = [] := by
  have hdim : ¬ (width ≤ 0 ∨ height ≤ 0) := by omega
  have hfb := destroyNonNull_filter isDeviceWaitIdle VkCall.destroyFramebuffer (fun _ => rfl)
    sc.framebuffers
  have hiv := destroyNonNull_filter isDeviceWaitIdle VkCall.destroyImageView (fun _ => rfl)
    sc.imageViews
  unfold vulkan_renderer.nativeResizeSwapchain
  simp only [hdim, if_false]
  by_cases hwait : drv.waitIdleResult ≠ VK_SUCCESS
  · rw [if_pos hwait]
    exact ⟨[], rfl, rfl⟩
  rw [if_neg hwait]
  by_cases hcaps : drv.capabilitiesResult ≠ VK_SUCCESS
  · rw [if_pos hcaps]
    refine ⟨_, by simp only [List.append_assoc]; rfl, ?_⟩
    simp only [List.filter_append, hfb, hiv]
    rfl
  rw [if_neg hcaps]
  by_cases hcreate : drv.createSwapchainResult ≠ VK_SUCCESS
  · rw [if_pos hcreate]
    refine ⟨_, by simp only [List.append_assoc]; rfl, ?_⟩
    simp only [List.filter_append, hfb, hiv]
    rfl
  rw [if_neg hcreate]
  have hmid : (if sc.swapchain ≠ VK_NULL_HANDLE
      then [VkCall.destroySwapchain sc.swapchain] else []).filter isDeviceWaitIdle = [] := by
    split_ifs <;> rfl
  generalize (if sc.swapchain ≠ VK_NULL_HANDLE
      then [VkCall.destroySwapchain sc.swapchain] else []) = mid at hmid ⊢
  split
  · rw [createLoop_calls_append drv.imageViewAnswer]
    refine ⟨_, by simp only [List.append_assoc]; rfl, ?_⟩
    simp only [List.filter_append, hfb, hiv, hmid]
    rw [createLoop_calls_filter isDeviceWaitIdle drv.imageViewAnswer]
    · rfl
    · intro i
      rfl
  · split <;>
    · rw [createLoop_calls_append drv.framebufferAnswer,
        createLoop_calls_append drv.imageViewAnswer]
      refine ⟨_, by simp only [List.append_assoc]; rfl, ?_⟩
      simp only [List.filter_append, hfb, hiv, hmid]
      rw [createLoop_calls_filter isDeviceWaitIdle drv.imageViewAnswer,
        createLoop_calls_filter isDeviceWaitIdle drv.framebufferAnswer]
      · rfl
      · intro i
        rfl
      · intro i
        rfl

/-- C22: in every run of `nativeResizeSwapchain` of Vulkanswapchain.cpp that
passes its argument checks, the calls after the wait are one
`vkDestroyFramebuffer` per non-null framebuffer of the old chain, in list order,
then one `vkDestroyImageView` per non-null image view of the old chain, in list
order, then the surface-capabilities query; nothing after the query destroys a
framebuffer, and the only image views destroyed after it are views this call
created before a creation that failed.  Both lists are empty when the query is
made: a run that stops at a failed query leaves the chain with both empty. -/
theorem c22_resize_teardown_order (ext : Vulkanswapchain.Externs) (drv : Driver)
    (dev : DeviceInfo) (sc : SwapchainInfo) (renderPass : Nat) (width height : Int)
    (hw : 0 < width) (hh : 0 < height) :
    ∃ rest,
      (Vulkanswapchain.nativeResizeSwapchain ext drv (some dev) (some sc) renderPass width
          height).calls
        = VkCall.deviceWaitIdle ::
            ((sc.framebuffers.filter fun h => h ≠ VK_NULL_HANDLE).map VkCall.destroyFramebuffer
              ++ (sc.imageViews.filter fun h => h ≠ VK_NULL_HANDLE).map VkCall.destroyImageView
              ++ VkCall.getSurfaceCapabilities :: rest)
      ∧ rest.filter isDestroyFramebuffer = []
      ∧ (destroyedImageViews rest = []
          ∨ ∃ i, i < drv.swapchainImages.length ∧ (drv.imageViewAnswer i).1 ≠ VK_SUCCESS
              ∧ destroyedImageViews rest
                = (List.range i).map fun j => (drv.imageViewAnswer j).2)
      ∧ (drv.capabilitiesResult ≠ VK_SUCCESS →
          rest = []
          ∧ (Vulkanswapchain.nativeResizeSwapchain ext drv (some dev) (some sc) renderPass
              width height).info
            = some { sc with framebuffers := [], imageViews := [] }) := by
  obtain ⟨rest, h1, h2, -, h4⟩ :=
    swapchain_resize_calls ext drv dev sc renderPass width height hw hh
  have hdim : ¬ (width ≤ 0 ∨ height ≤ 0) := by omega
  refine ⟨rest, ?_, h2, h4, ?_⟩
  · rw [h1]
    simp only [destroyNonNull, List.append_assoc, List.singleton_append, List.cons_append,
      List.nil_append]
  · intro hcaps
    have hrun : Vulkanswapchain.nativeResizeSwapchain ext drv (some dev) (some sc) renderPass
        width height
        = ⟨false, some { sc with framebuffers := [], imageViews := [] },
            [VkCall.deviceWaitIdle] ++ destroyNonNull VkCall.destroyFramebuffer sc.framebuffers
              ++ destroyNonNull VkCall.destroyImageView sc.imageViews
              ++ [VkCall.getSurfaceCapabilities]⟩ := by
      unfold Vulkanswapchain.nativeResizeSwapchain
      simp only [hdim, if_false]
      rw [if_pos hcaps]
    constructor
    · rw [hrun] at h1
      have h5 := congrArg List.length h1
      simp only [List.length_append] at h5
      exact List.eq_nil_of_length_eq_zero (by omega)
    · rw [hrun]

/-- C22 witness: an 800x600 resize of the chain with framebuffers 15, 16 and
image views 13, 14. -/
theorem c22_resize_teardown_order_witness :
    (0 : Int) < 800 ∧ (0 : Int) < 600
    ∧ (∃ rest,
        (Vulkanswapchain.nativeResizeSwapchain externsExample driverThreeImages
            (some deviceOneFamily) (some chainTwoImages) 7 800 600).calls
          = VkCall.deviceWaitIdle ::
              ((chainTwoImages.framebuffers.filter fun h => h ≠ VK_NULL_HANDLE).map
                  VkCall.destroyFramebuffer
                ++ (chainTwoImages.imageViews.filter fun h => h ≠ VK_NULL_HANDLE).map
                  VkCall.destroyImageView
                ++ VkCall.getSurfaceCapabilities :: rest)
        ∧ rest.filter isDestroyFramebuffer = []
        ∧ (destroyedImageViews rest = []
            ∨ ∃ i, i < driverThreeImages.swapchainImages.length
                ∧ (driverThreeImages.imageViewAnswer i).1 ≠ VK_SUCCESS
                ∧ destroyedImageViews rest
                  = (List.range i).map fun j => (driverThreeImages.imageViewAnswer j).2)
        ∧ (driverThreeImages.capabilitiesResult ≠ VK_SUCCESS →
            rest = []
            ∧ (Vulkanswapchain.nativeResizeSwapchain externsExample driverThreeImages
                (some deviceOneFamily) (some chainTwoImages) 7 800 600).info
              = some { chainTwoImages with framebuffers := [], imageViews := [] }))
    ∧ (Vulkanswapchain.nativeResizeSwapchain externsExample driverThreeImages
          (some deviceOneFamily) (some chainTwoImages) 7 800 600).calls.take 6
        = [VkCall.deviceWaitIdle, VkCall.destroyFramebuffer 15, VkCall.destroyFramebuffer 16,
            VkCall.destroyImageView 13, VkCall.destroyImageView 14,
            VkCall.getSurfaceCapabilities]
    ∧ (Vulkanswapchain.nativeResizeSwapchain externsExample
          { driverThreeImages with capabilitiesResult := -1 }
          (some deviceOneFamily) (some chainTwoImages) 7 800 600)
        = ⟨false, some { chainTwoImages with framebuffers := [], imageViews := [] },
            [VkCall.deviceWaitIdle, VkCall.destroyFramebuffer 15, VkCall.destroyFramebuffer 16,
              VkCall.destroyImageView 13, VkCall.destroyImageView 14,
              VkCall.getSurfaceCapabilities]⟩ :=
  ⟨by decide, by decide,
    c22_resize_teardown_order externsExample driverThreeImages deviceOneFamily chainTwoImages
      7 800 600 (by decide) (by decide),
    by decide, by decide⟩

/-- C23 counterexample: an 800x600 resize of a two-image chain.  In both
implementations the first Vulkan call `nativeResizeSwapchain` issues is
`vkDeviceWaitIdle`: the wait is made by the function itself. -/
theorem c23_resize_waits_for_device :
    (Vulkanswapchain.nativeResizeSwapchain externsExample driverThreeImages
        (some deviceOneFamily) (some chainTwoImages) 7 800 600).calls.head?
      = some VkCall.deviceWaitIdle
    ∧ (vulkan_renderer.nativeResizeSwapchain driverThreeImages
        (some deviceOneFamily) (some chainTwoImages) 7 800 600).calls.head?
      = some VkCall.deviceWaitIdle := by
  decide

/-- C23 amended: whenever its arguments pass the checks, `nativeResizeSwapchain`
issues exactly one `vkDeviceWaitIdle`, as its first Vulkan call, in
Vulkanswapchain.cpp and in vulkan_renderer.cpp alike.  Vulkanswapchain.cpp does
not look at the outcome of the wait; vulkan_renderer.cpp returns false right
after a wait that fails, leaving the chain as it was. -/
theorem c23_resize_device_wait (ext : Vulkanswapchain.Externs) (drv : Driver)
    (dev : DeviceInfo) (sc : SwapchainInfo) (renderPass : Nat) (width height : Int)
    (hw : 0 < width) (hh : 0 < height) :
    ((Vulkanswapchain.nativeResizeSwapchain ext drv (some dev) (some sc) renderPass width
        height).calls.head? = some VkCall.deviceWaitIdle
      ∧ (Vulkanswapchain.nativeResizeSwapchain ext drv (some dev) (some sc) renderPass width
        height).calls.filter isDeviceWaitIdle = [VkCall.deviceWaitIdle]
      ∧ ∀ result, Vulkanswapchain.nativeResizeSwapchain ext
            { drv with waitIdleResult := result } (some dev) (some sc) renderPass width height
          = Vulkanswapchain.nativeResizeSwapchain ext drv (some dev) (some sc) renderPass
              width height)
    ∧ ((vulkan_renderer.nativeResizeSwapchain drv (some dev) (some sc) renderPass width
        height).calls.head? = some VkCall.deviceWaitIdle
      ∧ (vulkan_renderer.nativeResizeSwapchain drv (some dev) (some sc) renderPass width
        height).calls.filter isDeviceWaitIdle = [VkCall.deviceWaitIdle]
      ∧ (drv.waitIdleResult ≠ VK_SUCCESS →
          vulkan_renderer.nativeResizeSwapchain drv (some dev) (some sc) renderPass width
            height = ⟨false, some sc, [VkCall.deviceWaitIdle]⟩)) := by
  obtain ⟨rest, h1, -, h3, -⟩ :=
    swapchain_resize_calls ext drv dev sc renderPass width height hw hh
  obtain ⟨rest2, k1, k2⟩ := renderer_resize_calls drv dev sc renderPass width height hw hh
  have hdim : ¬ (width ≤ 0 ∨ height ≤ 0) := by omega
  refine ⟨⟨?_, ?_, ?_⟩, ?_, ?_, ?_⟩
  · rw [h1]
    simp only [List.append_assoc, List.singleton_append, List.cons_append, List.head?_cons]
  · rw [h1]
    simp only [List.filter_append, h3,
      destroyNonNull_filter isDeviceWaitIdle VkCall.destroyFramebuffer (fun _ => rfl),
      destroyNonNull_filter isDeviceWaitIdle VkCall.destroyImageView (fun _ => rfl)]
    rfl
  · intro result
    rfl
  · rw [k1]
    rfl
  · rw [k1, List.filter_append, k2]
    rfl
  · intro hwait
    unfold vulkan_renderer.nativeResizeSwapchain
    simp only [hdim, if_false]
    rw [if_pos hwait]

/-- C23 witness: an 800x600 resize of the two-image chain. -/
theorem c23_resize_device_wait_witness :
    (0 : Int) < 800 ∧ (0 : Int) < 600
    ∧ (((Vulkanswapchain.nativeResizeSwapchain externsExample driverThreeImages
          (some deviceOneFamily) (some chainTwoImages) 7 800 600).calls.head?
          = some VkCall.deviceWaitIdle
        ∧ (Vulkanswapchain.nativeResizeSwapchain externsExample driverThreeImages
          (some deviceOneFamily) (some chainTwoImages) 7 800 600).calls.filter isDeviceWaitIdle
          = [VkCall.deviceWaitIdle]
        ∧ ∀ result, Vulkanswapchain.nativeResizeSwapchain externsExample
              { driverThreeImages with waitIdleResult := result } (some deviceOneFamily)
              (some chainTwoImages) 7 800 600
            = Vulkanswapchain.nativeResizeSwapchain externsExample driverThreeImages
                (some deviceOneFamily) (some chainTwoImages) 7 800 600)
      ∧ ((vulkan_renderer.nativeResizeSwapchain driverThreeImages (some deviceOneFamily)
          (some chainTwoImages) 7 800 600).calls.head? = some VkCall.deviceWaitIdle
        ∧ (vulkan_renderer.nativeResizeSwapchain driverThreeImages (some deviceOneFamily)
          (some chainTwoImages) 7 800 600).calls.filter isDeviceWaitIdle
          = [VkCall.deviceWaitIdle]
        ∧ (driverThreeImages.waitIdleResult ≠ VK_SUCCESS →
            vulkan_renderer.nativeResizeSwapchain driverThreeImages (some deviceOneFamily)
              (some chainTwoImages) 7 800 600
              = ⟨false, some chainTwoImages, [VkCall.deviceWaitIdle]⟩))) :=
  ⟨by decide, by decide,
    c23_resize_device_wait externsExample driverThreeImages deviceOneFamily chainTwoImages
      7 800 600 (by decide) (by decide)⟩

end VulkanAndroid
